import Mathlib

/-!
# QtTapiModem: the `TAPIModem` class as a state-passing model

Source: `src/qttapimodem.h`, `src/qttapimodem.cpp`.

* The object's member variables are the fields of the structure `TAPIModem`.
* Every member function is a Lean function from the state before the call to
  the state after it, together with the *trace* of the call: the Qt signals it
  emitted, the mutex operations it performed and the TAPI `line*` functions it
  called, in program order.
* The telephony subsystem and the operating system are not part of the
  repository.  What they answer during one member-function call is the
  argument `env : Env`; the member functions are deterministic in it.
* The retry loops of the source have no bound of their own.  Their models take
  a `fuel : Nat` (the number of subsystem calls a loop may make) and return
  `none` when the fuel is used up before the loop is left.
* Machine integers: `LONG` results are `Int` (the `(LONG)` cast of a `DWORD`
  constant is `toLONG`), sizes, handles and byte counts are `Nat`.
* The static function `TAPIModemInfo::availableModems` opens a session of its
  own; its model (namespace `TAPIModemInfo`) has its own subsystem answers and
  its own trace of calls.
-/

/-! ## Enumerations of `qttapimodem.h` -/

/-- The enumeration `TAPIModem::TAPIError` is kept as its numeric code, because
two of its enumerators are declared with the same value in the header. -/
abbrev TAPIModem.TAPIError := Nat

@[reducible] def TAPIModem.NoError : TAPIModem.TAPIError := 0x00
@[reducible] def TAPIModem.InitError : TAPIModem.TAPIError := 0x01
@[reducible] def TAPIModem.CommAquireError : TAPIModem.TAPIError := 0x02
@[reducible] def TAPIModem.LineReplyError : TAPIModem.TAPIError := 0x03
@[reducible] def TAPIModem.CallStatusAquireError : TAPIModem.TAPIError := 0x04
@[reducible] def TAPIModem.CallDeallocationError : TAPIModem.TAPIError := 0x05
@[reducible] def TAPIModem.NoDeviceFoundError : TAPIModem.TAPIError := 0x06
@[reducible] def TAPIModem.NegotiationError : TAPIModem.TAPIError := 0x07
@[reducible] def TAPIModem.LineOpenError : TAPIModem.TAPIError := 0x08
@[reducible] def TAPIModem.CallMakeError : TAPIModem.TAPIError := 0x09
@[reducible] def TAPIModem.CommWriteError : TAPIModem.TAPIError := 0x0A
@[reducible] def TAPIModem.LineDeallocationError : TAPIModem.TAPIError := 0x0B
@[reducible] def TAPIModem.CommReadError : TAPIModem.TAPIError := 0x0B
@[reducible] def TAPIModem.OperationError : TAPIModem.TAPIError := 0xFF

inductive TAPIModem.TAPIState where
  | Uninitialized
  | Initialized
  deriving DecidableEq, Repr

inductive TAPIModem.CallState where
  | CallDefaultState
  | CallDialing
  | CallBusy
  | CallIdle
  | CallCannotDial
  | CallDisconnected
  | CallConnected
  | CallUnknown
  deriving DecidableEq, Repr

inductive TAPIModem.DisconnectReason where
  | DisconnectDefaultState
  | DisconnectByRemote
  | DisconnectReject
  | DisconnectPickup
  | DisconnectForwarded
  | DisconnectBusy
  | DisconnectNoAnswer
  | DisconnectBadAddress
  | DisconnectUnreachable
  | DisconnectCongestion
  | DisconnectIncompatible
  | DisconnectUnavailable
  | DisconnectNoDialTone
  | DisconnectBlocked
  | DisconnectCancelled
  | DisconnectDoNotDisturb
  | DisconnectNumberChanged
  | DisconnectOutOfOrder
  | DisconnectQOSUnavailable
  | DisconnectTemporaryFailure
  | DisconnectedByFunction
  | DisconnectUnknown
  deriving DecidableEq, Repr

inductive TAPIModem.LineState where
  | LineClosed
  | LineOpened
  | LineDisconnected
  | LineMaintenance
  | LineOutOfService
  | LineDeviceRemoved
  | LineReinitialization
  | LineUnknown
  deriving DecidableEq, Repr

/-! ## Constants of the platform headers (`windows.h`, `tapi.h`)

These headers are not part of the repository; the values are the ones of the
Windows SDK.  The general theorems below use of them only that the `LINEERR_*`
values are negative as `LONG` and that the constants one switch tells apart
are pairwise different. -/

/-- The cast `(LONG)` of a 32-bit `DWORD` value. -/
def toLONG (d : Nat) : Int :=
  if d % 2 ^ 32 < 2 ^ 31 then ((d % 2 ^ 32 : Nat) : Int) else ((d % 2 ^ 32 : Nat) : Int) - 2 ^ 32

@[reducible] def LINEERR_BADDEVICEID : Nat := 0x80000002
@[reducible] def LINEERR_INVALAPPHANDLE : Nat := 0x8000002A
@[reducible] def LINEERR_INVALCALLSTATE : Nat := 0x80000032
@[reducible] def LINEERR_INVALPOINTER : Nat := 0x80000035
@[reducible] def LINEERR_NODEVICE : Nat := 0x80000042
@[reducible] def LINEERR_NOMEM : Nat := 0x80000044
@[reducible] def LINEERR_OPERATIONFAILED : Nat := 0x80000048
@[reducible] def LINEERR_REINIT : Nat := 0x80000052

@[reducible] def LINE_CALLSTATE : Nat := 2
@[reducible] def LINE_CLOSE : Nat := 3
@[reducible] def LINE_LINEDEVSTATE : Nat := 8
@[reducible] def LINE_REPLY : Nat := 12
@[reducible] def LINE_CREATE : Nat := 19

@[reducible] def LINECALLSTATE_IDLE : Nat := 0x00000001
@[reducible] def LINECALLSTATE_DIALING : Nat := 0x00000010
@[reducible] def LINECALLSTATE_BUSY : Nat := 0x00000040
@[reducible] def LINECALLSTATE_SPECIALINFO : Nat := 0x00000080
@[reducible] def LINECALLSTATE_CONNECTED : Nat := 0x00000100
@[reducible] def LINECALLSTATE_DISCONNECTED : Nat := 0x00004000

@[reducible] def LINEDISCONNECTMODE_NORMAL : Nat := 0x00000001
@[reducible] def LINEDISCONNECTMODE_REJECT : Nat := 0x00000004
@[reducible] def LINEDISCONNECTMODE_PICKUP : Nat := 0x00000008
@[reducible] def LINEDISCONNECTMODE_FORWARDED : Nat := 0x00000010
@[reducible] def LINEDISCONNECTMODE_BUSY : Nat := 0x00000020
@[reducible] def LINEDISCONNECTMODE_NOANSWER : Nat := 0x00000040
@[reducible] def LINEDISCONNECTMODE_BADADDRESS : Nat := 0x00000080
@[reducible] def LINEDISCONNECTMODE_UNREACHABLE : Nat := 0x00000100
@[reducible] def LINEDISCONNECTMODE_CONGESTION : Nat := 0x00000200
@[reducible] def LINEDISCONNECTMODE_INCOMPATIBLE : Nat := 0x00000400
@[reducible] def LINEDISCONNECTMODE_UNAVAIL : Nat := 0x00000800
@[reducible] def LINEDISCONNECTMODE_NODIALTONE : Nat := 0x00001000
@[reducible] def LINEDISCONNECTMODE_NUMBERCHANGED : Nat := 0x00002000
@[reducible] def LINEDISCONNECTMODE_OUTOFORDER : Nat := 0x00004000
@[reducible] def LINEDISCONNECTMODE_TEMPFAILURE : Nat := 0x00008000
@[reducible] def LINEDISCONNECTMODE_QOSUNAVAIL : Nat := 0x00010000
@[reducible] def LINEDISCONNECTMODE_BLOCKED : Nat := 0x00020000
@[reducible] def LINEDISCONNECTMODE_DONOTDISTURB : Nat := 0x00040000
@[reducible] def LINEDISCONNECTMODE_CANCELLED : Nat := 0x00080000

@[reducible] def LINEDEVSTATE_DISCONNECTED : Nat := 0x00000008
@[reducible] def LINEDEVSTATE_OUTOFSERVICE : Nat := 0x00000080
@[reducible] def LINEDEVSTATE_MAINTENANCE : Nat := 0x00000100
@[reducible] def LINEDEVSTATE_REINIT : Nat := 0x00040000
@[reducible] def LINEDEVSTATE_REMOVED : Nat := 0x01000000

/-- The value `(HANDLE)-1` on a 64-bit platform. -/
@[reducible] def INVALID_HANDLE_VALUE : Nat := 2 ^ 64 - 1
/-- The null handle. -/
@[reducible] def NULL : Nat := 0
@[reducible] def FILE_TYPE_CHAR : Nat := 0x0002
@[reducible] def EV_RXCHAR : Nat := 0x0001
@[reducible] def EV_TXEMPTY : Nat := 0x0004
/-- The value of `sizeof(LINECALLSTATUS)`. -/
@[reducible] def sizeof_LINECALLSTATUS : Nat := 56
/-- The value of `sizeof(VARSTRING)`. -/
@[reducible] def sizeof_VARSTRING : Nat := 24

/-! ## Traces -/

/-- The four mutexes of the class. -/
inductive Mutex where
  | lineAppMutex
  | callMutex
  | lineMutex
  | commMutex
  deriving DecidableEq, Repr

/-- The TAPI functions the class calls. -/
inductive TapiCall where
  | lineInitializeEx
  | lineShutdown
  | lineNegotiateAPIVersion
  | lineOpen
  | lineSetStatusMessages
  | lineMakeCall
  | lineGetCallStatus
  | lineDrop
  | lineDeallocateCall
  | lineClose
  | lineGetMessage
  | lineGetID
  deriving DecidableEq, Repr

/-- One entry of a trace: a mutex operation, a TAPI call, or an emitted signal
(the signals of `TAPIModem` and the two `QIODevice` signals the class emits). -/
inductive Event where
  | lock (m : Mutex)
  | unlock (m : Mutex)
  | call (f : TapiCall)
  | errorOccurred (e : TAPIModem.TAPIError)
  | tapiStateChanged (t : TAPIModem.TAPIState)
  | callStateChanged (c : TAPIModem.CallState)
  | lineStateChanged (l : TAPIModem.LineState)
  | connected
  | disconnected
  | lineReplyOccured (request : Int) (reply : Int)
  | bytesWritten (n : Nat)
  | readyRead
  deriving DecidableEq, Repr

/-- Whether a trace entry is an emitted signal. -/
def Event.isSignal : Event → Bool
  | .lock _ => false
  | .unlock _ => false
  | .call _ => false
  | _ => true

/-- The trace entries `hangupCall` produces: mutex operations, TAPI calls,
`errorOccurred` with one of its three error kinds, `tapiStateChanged(Uninitialized)`
and `disconnected`. -/
def Event.isTeardown : Event → Bool
  | .lock _ => true
  | .unlock _ => true
  | .call _ => true
  | .errorOccurred e =>
    decide (e = TAPIModem.CallStatusAquireError ∨ e = TAPIModem.CallDeallocationError ∨
      e = TAPIModem.LineDeallocationError)
  | .tapiStateChanged t => decide (t = .Uninitialized)
  | .disconnected => true
  | _ => false

/-- The signals of a trace, in the order of their emission. -/
def signals (tr : List Event) : List Event :=
  tr.filter Event.isSignal

/-- The trace `t` repeated `n` times. -/
def repeatTrace (t : List Event) : Nat → List Event
  | 0 => []
  | n + 1 => t ++ repeatTrace t n

/-! ## The object state -/

/-- The member variables of `TAPIModem` (qttapimodem.h, lines 108-145) that
the modelled functions read or write, with their in-class initial values.
`tapiEventNotifier` and `commIOEventNotifier` record whether the pointer is
non-null; `pendingOverlappedWrites` holds the addresses of the `OVERLAPPED`
objects; `openMode` records whether the `QIODevice` base is open.
`receivedEventMask` is written by the operating system when the standing
`WaitCommEvent` completes, so it is read from the environment (`Env`). -/
structure TAPIModem where
  errFlag : TAPIModem.TAPIError := TAPIModem.NoError
  tapiStateFlag : TAPIModem.TAPIState := .Uninitialized
  callStateFlag : TAPIModem.CallState := .CallDefaultState
  disconnectFlag : TAPIModem.DisconnectReason := .DisconnectDefaultState
  lineStateFlag : TAPIModem.LineState := .LineClosed
  hLineApp : Nat := 0
  tapiEventNotifier : Bool := false
  hcCurrentCall : Nat := 0
  destinationNumber : String := ""
  hlDevice : Nat := 0
  dwDeviceId : Nat := 0
  hCommFile : Nat := INVALID_HANDLE_VALUE
  pendingOverlappedWrites : List Nat := []
  commIOEventNotifier : Bool := false
  bufferSem : Nat := 0
  modemReadBuffer : List Nat := []
  openMode : Bool := false
  deriving DecidableEq, Repr

/-! ## The environment of one call -/

/-- What `lineGetCallStatus` leaves in the record: its result and the fields
`dwNeededSize` and `dwCallState` it writes. -/
structure CallStatusReply where
  ret : Int
  dwNeededSize : Nat
  dwCallState : Nat
  deriving DecidableEq, Repr

/-- What `lineGetID` leaves in the `VARSTRING`: its result, the field
`dwNeededSize`, and the handle stored at `dwStringOffset`. -/
structure VarStringReply where
  ret : Int
  dwNeededSize : Nat
  handle : Nat
  deriving DecidableEq, Repr

/-- The fields of `LINEMESSAGE` that `on_TAPIevent` reads. -/
structure LINEMESSAGE where
  hDevice : Nat := 0
  dwMessageID : Nat := 0
  dwParam1 : Nat := 0
  dwParam2 : Nat := 0
  deriving DecidableEq, Repr

/-- The outcome of `WriteFile`: it returned true, or it returned false with
`GetLastError() == ERROR_IO_PENDING`, or it returned false with another
error. -/
inductive WriteOutcome where
  | completed
  | pending
  | failed
  deriving DecidableEq, Repr

/-- The outcome of `GetOverlappedResult` on a pending write: true with the
byte count, or false with `ERROR_IO_INCOMPLETE`, or false with another
error. -/
inductive OverlappedOutcome where
  | completed (bytes : Nat)
  | incomplete
  | failed
  deriving DecidableEq, Repr

/-- The outcome of `ReadFile` in `com_readReady`: the bytes delivered (at once,
or after `ERROR_IO_PENDING` by the waiting `GetOverlappedResult`), or a
failure with another error. -/
inductive ReadOutcome where
  | completed (data : List Nat)
  | pending (data : List Nat)
  | failed
  deriving DecidableEq, Repr

/-- The answers of the telephony subsystem and of the operating system during
one member-function call.  A function called in a retry loop answers by the
number of the attempt (from 0); `lineGetCallStatus` and `lineGetID` also see
the `dwTotalSize` the record carries.  A call that runs the same loop twice
gets the same answers both times. -/
structure Env where
  /-- Result of `lineInitializeEx` and the session handle it stores. -/
  lineInitializeEx : Nat → Int × Nat := fun _ => (0, 1)
  lineNegotiateAPIVersion : Int := 0
  /-- Result of `lineOpen` and the line handle it stores. -/
  lineOpen : Int × Nat := (0, 1)
  lineSetStatusMessages : Int := 0
  /-- Result of `lineMakeCall` and the call handle it stores. -/
  lineMakeCall : Int × Nat := (1, 1)
  lineGetCallStatus : Nat → Nat → CallStatusReply := fun _ _ => ⟨0, 0, 0⟩
  /-- The value read as `dwCallState` from the record after `LocalFree`. -/
  freedCallState : Nat := 0
  /-- Result of `lineDrop`; `hangupCall` does not look at it. -/
  lineDrop : Int := 1
  lineDeallocateCall : Nat → Int := fun _ => 0
  lineClose : Int := 0
  /-- Result of `lineGetMessage` and the message it stores. -/
  lineGetMessage : Int × LINEMESSAGE := (0, {})
  lineGetID : Nat → Nat → VarStringReply := fun _ _ => ⟨0, 0, 1⟩
  /-- Result of `GetFileType` by handle. -/
  GetFileType : Nat → Nat := fun _ => FILE_TYPE_CHAR
  /-- The event mask stored by the standing `WaitCommEvent`. -/
  receivedEventMask : Nat := 0
  /-- The field `cbInQue` when `ClearCommError` succeeds. -/
  ClearCommError : Option Nat := some 0
  ReadFile : ReadOutcome := .completed []
  /-- Address of the `OVERLAPPED` that `writeData` allocates. -/
  newOverlapped : Nat := 0
  WriteFile : WriteOutcome := .completed
  /-- Outcome of `GetOverlappedResult` by address of the `OVERLAPPED`. -/
  GetOverlappedResult : Nat → OverlappedOutcome := fun _ => .incomplete

namespace TAPIModem

/-! ## Member functions -/

/-- The object as constructed: `TAPIModem::TAPIModem` leaves every member at
its in-class initial value (qttapimodem.cpp, lines 12-14). -/
def initialState : TAPIModem := {}

/-- The function `TAPIModem::bytesAvailable` (qttapimodem.cpp, lines 184-187);
`base` is the result of `QIODevice::bytesAvailable()`. -/
def bytesAvailable (s : TAPIModem) (base : Nat) : Nat :=
  s.modemReadBuffer.length + base

/-- The function `TAPIModem::readData` (qttapimodem.cpp, lines 466-487).
`QIODevice::read` passes no negative `maxlen`, so `maxlen` is a `Nat`.
Result: the state, the bytes stored in `data[0..n)`, and the return value. -/
def readData (s : TAPIModem) (maxlen : Nat) : TAPIModem × List Nat × Nat :=
  let n := min maxlen s.modemReadBuffer.length
  if n = 0 then (s, [], 0)
  -- bufferSem.tryAcquire(n) fails when fewer than n units are available
  else if s.bufferSem < n then (s, [], 0)
  else
    ({ s with bufferSem := s.bufferSem - n, modemReadBuffer := s.modemReadBuffer.drop n },
     (List.range n).map (fun i => s.modemReadBuffer.getD i 0),
     n)

/-- The function `TAPIModem::deinitializeTAPI` (qttapimodem.cpp, lines 278-292). -/
def deinitializeTAPI (s : TAPIModem) : TAPIModem × List Event :=
  ({ s with hLineApp := 0, tapiEventNotifier := false, tapiStateFlag := .Uninitialized },
   [.lock .lineAppMutex, .call .lineShutdown, .unlock .lineAppMutex,
    .tapiStateChanged .Uninitialized])

/-- The function `TAPIModem::deinitializeCommPort` (qttapimodem.cpp, lines 417-448):
it takes no mutex, calls no TAPI function and emits no signal. -/
def deinitializeCommPort (s : TAPIModem) : TAPIModem :=
  { s with hCommFile := INVALID_HANDLE_VALUE, commIOEventNotifier := false,
           pendingOverlappedWrites := [] }

/-- How a growing-buffer loop was left: by its error branch, or by its loop
condition with the value read from the record. -/
inductive Negotiated where
  | failed
  | acquired (value : Nat)
  deriving DecidableEq, Repr

/-- The loop around `lineGetCallStatus` in `hangupCall` (qttapimodem.cpp, lines
320-341), from attempt number `attempt`.  `dwSizeOfLineCallStatus` is the local
variable and `dwTotalSize` the field of the record; `LocalReAlloc` keeps the
contents of the record, and the loop assigns only to the local variable.
Result: how the loop was left (with `dwCallState`) and the number of calls of
`lineGetCallStatus` made since attempt 0. -/
def callStatusLoop (env : Env) (dwTotalSize : Nat) :
    (fuel : Nat) → (attempt : Nat) → (dwSizeOfLineCallStatus : Nat) → Option (Negotiated × Nat)
  | 0, _, _ => none
  | fuel + 1, attempt, dwSizeOfLineCallStatus =>
    let r := env.lineGetCallStatus attempt dwTotalSize
    if r.ret < 0 then some (.failed, attempt + 1)
    else
      let dwSizeOfLineCallStatus :=
        if dwTotalSize < r.dwNeededSize then r.dwNeededSize else dwSizeOfLineCallStatus
      if dwTotalSize < r.dwNeededSize then
        callStatusLoop env dwTotalSize fuel (attempt + 1) dwSizeOfLineCallStatus
      else some (.acquired r.dwCallState, attempt + 1)

/-- The loop around `lineDeallocateCall` in `hangupCall` (qttapimodem.cpp, lines
366-379), from attempt number `attempt`.  Result: whether the call was
deallocated (false: the error branch returned) and the number of calls made. -/
def deallocateLoop (env : Env) : (fuel : Nat) → (attempt : Nat) → Option (Bool × Nat)
  | 0, _ => none
  | fuel + 1, attempt =>
    let ret := env.lineDeallocateCall attempt
    if ret < 0 ∧ ret ≠ toLONG LINEERR_INVALCALLSTATE then some (false, attempt + 1)
    else if ret < 0 then deallocateLoop env fuel (attempt + 1)
    else some (true, attempt + 1)

/-- The call of `lineDrop` in `hangupCall` (qttapimodem.cpp, lines 345-364): made
unless the bit `LINECALLSTATE_IDLE` of `dwCallState` is set; its result is
not looked at. -/
def dropTrace (dwCallState : Nat) : List Event :=
  if dwCallState &&& LINECALLSTATE_IDLE = 0 then [.call .lineDrop] else []

/-- The end of the section of `hangupCall` under `callMutex` (qttapimodem.cpp,
lines 345-384): `lineDrop` unless the call is idle, then the deallocation loop.
`tr` is the trace so far, `dwCallState` the value read from the record.  The
Boolean is false when `hangupCall` returned from the error branch (line 376,
with `callMutex` still locked). -/
def dropAndDeallocate (fuel : Nat) (env : Env) (s : TAPIModem) (tr : List Event)
    (dwCallState : Nat) : Option (TAPIModem × List Event × Bool) :=
  match deallocateLoop env fuel 0 with
  | none => none
  | some (true, calls) =>
    some (s, tr ++ dropTrace dwCallState ++ repeatTrace [.call .lineDeallocateCall] calls
               ++ [.unlock .callMutex], true)
  | some (false, calls) =>
    some ((deinitializeTAPI { s with errFlag := CallDeallocationError }).1,
          tr ++ dropTrace dwCallState ++ repeatTrace [.call .lineDeallocateCall] calls
             ++ [.errorOccurred CallDeallocationError]
             ++ (deinitializeTAPI { s with errFlag := CallDeallocationError }).2, false)

/-- The section of `hangupCall` under `callMutex` (qttapimodem.cpp, lines
312-384).  After the error branch of the status loop (lines 325-333, left by
`break`) the source goes on reading `dwCallState` from the freed record; that
value is `env.freedCallState`. -/
def hangupCallSection (fuel : Nat) (env : Env) (s : TAPIModem) :
    Option (TAPIModem × List Event × Bool) :=
  if s.hcCurrentCall = 0 then some (s, [.lock .callMutex, .unlock .callMutex], true)
  else
    match callStatusLoop env (sizeof_LINECALLSTATUS + 1024) fuel 0
        (sizeof_LINECALLSTATUS + 1024) with
    | none => none
    | some (.failed, calls) =>
      dropAndDeallocate fuel env
        (deinitializeTAPI { s with errFlag := CallStatusAquireError }).1
        ([Event.lock .callMutex] ++ repeatTrace [.call .lineGetCallStatus] calls
          ++ [.errorOccurred CallStatusAquireError]
          ++ (deinitializeTAPI { s with errFlag := CallStatusAquireError }).2)
        env.freedCallState
    | some (.acquired dwCallState, calls) =>
      dropAndDeallocate fuel env s
        ([Event.lock .callMutex] ++ repeatTrace [.call .lineGetCallStatus] calls)
        dwCallState

/-- The section of `hangupCall` under `lineMutex` and its end (qttapimodem.cpp,
lines 386-414); `tr` is the trace so far.  The error branch returns with
`lineMutex` still locked (line 399). -/
def closeLineSection (env : Env) (s : TAPIModem) (tr : List Event) : TAPIModem × List Event :=
  if s.hlDevice ≠ 0 then
    if env.lineClose < 0 then
      ((deinitializeTAPI { s with errFlag := LineDeallocationError }).1,
       tr ++ [.lock .lineMutex, .call .lineClose, .errorOccurred LineDeallocationError]
          ++ (deinitializeTAPI { s with errFlag := LineDeallocationError }).2)
    else
      ({ s with hcCurrentCall := 0, hlDevice := 0 },
       tr ++ [.lock .lineMutex, .call .lineClose, .unlock .lineMutex, .disconnected])
  else
    ({ s with hcCurrentCall := 0, hlDevice := 0 },
     tr ++ [.lock .lineMutex, .unlock .lineMutex, .disconnected])

/-- The function `TAPIModem::hangupCall` (qttapimodem.cpp, lines 294-415). -/
def hangupCall (fuel : Nat) (env : Env) (s : TAPIModem) : Option (TAPIModem × List Event) :=
  if s.tapiStateFlag = .Uninitialized then some (s, [])
  else
    match hangupCallSection fuel env (deinitializeCommPort s) with
    | none => none
    | some (s1, tr1, false) => some (s1, tr1)
    | some (s1, tr1, true) => some (closeLineSection env s1 tr1)

/-- The function `TAPIModem::shutdownTAPI` (qttapimodem.cpp, lines 270-276). -/
def shutdownTAPI (fuel : Nat) (env : Env) (s : TAPIModem) : Option (TAPIModem × List Event) :=
  if s.tapiStateFlag = .Uninitialized then some (s, [])
  else
    match hangupCall fuel env s with
    | none => none
    | some (s1, tr1) => some ((deinitializeTAPI s1).1, tr1 ++ (deinitializeTAPI s1).2)

/-- The function `TAPIModem::endConnection` (qttapimodem.cpp, lines 172-182). -/
def endConnection (fuel : Nat) (env : Env) (s : TAPIModem) : Option (TAPIModem × List Event) :=
  match hangupCall fuel env s with
  | none => none
  | some (s1, tr1) =>
    some ({ s1 with callStateFlag := .CallDefaultState, lineStateFlag := .LineClosed,
                    disconnectFlag := .DisconnectedByFunction },
          tr1 ++ [.callStateChanged .CallDefaultState, .lineStateChanged .LineClosed])

/-- The slot `TAPIModem::close` (qttapimodem.cpp, lines 264-268). -/
def close (fuel : Nat) (env : Env) (s : TAPIModem) : Option (TAPIModem × List Event) :=
  match endConnection fuel env s with
  | none => none
  | some (s1, tr1) => some ({ s1 with openMode := false }, tr1)

/-- The loop around `lineInitializeEx` in `initializeTAPI` (qttapimodem.cpp, lines
48-62).  Result: the session handle when the loop was left by its condition,
`none` inside when the error branch returned; and the number of calls made. -/
def initializeLoop (env : Env) : (fuel : Nat) → (attempt : Nat) → Option (Option Nat × Nat)
  | 0, _ => none
  | fuel + 1, attempt =>
    let r := env.lineInitializeEx attempt
    if r.1 < 0 ∧ r.1 ≠ toLONG LINEERR_REINIT then some (none, attempt + 1)
    else if r.1 = toLONG LINEERR_REINIT then initializeLoop env fuel (attempt + 1)
    else some (some r.2, attempt + 1)

/-- The function `TAPIModem::initializeTAPI` (qttapimodem.cpp, lines 29-79),
with its return value. -/
def initializeTAPI (fuel : Nat) (env : Env) (s : TAPIModem) :
    Option (TAPIModem × List Event × Bool) :=
  if s.tapiStateFlag = .Initialized then some (s, [], false)
  else
    match initializeLoop env fuel 0 with
    | none => none
    | some (none, calls) =>
      some ({ s with errFlag := InitError },
            repeatTrace [.call .lineInitializeEx] calls ++ [.errorOccurred InitError], false)
    | some (some h, calls) =>
      some ({ s with hLineApp := h, tapiEventNotifier := true, tapiStateFlag := .Initialized },
            repeatTrace [.call .lineInitializeEx] calls ++ [.tapiStateChanged .Initialized], true)

/-- The section of `connectToNumber` under `callMutex` (qttapimodem.cpp, lines
145-162); `tr` is the trace so far.  The handle out-parameter of `lineMakeCall`
is taken as written only when the call succeeds. -/
def makeCallSection (env : Env) (s : TAPIModem) (tr : List Event) : TAPIModem × List Event :=
  if s.hcCurrentCall = 0 then
    if env.lineMakeCall.1 < 0 then
      ({ s with errFlag := CallMakeError },
       tr ++ [.lock .callMutex, .call .lineMakeCall, .unlock .callMutex,
              .errorOccurred CallMakeError])
    else
      ({ s with hcCurrentCall := env.lineMakeCall.2 },
       tr ++ [.lock .callMutex, .call .lineMakeCall, .unlock .callMutex])
  else (s, tr ++ [.lock .callMutex, .unlock .callMutex])

/-- The function `TAPIModem::connectToNumber()` (qttapimodem.cpp, lines 81-163).
The handle out-parameter of `lineOpen` is taken as written only when the call
succeeds.  `lineMutex` is unlocked inside the `if(hlDevice == 0)` block only. -/
def connectToNumber (env : Env) (s : TAPIModem) : TAPIModem × List Event :=
  if s.tapiStateFlag = .Uninitialized then (s, [])
  else
    let ret := env.lineNegotiateAPIVersion
    if ret < 0 then
      let e := if ret = toLONG LINEERR_NODEVICE ∨ ret = toLONG LINEERR_BADDEVICEID
               then NoDeviceFoundError else NegotiationError
      ({ s with errFlag := e }, [.call .lineNegotiateAPIVersion, .errorOccurred e])
    else
      let tr0 : List Event := [.call .lineNegotiateAPIVersion, .lock .lineMutex]
      if s.hlDevice = 0 then
        let ret := env.lineOpen.1
        if ret < 0 then
          let e := if ret = toLONG LINEERR_NODEVICE ∨ ret = toLONG LINEERR_BADDEVICEID
                   then NoDeviceFoundError else LineOpenError
          ({ s with errFlag := e },
           tr0 ++ [.call .lineOpen, .unlock .lineMutex, .errorOccurred e])
        else
          let s1 := { s with hlDevice := env.lineOpen.2, lineStateFlag := .LineOpened }
          let tr1 : List Event :=
            tr0 ++ [.call .lineOpen, .lineStateChanged .LineOpened, .call .lineSetStatusMessages]
          let ret := env.lineSetStatusMessages
          if ret < 0 then
            let e := if ret = toLONG LINEERR_NODEVICE ∨ ret = toLONG LINEERR_BADDEVICEID
                     then NoDeviceFoundError else OperationError
            ({ s1 with errFlag := e }, tr1 ++ [.unlock .lineMutex, .errorOccurred e])
          else makeCallSection env s1 (tr1 ++ [.unlock .lineMutex])
      else makeCallSection env s tr0

/-- The function `TAPIModem::connectToNumber(modemId, destNumber)`
(qttapimodem.cpp, lines 165-170). -/
def connectToNumberTo (env : Env) (s : TAPIModem) (modemId : Nat) (destNumber : String) :
    TAPIModem × List Event :=
  connectToNumber env { s with dwDeviceId := modemId, destinationNumber := destNumber }

/-- The function `TAPIModem::writeData` (qttapimodem.cpp, lines 489-528),
with its return value. -/
def writeData (fuel : Nat) (env : Env) (s : TAPIModem) (len : Nat) :
    Option (TAPIModem × List Event × Int) :=
  match env.WriteFile with
  | .completed => some (s, [.lock .commMutex, .unlock .commMutex], len)
  | .pending =>
    some ({ s with pendingOverlappedWrites := s.pendingOverlappedWrites ++ [env.newOverlapped] },
          [.lock .commMutex, .unlock .commMutex], len)
  | .failed =>
    match hangupCall fuel env { s with errFlag := CommWriteError } with
    | none => none
    | some (s1, tr1) =>
      some (s1, [.lock .commMutex, .unlock .commMutex, .errorOccurred CommWriteError] ++ tr1, -1)

/-- The function `TAPIModem::initializeCommPort` (qttapimodem.cpp, lines 530-597). -/
def initializeCommPort (env : Env) (s : TAPIModem) : TAPIModem × List Event :=
  if s.hCommFile = NULL then (s, [])
  else if env.GetFileType s.hCommFile ≠ FILE_TYPE_CHAR then (s, [])
  else
    ({ s with commIOEventNotifier := true, openMode := true },
     [.lock .commMutex, .unlock .commMutex, .lock .commMutex, .unlock .commMutex,
      .lock .commMutex, .unlock .commMutex, .lock .commMutex, .unlock .commMutex,
      .connected])

/-- The loop around `lineGetID` in the handler of `LINECALLSTATE_CONNECTED`
(qttapimodem.cpp, lines 718-745), from attempt number `attempt`.
`dwSizeOfVarStr` is the local variable and `dwTotalSize` the field of the
record; `LocalReAlloc` keeps the contents of the record, and the loop assigns
only to the local variable.  Result: how the loop was left (with the handle
stored at `dwStringOffset`) and the number of calls of `lineGetID` made. -/
def lineGetIDLoop (env : Env) (dwTotalSize : Nat) :
    (fuel : Nat) → (attempt : Nat) → (dwSizeOfVarStr : Nat) → Option (Negotiated × Nat)
  | 0, _, _ => none
  | fuel + 1, attempt, dwSizeOfVarStr =>
    let r := env.lineGetID attempt dwTotalSize
    if r.ret ≠ 0 then some (.failed, attempt + 1)
    else
      let dwSizeOfVarStr := if dwTotalSize < r.dwNeededSize then r.dwNeededSize else dwSizeOfVarStr
      if dwTotalSize < r.dwNeededSize then
        lineGetIDLoop env dwTotalSize fuel (attempt + 1) dwSizeOfVarStr
      else some (.acquired r.handle, attempt + 1)

/-- The mapping of the disconnect mode in the handler of
`LINECALLSTATE_DISCONNECTED` (qttapimodem.cpp, lines 669-691). -/
def disconnectReasonOf (dwParam2 : Nat) : DisconnectReason :=
  if dwParam2 = LINEDISCONNECTMODE_NORMAL then .DisconnectByRemote
  else if dwParam2 = LINEDISCONNECTMODE_BUSY then .DisconnectBusy
  else if dwParam2 = LINEDISCONNECTMODE_NOANSWER then .DisconnectNoAnswer
  else if dwParam2 = LINEDISCONNECTMODE_REJECT then .DisconnectReject
  else if dwParam2 = LINEDISCONNECTMODE_PICKUP then .DisconnectPickup
  else if dwParam2 = LINEDISCONNECTMODE_FORWARDED then .DisconnectForwarded
  else if dwParam2 = LINEDISCONNECTMODE_BADADDRESS then .DisconnectBadAddress
  else if dwParam2 = LINEDISCONNECTMODE_UNREACHABLE then .DisconnectUnreachable
  else if dwParam2 = LINEDISCONNECTMODE_CONGESTION then .DisconnectCongestion
  else if dwParam2 = LINEDISCONNECTMODE_INCOMPATIBLE then .DisconnectIncompatible
  else if dwParam2 = LINEDISCONNECTMODE_UNAVAIL then .DisconnectUnavailable
  else if dwParam2 = LINEDISCONNECTMODE_NODIALTONE then .DisconnectUnavailable
  else if dwParam2 = LINEDISCONNECTMODE_BLOCKED then .DisconnectBlocked
  else if dwParam2 = LINEDISCONNECTMODE_CANCELLED then .DisconnectCancelled
  else if dwParam2 = LINEDISCONNECTMODE_DONOTDISTURB then .DisconnectDoNotDisturb
  else if dwParam2 = LINEDISCONNECTMODE_NUMBERCHANGED then .DisconnectNumberChanged
  else if dwParam2 = LINEDISCONNECTMODE_OUTOFORDER then .DisconnectOutOfOrder
  else if dwParam2 = LINEDISCONNECTMODE_QOSUNAVAIL then .DisconnectQOSUnavailable
  else if dwParam2 = LINEDISCONNECTMODE_TEMPFAILURE then .DisconnectTemporaryFailure
  else .DisconnectUnknown

/-- The pattern "assign, emit, `hangupCall()`, break" of `on_TAPIevent`: `s` is
the state after the assignments, `tr` the trace up to the call of `hangupCall`. -/
def thenHangup (fuel : Nat) (env : Env) (s : TAPIModem) (tr : List Event) :
    Option (TAPIModem × List Event) :=
  match hangupCall fuel env s with
  | none => none
  | some (s1, tr1) => some (s1, tr ++ tr1)

/-- The case `LINECALLSTATE_CONNECTED` of `on_TAPIevent` (qttapimodem.cpp, lines
698-761); `tr` is the trace so far. -/
def onConnected (fuel : Nat) (env : Env) (s : TAPIModem) (tr : List Event) :
    Option (TAPIModem × List Event) :=
  if s.callStateFlag = .CallConnected then some (s, tr)
  else
    match lineGetIDLoop env (sizeof_VARSTRING + 1024) fuel 0 (sizeof_VARSTRING + 1024) with
    | none => none
    | some (.failed, calls) =>
      -- `if(hCommFile) CloseHandle(hCommFile)` leaves the member as it is
      thenHangup fuel env { s with errFlag := CommAquireError }
        (tr ++ repeatTrace [.lock .callMutex, .call .lineGetID, .unlock .callMutex] calls
            ++ [.lock .commMutex, .unlock .commMutex, .errorOccurred CommAquireError])
    | some (.acquired h, calls) =>
      some ({ (initializeCommPort env { s with hCommFile := h }).1 with
                callStateFlag := .CallConnected },
            tr ++ repeatTrace [.lock .callMutex, .call .lineGetID, .unlock .callMutex] calls
               ++ [.lock .commMutex, .unlock .commMutex]
               ++ (initializeCommPort env { s with hCommFile := h }).2
               ++ [.callStateChanged .CallConnected])

/-- The case `LINE_CALLSTATE` of `on_TAPIevent` (qttapimodem.cpp, lines 639-767). -/
def onCallState (fuel : Nat) (env : Env) (s : TAPIModem) (msg : LINEMESSAGE)
    (tr : List Event) : Option (TAPIModem × List Event) :=
  if msg.dwParam1 = LINECALLSTATE_DIALING then
    some ({ s with callStateFlag := .CallDialing }, tr ++ [.callStateChanged .CallDialing])
  else if msg.dwParam1 = LINECALLSTATE_BUSY then
    thenHangup fuel env { s with callStateFlag := .CallBusy }
      (tr ++ [.callStateChanged .CallBusy])
  else if msg.dwParam1 = LINECALLSTATE_IDLE then
    thenHangup fuel env { s with callStateFlag := .CallIdle }
      (tr ++ [.callStateChanged .CallIdle])
  else if msg.dwParam1 = LINECALLSTATE_SPECIALINFO then
    thenHangup fuel env { s with callStateFlag := .CallCannotDial }
      (tr ++ [.callStateChanged .CallCannotDial])
  else if msg.dwParam1 = LINECALLSTATE_DISCONNECTED then
    thenHangup fuel env
      { s with disconnectFlag := disconnectReasonOf msg.dwParam2,
               callStateFlag := .CallDisconnected }
      (tr ++ [.callStateChanged .CallDisconnected])
  else if msg.dwParam1 = LINECALLSTATE_CONNECTED then onConnected fuel env s tr
  else some (s, tr)

/-- The case `LINE_LINEDEVSTATE` of `on_TAPIevent` (qttapimodem.cpp, lines 775-821). -/
def onLineDevState (fuel : Nat) (env : Env) (s : TAPIModem) (msg : LINEMESSAGE)
    (tr : List Event) : Option (TAPIModem × List Event) :=
  if msg.dwParam1 = LINEDEVSTATE_REINIT then
    if msg.dwParam2 = 0 then
      match shutdownTAPI fuel env { s with lineStateFlag := .LineReinitialization } with
      | none => none
      | some (s1, tr1) => some (s1, tr ++ [.lineStateChanged .LineReinitialization] ++ tr1)
    else some (s, tr)
  else if msg.dwParam1 = LINEDEVSTATE_OUTOFSERVICE then
    thenHangup fuel env { s with lineStateFlag := .LineOutOfService }
      (tr ++ [.lineStateChanged .LineOutOfService])
  else if msg.dwParam1 = LINEDEVSTATE_DISCONNECTED then
    thenHangup fuel env { s with lineStateFlag := .LineDisconnected }
      (tr ++ [.lineStateChanged .LineDisconnected])
  else if msg.dwParam1 = LINEDEVSTATE_MAINTENANCE then
    thenHangup fuel env { s with lineStateFlag := .LineMaintenance }
      (tr ++ [.lineStateChanged .LineMaintenance])
  else if msg.dwParam1 = LINEDEVSTATE_REMOVED then
    thenHangup fuel env { s with lineStateFlag := .LineDeviceRemoved }
      (tr ++ [.lineStateChanged .LineDeviceRemoved])
  else some (s, tr)

/-- The switch over `dwMessageID` in `on_TAPIevent` (qttapimodem.cpp, lines
636-843), for a message that passed the ownership check; `tr` is the trace so
far. -/
def onMessage (fuel : Nat) (env : Env) (s : TAPIModem) (lmTapiMessage : LINEMESSAGE)
    (tr : List Event) : Option (TAPIModem × List Event) :=
  if lmTapiMessage.dwMessageID = LINE_CALLSTATE then
    onCallState fuel env s lmTapiMessage tr
  else if lmTapiMessage.dwMessageID = LINE_CLOSE then
    thenHangup fuel env { s with lineStateFlag := .LineClosed }
      (tr ++ [.lineStateChanged .LineClosed])
  else if lmTapiMessage.dwMessageID = LINE_LINEDEVSTATE then
    onLineDevState fuel env s lmTapiMessage tr
  else if lmTapiMessage.dwMessageID = LINE_REPLY then
    if lmTapiMessage.dwParam2 ≠ 0 then
      thenHangup fuel env { s with errFlag := LineReplyError }
        (tr ++ [.errorOccurred LineReplyError])
    else
      some (s, tr ++ [.lineReplyOccured (toLONG lmTapiMessage.dwParam1)
                        (toLONG lmTapiMessage.dwParam2)])
  else some (s, tr)

/-- The slot `TAPIModem::on_TAPIevent` (qttapimodem.cpp, lines 600-845). -/
def on_TAPIevent (fuel : Nat) (env : Env) (s : TAPIModem) : Option (TAPIModem × List Event) :=
  let ret := env.lineGetMessage.1
  let lmTapiMessage := env.lineGetMessage.2
  let tr0 : List Event := [.lock .lineAppMutex, .call .lineGetMessage, .unlock .lineAppMutex]
  if ret = toLONG LINEERR_INVALPOINTER ∨ ret = toLONG LINEERR_NOMEM then
    match shutdownTAPI fuel env s with
    | none => none
    | some (s1, tr1) =>
      some ({ s1 with errFlag := OperationError }, tr0 ++ tr1 ++ [.errorOccurred OperationError])
  else if ret = toLONG LINEERR_INVALAPPHANDLE ∨ ret = toLONG LINEERR_OPERATIONFAILED then
    some (s, tr0)
  else if lmTapiMessage.hDevice ≠ s.hcCurrentCall then some (s, tr0)
  else onMessage fuel env s lmTapiMessage tr0

/-- The function `TAPIModem::com_readReady` (qttapimodem.cpp, lines 904-944),
with `comBytesAvailable` (lines 450-464) inlined.  `ReadFile` stores at most the
requested `bytesAvailable` bytes; after its failure `bytesReturned` is 0. -/
def com_readReady (fuel : Nat) (env : Env) (s : TAPIModem) : Option (TAPIModem × List Event) :=
  let tr0 : List Event := [.lock .commMutex, .unlock .commMutex]
  match env.ClearCommError with
  | none => some (s, tr0)
  | some bytesAvailable =>
    if 0 < bytesAvailable then
      let append (s : TAPIModem) (data : List Nat) : TAPIModem :=
        { s with modemReadBuffer := s.modemReadBuffer ++ data.take bytesAvailable,
                 bufferSem := s.bufferSem + (data.take bytesAvailable).length }
      match env.ReadFile with
      | .completed data => some (append s data, tr0 ++ [.readyRead])
      | .pending data => some (append s data, tr0 ++ [.readyRead])
      | .failed =>
        match hangupCall fuel env s with
        | none => none
        | some (s1, tr1) =>
          some (append { s1 with errFlag := CommReadError } [],
                tr0 ++ tr1 ++ [.errorOccurred CommReadError, .readyRead])
    else some (s, tr0)

/-- The first loop over `pendingOverlappedWrites` in `on_COMevent` (qttapimodem.cpp,
lines 865-888).  Result: `none` when a write failed with an error other than
`ERROR_IO_INCOMPLETE`; otherwise `totalBytesWritten` and
`overlappedWritesToDelete`. -/
def scanWrites (env : Env) : List Nat → Nat → List Nat → Option (Nat × List Nat)
  | [], totalBytesWritten, overlappedWritesToDelete =>
    some (totalBytesWritten, overlappedWritesToDelete)
  | o :: rest, totalBytesWritten, overlappedWritesToDelete =>
    match env.GetOverlappedResult o with
    | .completed bytes =>
      scanWrites env rest (totalBytesWritten + bytes) (overlappedWritesToDelete ++ [o])
    | .incomplete => scanWrites env rest totalBytesWritten overlappedWritesToDelete
    | .failed => none

/-- The second loop in `on_COMevent` (qttapimodem.cpp, lines 889-895):
`takeAt(indexOf(o))` followed by `removeOne(v)`, for every `o` to delete.
(`o` is always found when the addresses in the list are pairwise different.) -/
def deleteWrites (pending : List Nat) (overlappedWritesToDelete : List Nat) : List Nat :=
  overlappedWritesToDelete.foldl (fun l o => (l.eraseIdx (l.indexOf o)).erase o) pending

/-- The slot `TAPIModem::on_COMevent` (qttapimodem.cpp, lines 847-902). -/
def on_COMevent (fuel : Nat) (env : Env) (s : TAPIModem) : Option (TAPIModem × List Event) :=
  let r :=
    if env.receivedEventMask &&& EV_RXCHAR ≠ 0 then com_readReady fuel env s else some (s, [])
  match r with
  | none => none
  | some (s1, tr1) =>
    if env.receivedEventMask &&& EV_TXEMPTY ≠ 0 then
      match scanWrites env s1.pendingOverlappedWrites 0 [] with
      | none =>
        thenHangup fuel env { s1 with errFlag := CommWriteError }
          (tr1 ++ [.lock .commMutex, .unlock .commMutex, .errorOccurred CommWriteError])
      | some (totalBytesWritten, overlappedWritesToDelete) =>
        some ({ s1 with pendingOverlappedWrites :=
                  deleteWrites s1.pendingOverlappedWrites overlappedWritesToDelete },
              tr1 ++ [.lock .commMutex, .unlock .commMutex, .bytesWritten totalBytesWritten])
    else some (s1, tr1)

/-! ## Sequences of calls -/

/-- The entry points of the object: its public functions, the two slots the
event notifiers are connected to and the two `QIODevice` hooks; and, on their
own, the private functions `hangupCall` (teardown) and `com_readReady` (the
producer of the inbound buffer). -/
inductive Op where
  | initializeTAPI
  | connectToNumber
  | connectToNumberTo (modemId : Nat) (destNumber : String)
  | endConnection
  | close
  | hangupCall
  | readData (maxlen : Nat)
  | writeData (len : Nat)
  | on_TAPIevent
  | on_COMevent
  | com_readReady
  deriving DecidableEq, Repr

/-- A slot runs only while its notifier exists: `tapiEventNotifier` is created in
`initializeTAPI` and deleted in `deinitializeTAPI`, `commIOEventNotifier` is
created in `initializeCommPort` and removed in `deinitializeCommPort`. -/
def Op.enabled (s : TAPIModem) : Op → Bool
  | .on_TAPIevent => s.tapiEventNotifier
  | .on_COMevent => s.commIOEventNotifier
  | _ => true

/-- One call of an entry point: the state after it and its trace. -/
def runOp (fuel : Nat) (env : Env) (s : TAPIModem) : Op → Option (TAPIModem × List Event)
  | .initializeTAPI => (initializeTAPI fuel env s).map (fun r => (r.1, r.2.1))
  | .connectToNumber => some (connectToNumber env s)
  | .connectToNumberTo modemId destNumber => some (connectToNumberTo env s modemId destNumber)
  | .endConnection => endConnection fuel env s
  | .close => close fuel env s
  | .hangupCall => hangupCall fuel env s
  | .readData maxlen => some ((readData s maxlen).1, [])
  | .writeData len => (writeData fuel env s len).map (fun r => (r.1, r.2.1))
  | .on_TAPIevent => on_TAPIevent fuel env s
  | .on_COMevent => on_COMevent fuel env s
  | .com_readReady => com_readReady fuel env s

/-- The states the object can be in: the constructed object, and every state an
enabled entry point leaves when it returns, whatever the environment answers. -/
inductive Reachable : TAPIModem → Prop where
  | init : Reachable initialState
  | step {s s1 : TAPIModem} {tr : List Event} (fuel : Nat) (env : Env) (op : Op) :
      Reachable s → op.enabled s = true → runOp fuel env s op = some (s1, tr) → Reachable s1

/-- Whether a communication handle is valid: neither `INVALID_HANDLE_VALUE` nor null. -/
def validHandle (h : Nat) : Prop :=
  h ≠ INVALID_HANDLE_VALUE ∧ h ≠ NULL

instance (h : Nat) : Decidable (validHandle h) := by
  unfold validHandle; exact inferInstance

end TAPIModem

/-! ## Concrete states and environments used as examples -/

namespace TAPIModem

/-- A connected modem with ten buffered bytes (`bufferSem` counts the same ten). -/
def tenBuffered : TAPIModem :=
  { tapiStateFlag := .Initialized, tapiEventNotifier := true, hLineApp := 1,
    lineStateFlag := .LineOpened, hlDevice := 2, hcCurrentCall := 3,
    callStateFlag := .CallConnected, hCommFile := 4, commIOEventNotifier := true,
    openMode := true,
    modemReadBuffer := [10, 11, 12, 13, 14, 15, 16, 17, 18, 19], bufferSem := 10 }

/-- A subsystem in which every call succeeds at once: the line gets handle 2,
the call handle 3 and the communication handle 4 (a character device). -/
def envOk : Env :=
  { lineInitializeEx := fun _ => (0, 1)
    lineOpen := (0, 2)
    lineMakeCall := (1, 3)
    lineGetCallStatus := fun _ _ => ⟨0, 56, LINECALLSTATE_CONNECTED⟩
    lineGetID := fun _ _ => ⟨0, 28, 4⟩ }

/-- The subsystem `envOk` delivering the signaling message `m`. -/
def envMsg (m : LINEMESSAGE) : Env :=
  { envOk with lineGetMessage := (0, m) }

/-- The subsystem `envOk` with a `WriteFile` that fails. -/
def envWriteFails : Env :=
  { envOk with WriteFile := .failed }

/-- The message `LINE_CALLSTATE` with state `dwParam1` for the call with handle 3. -/
def msgCallState (dwParam1 : Nat) : LINEMESSAGE :=
  { hDevice := 3, dwMessageID := LINE_CALLSTATE, dwParam1 := dwParam1 }

/-- The state after `initializeTAPI()` on the constructed object, under `envOk`. -/
def stInitialized : TAPIModem :=
  { tapiStateFlag := .Initialized, hLineApp := 1, tapiEventNotifier := true }

/-- The state after `connectToNumber(3, "+1-555-0100")` in `stInitialized`. -/
def stDialed : TAPIModem :=
  { stInitialized with
    dwDeviceId := 3, destinationNumber := "+1-555-0100",
    lineStateFlag := .LineOpened, hlDevice := 2, hcCurrentCall := 3 }

/-- The state after the message `LINECALLSTATE_CONNECTED` in `stDialed`. -/
def stConnected : TAPIModem :=
  { stDialed with
    callStateFlag := .CallConnected, hCommFile := 4, commIOEventNotifier := true,
    openMode := true }

/-- The state after a failing `writeData` in `stConnected`. -/
def stWriteFailed : TAPIModem :=
  { stConnected with
    errFlag := CommWriteError, hCommFile := INVALID_HANDLE_VALUE,
    commIOEventNotifier := false, hcCurrentCall := 0, hlDevice := 0 }

/-- The state after the message `LINECALLSTATE_DIALING` in `stConnected`. -/
def stDialingAgain : TAPIModem :=
  { stConnected with callStateFlag := .CallDialing }

/-- The subsystem `envOk` with three received bytes waiting on the port and an
event mask that reports them. -/
def envReceive : Env :=
  { envOk with receivedEventMask := EV_RXCHAR, ClearCommError := some 3,
               ReadFile := .completed [72, 105, 33] }

/-- The state after `on_COMevent` under `envReceive` in `stConnected`. -/
def stReceived : TAPIModem :=
  { stConnected with modemReadBuffer := [72, 105, 33], bufferSem := 3 }

/-- The state after `readData` with `maxlen = 2` in `stReceived`. -/
def stRead : TAPIModem :=
  { stConnected with modemReadBuffer := [33], bufferSem := 1 }

/-- The state after a clean `hangupCall` in `stRead`. -/
def stReadTornDown : TAPIModem :=
  { stRead with hCommFile := INVALID_HANDLE_VALUE, commIOEventNotifier := false,
                hcCurrentCall := 0, hlDevice := 0 }

/-- The state after a clean `hangupCall` in `stConnected`. -/
def stTornDown : TAPIModem :=
  { stConnected with hCommFile := INVALID_HANDLE_VALUE, commIOEventNotifier := false,
                     hcCurrentCall := 0, hlDevice := 0 }

/-- The state `stConnected` with two writes in flight. -/
def stWriting : TAPIModem :=
  { stConnected with pendingOverlappedWrites := [100, 200] }

/-- A subsystem that always succeeds and always reports the required size
`needed` for the call status and for the device identifier. -/
def envNeeds (needed : Nat) : Env :=
  { envOk with
    lineGetCallStatus := fun _ _ => ⟨0, needed, LINECALLSTATE_CONNECTED⟩
    lineGetID := fun _ _ => ⟨0, needed, 4⟩ }

/-- The subsystem `envOk` in which `lineGetID` succeeds and stores a null handle. -/
def envNullHandle (m : LINEMESSAGE) : Env :=
  { envOk with lineGetMessage := (0, m), lineGetID := fun _ _ => ⟨0, 28, NULL⟩ }

/-- The state after the message `LINECALLSTATE_CONNECTED` in `stDialed` when
`lineGetID` succeeds and stores a null handle. -/
def stNullConnected : TAPIModem :=
  { stDialed with callStateFlag := .CallConnected, hCommFile := NULL }

/-- The subsystem `envOk` in which the handle stored by `lineGetID` is not a
character device (`GetFileType` answers `FILE_TYPE_UNKNOWN`). -/
def envNotCharDevice (m : LINEMESSAGE) : Env :=
  { envOk with lineGetMessage := (0, m), GetFileType := fun _ => 0 }

/-- The state after the message `LINECALLSTATE_CONNECTED` in `stDialed` when
`lineGetID` succeeds and stores the handle 4, which is not a character device. -/
def stConnectedNoPort : TAPIModem :=
  { stDialed with callStateFlag := .CallConnected, hCommFile := 4 }

/-- Every call a teardown makes succeeds at its first attempt, and the call
status fits the initial buffer of `sizeof(LINECALLSTATUS) + 1024` bytes. -/
def TeardownSucceeds (env : Env) : Prop :=
  0 ≤ (env.lineGetCallStatus 0 (sizeof_LINECALLSTATUS + 1024)).ret ∧
  (env.lineGetCallStatus 0 (sizeof_LINECALLSTATUS + 1024)).dwNeededSize
    ≤ sizeof_LINECALLSTATUS + 1024 ∧
  0 ≤ env.lineDeallocateCall 0 ∧
  0 ≤ env.lineClose

end TAPIModem

/-! ## Invariants -/

namespace TAPIModem

/-- The part of the invariant that teardown needs and keeps: the semaphore counts
the buffered bytes; the signaling notifier exists only while the subsystem is
initialized; and a subsystem that is not initialized has no communication
handle. -/
def TeardownInv (s : TAPIModem) : Prop :=
  s.bufferSem = s.modemReadBuffer.length ∧
  (s.tapiEventNotifier = true → s.tapiStateFlag = .Initialized) ∧
  (s.tapiStateFlag = .Uninitialized → s.hCommFile = INVALID_HANDLE_VALUE)

/-- A communication handle other than `INVALID_HANDLE_VALUE` is held only while
the call state is `CallConnected` or `CallDialing`. -/
def HandleImpliesCall (s : TAPIModem) : Prop :=
  s.hCommFile ≠ INVALID_HANDLE_VALUE →
    s.callStateFlag = .CallConnected ∨ s.callStateFlag = .CallDialing

end TAPIModem

/-! ## Notions used by the statements on signaling, teardown and locking -/

namespace TAPIModem

/-- The two retry loops of a teardown (`lineGetCallStatus`, `lineDeallocateCall`)
are left within `fuel` calls each. -/
def TeardownLoopsEnd (fuel : Nat) (env : Env) : Prop :=
  callStatusLoop env (sizeof_LINECALLSTATUS + 1024) fuel 0 (sizeof_LINECALLSTATUS + 1024) ≠ none ∧
  deallocateLoop env fuel 0 ≠ none

/-- The disconnect modes the handler of `LINECALLSTATE_DISCONNECTED` has a case
for (qttapimodem.cpp, lines 671-689), in the order of the cases. -/
def recognisedDisconnectModes : List Nat :=
  [LINEDISCONNECTMODE_NORMAL, LINEDISCONNECTMODE_BUSY, LINEDISCONNECTMODE_NOANSWER,
   LINEDISCONNECTMODE_REJECT, LINEDISCONNECTMODE_PICKUP, LINEDISCONNECTMODE_FORWARDED,
   LINEDISCONNECTMODE_BADADDRESS, LINEDISCONNECTMODE_UNREACHABLE,
   LINEDISCONNECTMODE_CONGESTION, LINEDISCONNECTMODE_INCOMPATIBLE,
   LINEDISCONNECTMODE_UNAVAIL, LINEDISCONNECTMODE_NODIALTONE, LINEDISCONNECTMODE_BLOCKED,
   LINEDISCONNECTMODE_CANCELLED, LINEDISCONNECTMODE_DONOTDISTURB,
   LINEDISCONNECTMODE_NUMBERCHANGED, LINEDISCONNECTMODE_OUTOFORDER,
   LINEDISCONNECTMODE_QOSUNAVAIL, LINEDISCONNECTMODE_TEMPFAILURE]

/-- The trace of `on_TAPIevent` up to the ownership check: the poll under
`lineAppMutex` (qttapimodem.cpp, lines 606-608). -/
def pollTrace : List Event :=
  [.lock .lineAppMutex, .call .lineGetMessage, .unlock .lineAppMutex]

end TAPIModem

namespace TAPIModem

/-- The subsystem `envOk` delivering a `LINECALLSTATE_DISCONNECTED` message for
the call with handle 3 with the code `LINEDISCONNECTMODE_UNKNOWN` (2), which
has no case of its own in the handler. -/
def envDisconnected : Env :=
  envMsg { hDevice := 3, dwMessageID := LINE_CALLSTATE,
           dwParam1 := LINECALLSTATE_DISCONNECTED, dwParam2 := 2 }

/-- The subsystem `envOk` in which `lineClose` fails. -/
def envCloseFails : Env :=
  { envOk with lineClose := -1 }

end TAPIModem

namespace TAPIModem

end TAPIModem

namespace TAPIModem

/-- The subsystem `envOk` in which `lineDrop` fails. -/
def envDropFails : Env :=
  { envOk with lineDrop := -1 }

/-- The subsystem `envOk` in which `lineGetCallStatus` fails. -/
def envStatusFails : Env :=
  { envOk with lineGetCallStatus := fun _ _ => ⟨-1, 0, 0⟩ }

/-- The subsystem `envOk` in which `lineDeallocateCall` fails with an error
other than `LINEERR_INVALCALLSTATE`. -/
def envDeallocateFails : Env :=
  { envOk with lineDeallocateCall := fun _ => -1 }

end TAPIModem

namespace TAPIModem

/-- The subsystem `envOk` in which `lineSetStatusMessages` fails. -/
def envStatusMessagesFail : Env :=
  { envOk with lineSetStatusMessages := -1 }

/-- The subsystem `envOk` in which `lineMakeCall` fails. -/
def envMakeCallFails : Env :=
  { envOk with lineMakeCall := (-1, 0) }

/-- The state after `connectToNumber` in `stInitialized` when `lineMakeCall`
fails: the line is open, there is no call. -/
def stLineOpen : TAPIModem :=
  { stInitialized with
    errFlag := CallMakeError, lineStateFlag := .LineOpened, hlDevice := 2 }

/-- The error kind `connectToNumber` raises for the failed result `ret` of a
call: `NoDeviceFoundError` for `LINEERR_NODEVICE` and `LINEERR_BADDEVICEID`,
otherwise the kind `other` of the call (qttapimodem.cpp, lines 98, 115, 131). -/
def deviceErrorOr (ret : Int) (other : TAPIError) : TAPIError :=
  if ret = toLONG LINEERR_NODEVICE ∨ ret = toLONG LINEERR_BADDEVICEID
  then NoDeviceFoundError else other

/-- The TAPI functions a teardown or a shutdown calls. -/
def teardownCalls : List TapiCall :=
  [.lineGetCallStatus, .lineDrop, .lineDeallocateCall, .lineClose, .lineShutdown]

end TAPIModem

/-! ## Mutexes held along a trace -/

/-- Whether a trace entry is a mutex operation. -/
def Event.isLockOp : Event → Bool
  | .lock _ => true
  | .unlock _ => true
  | _ => false

/-- The mutexes held after one trace entry, when `held` are held before it;
`none` when the entry locks a mutex while a mutex is held, so that two would
be held at the same time. -/
def lockStep (held : List Mutex) : Event → Option (List Mutex)
  | .lock m => if held = [] then some [m] else none
  | .unlock m => some (held.erase m)
  | _ => some held

/-- The mutexes held after the trace `tr`, when `held` are held before it; `none`
when at some point of the trace a mutex is locked while a mutex is held. -/
def lockRun : List Mutex → List Event → Option (List Mutex)
  | held, [] => some held
  | held, e :: tr => (lockStep held e).bind (fun h => lockRun h tr)

namespace TAPIModem

/-- No call of a teardown fails: every `lineGetCallStatus` succeeds, every
`lineDeallocateCall` succeeds or answers the transient
`LINEERR_INVALCALLSTATE`, and `lineClose` succeeds. -/
def TeardownNeverFails (env : Env) : Prop :=
  (∀ attempt total, 0 ≤ (env.lineGetCallStatus attempt total).ret) ∧
  (∀ attempt, env.lineDeallocateCall attempt < 0 →
    env.lineDeallocateCall attempt = toLONG LINEERR_INVALCALLSTATE) ∧
  0 ≤ env.lineClose

/-- The state after `hangupCall` in `stConnected` when `lineClose` fails. -/
def stCloseFailed : TAPIModem :=
  { stConnected with
    errFlag := LineDeallocationError, tapiStateFlag := .Uninitialized, hLineApp := 0,
    tapiEventNotifier := false, hCommFile := INVALID_HANDLE_VALUE,
    commIOEventNotifier := false }

end TAPIModem

namespace TAPIModem

/-- The trace of a teardown of the connected modem in which every call succeeds. -/
def cleanTeardownTrace : List Event :=
  [.lock .callMutex, .call .lineGetCallStatus, .call .lineDrop, .call .lineDeallocateCall,
   .unlock .callMutex, .lock .lineMutex, .call .lineClose, .unlock .lineMutex, .disconnected]

/-- The state after `endConnection` in `stConnected`. -/
def stEnded : TAPIModem :=
  { stTornDown with callStateFlag := .CallDefaultState, lineStateFlag := .LineClosed,
                    disconnectFlag := .DisconnectedByFunction }

end TAPIModem

namespace TAPIModem

/-- The message `LINE_REPLY` for the request `dwParam1` with the result
`dwParam2`, for the call with handle 3. -/
def msgReply (dwParam1 dwParam2 : Nat) : LINEMESSAGE :=
  { hDevice := 3, dwMessageID := LINE_REPLY, dwParam1 := dwParam1, dwParam2 := dwParam2 }

/-- The message `LINE_CALLSTATE` with state `LINECALLSTATE_DISCONNECTED` and the
disconnect mode `dwParam2`, for the call with handle 3. -/
def msgDisconnected (dwParam2 : Nat) : LINEMESSAGE :=
  { hDevice := 3, dwMessageID := LINE_CALLSTATE, dwParam1 := LINECALLSTATE_DISCONNECTED,
    dwParam2 := dwParam2 }

/-- The enumerators of `DisconnectReason` named like the disconnect modes of
`recognisedDisconnectModes`, in the same order (qttapimodem.h, lines 65-69). -/
def likeNamedReasons : List DisconnectReason :=
  [.DisconnectByRemote, .DisconnectBusy, .DisconnectNoAnswer, .DisconnectReject,
   .DisconnectPickup, .DisconnectForwarded, .DisconnectBadAddress, .DisconnectUnreachable,
   .DisconnectCongestion, .DisconnectIncompatible, .DisconnectUnavailable,
   .DisconnectNoDialTone, .DisconnectBlocked, .DisconnectCancelled,
   .DisconnectDoNotDisturb, .DisconnectNumberChanged, .DisconnectOutOfOrder,
   .DisconnectQOSUnavailable, .DisconnectTemporaryFailure]

end TAPIModem

/-! ## Mutexes left locked at the end of a trace -/

/-- The mutexes held after one trace entry, when `held` are held before it (the
one locked last comes first). -/
def heldStep (held : List Mutex) : Event → List Mutex
  | .lock m => m :: held
  | .unlock m => held.erase m
  | _ => held

/-- The mutexes held after the trace `tr`, when `held` are held before it. -/
def heldAfter (held : List Mutex) (tr : List Event) : List Mutex :=
  tr.foldl heldStep held

/-! ## The listing of modems: `TAPIModemInfo::availableModems` -/

/-- The class `TAPIModemInfo` (qttapimodem.h, lines 195-205): `devId` is a
`qint32`. -/
structure TAPIModemInfo where
  devId : Int
  name : String
  deriving DecidableEq, Repr

namespace TAPIModemInfo

@[reducible] def LINEMEDIAMODE_DATAMODEM : Nat := 0x00000010

/-- The fields of the `LINEDEVCAPS` record that `availableModems` reads or
writes.  `LocalAlloc(LPTR, 4096)` fills the record with zeros. -/
structure LINEDEVCAPS where
  dwTotalSize : Nat := 0
  dwNeededSize : Nat := 0
  dwMediaModes : Nat := 0
  dwLineNameSize : Nat := 0
  dwLineNameOffset : Nat := 0
  deriving DecidableEq, Repr

/-- What one call of `lineGetDevCaps` answers: its result and the values it
stores in the record when it succeeds (`dwTotalSize` is the caller's field). -/
structure DevCapsReply where
  ret : Int := 0
  dwNeededSize : Nat := 0
  dwMediaModes : Nat := 0
  dwLineNameSize : Nat := 0
  dwLineNameOffset : Nat := 0
  deriving DecidableEq, Repr

/-- The calls of `availableModems`, in its trace: the TAPI functions with the
device they are made for (`lineGetDevCaps` also with the `dwTotalSize` of the
record passed), and `LocalReAlloc` with the new size. -/
inductive Call where
  | lineInitializeEx
  | lineNegotiateAPIVersion (devId : Nat)
  | lineGetDevCaps (devId : Nat) (dwTotalSize : Nat)
  | LocalReAlloc (uBytes : Nat)
  | lineOpen (devId : Nat)
  | lineClose
  | lineShutdown
  deriving DecidableEq, Repr

/-- What the telephony subsystem answers during one call of `availableModems`. -/
structure Subsystem where
  /-- Result and device count of the call of `lineInitializeEx` number `attempt`. -/
  lineInitializeEx : Nat → Int × Nat := fun _ => (0, 0)
  /-- Result of `lineNegotiateAPIVersion` for the device. -/
  lineNegotiateAPIVersion : Nat → Int := fun _ => 0
  /-- Answer of the call of `lineGetDevCaps` number `attempt` for the device
  `devId` with a record of `dwTotalSize` bytes. -/
  lineGetDevCaps : (devId : Nat) → (attempt : Nat) → (dwTotalSize : Nat) → DevCapsReply :=
    fun _ _ _ => {}
  /-- Result of `lineOpen` for the device. -/
  lineOpen : Nat → Int := fun _ => 0
  /-- The text `QString::fromWCharArray` decodes from the `dwLineNameSize` bytes
  found in the record at `dwLineNameOffset` when the name of `devId` is read. -/
  lineName : (devId : Nat) → (dwLineNameOffset : Nat) → (dwLineNameSize : Nat) → String :=
    fun _ _ _ => ""

/-- The record after a successful call of `lineGetDevCaps` with the answer `r`. -/
def stored (caps : LINEDEVCAPS) (r : DevCapsReply) : LINEDEVCAPS :=
  { caps with dwNeededSize := r.dwNeededSize, dwMediaModes := r.dwMediaModes,
              dwLineNameSize := r.dwLineNameSize, dwLineNameOffset := r.dwLineNameOffset }

/-- The loop around `lineInitializeEx` in `availableModems` (qttapimodem.cpp,
lines 959-965).  Result: the device count when the loop was left by its
condition, `none` inside when the error branch returned; and the number of
calls made. -/
def initializeLoop (env : Subsystem) : (fuel : Nat) → (attempt : Nat) → Option (Option Nat × Nat)
  | 0, _ => none
  | fuel + 1, attempt =>
    let r := env.lineInitializeEx attempt
    if r.1 ≠ 0 ∧ r.1 ≠ toLONG LINEERR_REINIT then some (none, attempt + 1)
    else if r.1 = toLONG LINEERR_REINIT then initializeLoop env fuel (attempt + 1)
    else some (some r.2, attempt + 1)

/-- The record after `LocalReAlloc` to the size needed and the assignment
`lpLineDevCaps->dwTotalSize = lpLineDevCaps->dwNeededSize` (qttapimodem.cpp,
lines 990-991); `LocalReAlloc` keeps the contents of the record. -/
def grown (caps : LINEDEVCAPS) : LINEDEVCAPS :=
  { caps with dwTotalSize := caps.dwNeededSize }

/-- The do-while loop around `lineGetDevCaps` in `availableModems`
(qttapimodem.cpp, lines 978-996), from attempt number `attempt`, with the
record `caps` and the trace `tr` so far.  A failing call is taken to leave the
record as it is.  The `continue` of line 992 goes to the condition of the
do-while statement (line 996), which is evaluated on the grown record.
Result: `devCapsError`, the record and the trace when the loop is left. -/
def devCapsLoop (env : Subsystem) (devId : Nat) :
    (fuel : Nat) → (attempt : Nat) → LINEDEVCAPS → List Call →
      Option (Bool × LINEDEVCAPS × List Call)
  | 0, _, _, _ => none
  | fuel + 1, attempt, caps, tr =>
    let r := env.lineGetDevCaps devId attempt caps.dwTotalSize
    if r.ret ≠ 0 then some (true, caps, tr ++ [.lineGetDevCaps devId caps.dwTotalSize])
    else if (stored caps r).dwTotalSize < (stored caps r).dwNeededSize then
      if (grown (stored caps r)).dwTotalSize < (grown (stored caps r)).dwNeededSize then
        devCapsLoop env devId fuel (attempt + 1) (grown (stored caps r))
          (tr ++ [.lineGetDevCaps devId caps.dwTotalSize,
                  .LocalReAlloc (stored caps r).dwNeededSize])
      else
        some (false, grown (stored caps r),
              tr ++ [.lineGetDevCaps devId caps.dwTotalSize,
                     .LocalReAlloc (stored caps r).dwNeededSize])
    else some (false, stored caps r, tr ++ [.lineGetDevCaps devId caps.dwTotalSize])

/-- The name given to the modem (qttapimodem.cpp, lines 1010-1018). -/
def modemName (env : Subsystem) (devId : Nat) (caps : LINEDEVCAPS) : String :=
  if caps.dwLineNameSize ≠ 0 ∧ caps.dwLineNameOffset ≠ 0 then
    env.lineName devId caps.dwLineNameOffset caps.dwLineNameSize
  else "NONAME MODEM " ++ toString devId

/-- The `for` loop over the device identifiers in `availableModems`
(qttapimodem.cpp, lines 971-1025), for the identifiers still to visit; the
record `caps` is allocated once and shared by all devices. -/
def listDevices (fuel : Nat) (env : Subsystem) :
    List Nat → LINEDEVCAPS → List TAPIModemInfo → List Call →
      Option (List TAPIModemInfo × List Call)
  | [], _, list, tr => some (list, tr)
  | devId :: rest, caps, list, tr =>
    if env.lineNegotiateAPIVersion devId ≠ 0 then
      listDevices fuel env rest caps list (tr ++ [.lineNegotiateAPIVersion devId])
    else
      match devCapsLoop env devId fuel 0 caps (tr ++ [.lineNegotiateAPIVersion devId]) with
      | none => none
      | some (true, caps1, tr1) => listDevices fuel env rest caps1 list tr1
      | some (false, caps1, tr1) =>
        if caps1.dwMediaModes &&& LINEMEDIAMODE_DATAMODEM = 0 then
          listDevices fuel env rest caps1 list tr1
        else if env.lineOpen devId ≠ 0 then
          listDevices fuel env rest caps1 list (tr1 ++ [.lineOpen devId, .lineClose])
        else
          listDevices fuel env rest caps1
            (list ++ [{ devId := toLONG devId, name := modemName env devId caps1 }])
            (tr1 ++ [.lineOpen devId, .lineClose])

/-- The function `TAPIModemInfo::availableModems` (qttapimodem.cpp, lines
946-1030), with the trace of its calls. -/
def availableModems (fuel : Nat) (env : Subsystem) : Option (List TAPIModemInfo × List Call) :=
  match initializeLoop env fuel 0 with
  | none => none
  | some (none, calls) => some ([], List.replicate calls .lineInitializeEx)
  | some (some deviceCount, calls) =>
    match listDevices fuel env (List.range deviceCount) { dwTotalSize := 4096 } []
        (List.replicate calls .lineInitializeEx) with
    | none => none
    | some (list, tr) => some (list, tr ++ [.lineShutdown])

/-- A subsystem with one device, a data modem whose capabilities need 5000
bytes: a call with a smaller record succeeds, stores the fixed part (the media
modes) and reports the size needed; a call with a record of at least 5000
bytes stores the line name as well. -/
def oneLargeDevice : Subsystem :=
  { lineInitializeEx := fun _ => (0, 1)
    lineGetDevCaps := fun _ _ dwTotalSize =>
      if dwTotalSize < 5000 then
        { dwNeededSize := 5000, dwMediaModes := LINEMEDIAMODE_DATAMODEM }
      else
        { dwNeededSize := 5000, dwMediaModes := LINEMEDIAMODE_DATAMODEM,
          dwLineNameSize := 16, dwLineNameOffset := 4800 }
    lineName := fun _ _ _ => "Modem A" }

end TAPIModemInfo

namespace TAPIModem

end TAPIModem

namespace TAPIModem

/-- The state after `connectToNumber` under `envOk` in `stLineOpen`, in which the
line is already open. -/
def stRedialed : TAPIModem :=
  { stLineOpen with hcCurrentCall := 3 }

end TAPIModem

/-! # Theorems -/

namespace TAPIModem

/-! ## Traces: basic facts -/

@[simp] theorem signals_nil : signals [] = [] := rfl

@[simp] theorem signals_append (a b : List Event) :
    signals (a ++ b) = signals a ++ signals b := by
  simp [signals]

@[simp] theorem signals_cons_lock (m : Mutex) (t : List Event) :
    signals (Event.lock m :: t) = signals t := by
  simp [signals, Event.isSignal]

@[simp] theorem signals_cons_unlock (m : Mutex) (t : List Event) :
    signals (Event.unlock m :: t) = signals t := by
  simp [signals, Event.isSignal]

@[simp] theorem signals_cons_call (f : TapiCall) (t : List Event) :
    signals (Event.call f :: t) = signals t := by
  simp [signals, Event.isSignal]

theorem signals_cons_signal (e : Event) (t : List Event) (h : e.isSignal = true) :
    signals (e :: t) = e :: signals t := by
  simp [signals, h]

theorem mem_repeatTrace {e : Event} {t : List Event} {n : Nat} (h : e ∈ repeatTrace t n) :
    e ∈ t := by
  induction n with
  | zero => simp [repeatTrace] at h
  | succ n ih =>
    simp only [repeatTrace, List.mem_append] at h
    rcases h with h | h
    · exact h
    · exact ih h

theorem signals_repeatTrace (t : List Event) (n : Nat) (h : signals t = []) :
    signals (repeatTrace t n) = [] := by
  induction n with
  | zero => rfl
  | succ n ih => simp [repeatTrace, h, ih]

@[simp] theorem signals_repeat_call (f : TapiCall) (n : Nat) :
    signals (repeatTrace [Event.call f] n) = [] :=
  signals_repeatTrace _ _ (by simp)

@[simp] theorem signals_repeat_getID (n : Nat) :
    signals (repeatTrace [Event.lock .callMutex, Event.call .lineGetID,
      Event.unlock .callMutex] n) = [] :=
  signals_repeatTrace _ _ (by simp)

@[simp] theorem signals_dropTrace (cs : Nat) : signals (dropTrace cs) = [] := by
  unfold dropTrace; split <;> simp

theorem mem_of_mem_signals {e : Event} {tr : List Event} (h : e ∈ signals tr) : e ∈ tr :=
  (List.mem_filter.mp h).1

/-! ## Teardown: what `hangupCall` does to the state -/

theorem dropAndDeallocate_spec {fuel : Nat} {env : Env} {s s1 : TAPIModem}
    {tr tr1 : List Event} {cs : Nat} {b : Bool}
    (h : dropAndDeallocate fuel env s tr cs = some (s1, tr1, b)) :
    (b = true ∧ s1 = s ∧ signals tr1 = signals tr) ∨
    (b = false ∧
      s1 = { s with errFlag := CallDeallocationError, hLineApp := 0,
                    tapiEventNotifier := false, tapiStateFlag := .Uninitialized } ∧
      signals tr1 = signals tr ++
        [.errorOccurred CallDeallocationError, .tapiStateChanged .Uninitialized]) := by
  unfold dropAndDeallocate at h
  split at h
  · exact absurd h (by simp)
  · simp only [Option.some.injEq, Prod.mk.injEq] at h
    obtain ⟨rfl, rfl, rfl⟩ := h
    left
    refine ⟨rfl, rfl, ?_⟩
    simp
  · simp only [Option.some.injEq, Prod.mk.injEq] at h
    obtain ⟨rfl, rfl, rfl⟩ := h
    right
    refine ⟨rfl, rfl, ?_⟩
    simp [deinitializeTAPI, signals_cons_signal, Event.isSignal]

theorem hangupCallSection_spec {fuel : Nat} {env : Env} {s s1 : TAPIModem}
    {tr1 : List Event} {b : Bool}
    (h : hangupCallSection fuel env s = some (s1, tr1, b)) :
    (b = true ∧ s1 = s ∧ signals tr1 = []) ∨
    (∃ e, s1 = { s with errFlag := e, hLineApp := 0, tapiEventNotifier := false,
                                              tapiStateFlag := .Uninitialized } ∧
      Event.errorOccurred e ∈ signals tr1 ∧ s.hcCurrentCall ≠ 0) := by
  unfold hangupCallSection at h
  split at h
  · simp only [Option.some.injEq, Prod.mk.injEq] at h
    obtain ⟨rfl, rfl, rfl⟩ := h
    left; simp
  · rename_i hc
    split at h
    · exact absurd h (by simp)
    · rcases dropAndDeallocate_spec h with ⟨rfl, rfl, hs⟩ | ⟨rfl, rfl, hs⟩
      · right
        refine ⟨CallStatusAquireError, ?_, ?_, hc⟩
        · simp [deinitializeTAPI]
        · rw [hs]; simp [deinitializeTAPI, signals_cons_signal, Event.isSignal]
      · right
        refine ⟨CallDeallocationError, ?_, ?_, hc⟩
        · simp [deinitializeTAPI]
        · rw [hs]; simp
    · rcases dropAndDeallocate_spec h with ⟨rfl, rfl, hs⟩ | ⟨rfl, rfl, hs⟩
      · left; refine ⟨rfl, rfl, ?_⟩; simpa using hs
      · right
        refine ⟨CallDeallocationError, rfl, ?_, hc⟩
        rw [hs]; simp

theorem closeLineSection_spec (env : Env) (s : TAPIModem) (tr : List Event) :
    ((closeLineSection env s tr).1 = { s with hcCurrentCall := 0, hlDevice := 0 } ∧
      signals (closeLineSection env s tr).2 = signals tr ++ [.disconnected]) ∨
    ((closeLineSection env s tr).1 =
        { s with errFlag := LineDeallocationError, hLineApp := 0, tapiEventNotifier := false,
                 tapiStateFlag := .Uninitialized } ∧
      signals (closeLineSection env s tr).2 = signals tr ++
        [.errorOccurred LineDeallocationError, .tapiStateChanged .Uninitialized] ∧
      s.hlDevice ≠ 0) := by
  unfold closeLineSection
  split
  · rename_i hl
    split
    · right
      refine ⟨by simp [deinitializeTAPI], ?_, hl⟩
      simp [deinitializeTAPI, signals_cons_signal, Event.isSignal]
    · left
      exact ⟨rfl, by simp [signals_cons_signal, Event.isSignal]⟩
  · left
    exact ⟨rfl, by simp [signals_cons_signal, Event.isSignal]⟩

theorem tapiState_eq_Initialized {s : TAPIModem} (h : ¬ s.tapiStateFlag = .Uninitialized) :
    s.tapiStateFlag = .Initialized := by
  cases hs : s.tapiStateFlag
  · exact absurd hs h
  · rfl

/-- The three ways `hangupCall` returns: at once when the subsystem is not
initialized; after a clean teardown; or after a failure that shut the
subsystem down. -/
theorem hangupCall_spec {fuel : Nat} {env : Env} {s s1 : TAPIModem} {tr : List Event}
    (h : hangupCall fuel env s = some (s1, tr)) :
    (s.tapiStateFlag = .Uninitialized ∧ s1 = s ∧ tr = []) ∨
    (s.tapiStateFlag = .Initialized ∧
      s1 = { deinitializeCommPort s with hcCurrentCall := 0, hlDevice := 0 } ∧
      signals tr = [.disconnected]) ∨
    (s.tapiStateFlag = .Initialized ∧ (s.hcCurrentCall ≠ 0 ∨ s.hlDevice ≠ 0) ∧
      ∃ e c l, s1 = { deinitializeCommPort s with
                        errFlag := e, hLineApp := 0, tapiEventNotifier := false,
                        tapiStateFlag := .Uninitialized, hcCurrentCall := c, hlDevice := l } ∧
        Event.errorOccurred e ∈ signals tr) := by
  unfold hangupCall at h
  split at h
  · rename_i hu
    simp only [Option.some.injEq, Prod.mk.injEq] at h
    obtain ⟨rfl, rfl⟩ := h
    exact Or.inl ⟨hu, rfl, rfl⟩
  · rename_i hu
    have hi := tapiState_eq_Initialized hu
    right
    split at h
    · exact absurd h (by simp)
    · rename_i s2 tr2 hsec
      simp only [Option.some.injEq, Prod.mk.injEq] at h
      obtain ⟨rfl, rfl⟩ := h
      rcases hangupCallSection_spec hsec with ⟨hb, -, -⟩ | ⟨e, hs, he, hc⟩
      · exact absurd hb (by simp)
      · right
        refine ⟨hi, Or.inl (by simpa [deinitializeCommPort] using hc), e, s.hcCurrentCall,
          s.hlDevice, ?_, he⟩
        rw [hs]; simp [deinitializeCommPort]
    · rename_i s2 tr2 hsec
      simp only [Option.some.injEq] at h
      rcases hangupCallSection_spec hsec with ⟨-, hs2, ht2⟩ | ⟨e, hs, he, hc⟩
      · rcases closeLineSection_spec env s2 tr2 with ⟨h1, h2⟩ | ⟨h1, h2, h3⟩
        · left
          rw [h] at h1 h2
          simp only at h1 h2
          refine ⟨hi, ?_, ?_⟩
          · rw [h1, hs2]
          · rw [h2, ht2]; rfl
        · right
          rw [h] at h1 h2
          simp only at h1 h2
          refine ⟨hi, Or.inr (by simpa [hs2, deinitializeCommPort] using h3),
            LineDeallocationError, s.hcCurrentCall, s.hlDevice, ?_, ?_⟩
          · rw [h1, hs2]; simp [deinitializeCommPort]
          · rw [h2]; simp
      · right
        refine ⟨hi, Or.inl (by simpa [deinitializeCommPort] using hc), ?_⟩
        rcases closeLineSection_spec env s2 tr2 with ⟨h1, h2⟩ | ⟨h1, h2, h3⟩
        · rw [h] at h1 h2
          simp only at h1 h2
          refine ⟨e, 0, 0, ?_, ?_⟩
          · rw [h1, hs]
          · rw [h2]; simp [he]
        · rw [h] at h1 h2
          simp only at h1 h2
          refine ⟨LineDeallocationError, s.hcCurrentCall, s.hlDevice, ?_, ?_⟩
          · rw [h1, hs]; simp [deinitializeCommPort]
          · rw [h2]; simp

/-! ## The inbound buffer: `readData` -/

theorem range_map_getD_eq_take (l : List Nat) (n : Nat) (h : n ≤ l.length) :
    (List.range n).map (fun i => l.getD i 0) = l.take n := by
  apply List.ext_getElem
  · simp [Nat.min_eq_left h]
  · intro i h1 h2
    simp at h1 h2
    simp [List.getD, List.getElem?_eq_getElem (Nat.lt_of_lt_of_le h1 h)]

/-- The two ways `readData` returns: with nothing and the state untouched, or
with the first `n = min maxlen size` bytes, `n` units taken from the semaphore
and `n` bytes removed from the front of the buffer. -/
theorem readData_cases (s : TAPIModem) (maxlen : Nat) :
    (readData s maxlen = (s, [], 0)) ∨
    (0 < min maxlen s.modemReadBuffer.length ∧
      min maxlen s.modemReadBuffer.length ≤ s.bufferSem ∧
      readData s maxlen =
        ({ s with bufferSem := s.bufferSem - min maxlen s.modemReadBuffer.length,
                  modemReadBuffer :=
                    s.modemReadBuffer.drop (min maxlen s.modemReadBuffer.length) },
         s.modemReadBuffer.take (min maxlen s.modemReadBuffer.length),
         min maxlen s.modemReadBuffer.length)) := by
  unfold readData
  by_cases h0 : min maxlen s.modemReadBuffer.length = 0
  · left; simp [h0]
  · by_cases h1 : s.bufferSem < min maxlen s.modemReadBuffer.length
    · left; simp [h0, h1]
    · right
      refine ⟨Nat.pos_of_ne_zero h0, Nat.le_of_not_lt h1, ?_⟩
      simp only [h0, h1, if_false]
      rw [range_map_getD_eq_take _ _ (Nat.min_le_right _ _)]

/-- C1: for every state (any buffer content, any semaphore count) and every
`maxlen`, `readData` returns a count `k` with `k ≤ min maxlen size`, hence
`k ≤ min maxlen bytesAvailable`; it stores exactly `k` bytes, and the buffer
afterwards is the old buffer without its first `k` bytes, so it is shorter by
exactly `k`. -/
theorem readData_count_bounded (s : TAPIModem) (maxlen base : Nat) :
    (readData s maxlen).2.2 ≤ min maxlen s.modemReadBuffer.length ∧
    (readData s maxlen).2.2 ≤ min maxlen (bytesAvailable s base) ∧
    (readData s maxlen).2.1.length = (readData s maxlen).2.2 ∧
    (readData s maxlen).1.modemReadBuffer = s.modemReadBuffer.drop (readData s maxlen).2.2 ∧
    (readData s maxlen).1.modemReadBuffer.length + (readData s maxlen).2.2
      = s.modemReadBuffer.length := by
  have hb : min maxlen s.modemReadBuffer.length ≤ min maxlen (bytesAvailable s base) := by
    unfold bytesAvailable
    exact le_min (Nat.min_le_left _ _) (le_trans (Nat.min_le_right _ _) (Nat.le_add_right _ _))
  rcases readData_cases s maxlen with h | ⟨_, _, h⟩
  · rw [h]; simp
  · rw [h]
    refine ⟨le_refl _, hb, ?_, rfl, ?_⟩
    · simp
    · have := Nat.min_le_right maxlen s.modemReadBuffer.length
      simp only [List.length_drop]
      omega

/-- C2: whenever `readData` returns `k > 0`, then `k = min maxlen size`, the
bytes stored are the first `k` bytes of the buffer in order, and the buffer
afterwards is the old one without its first `k` bytes. -/
theorem readData_positive_is_prefix (s : TAPIModem) (maxlen : Nat)
    (h : 0 < (readData s maxlen).2.2) :
    (readData s maxlen).2.2 = min maxlen s.modemReadBuffer.length ∧
    (readData s maxlen).2.1 = s.modemReadBuffer.take (readData s maxlen).2.2 ∧
    (readData s maxlen).1.modemReadBuffer = s.modemReadBuffer.drop (readData s maxlen).2.2 := by
  rcases readData_cases s maxlen with h0 | ⟨_, _, h1⟩
  · rw [h0] at h; exact absurd h (by simp)
  · rw [h1]; exact ⟨rfl, rfl, rfl⟩

/-- C2, at ten buffered bytes and `read(4)`: the call returns 4, stores the
first four bytes and leaves the last six. -/
theorem readData_positive_is_prefix_witness :
    0 < (readData tenBuffered 4).2.2 ∧
    ((readData tenBuffered 4).2.2 = min 4 tenBuffered.modemReadBuffer.length ∧
     (readData tenBuffered 4).2.1
       = tenBuffered.modemReadBuffer.take (readData tenBuffered 4).2.2 ∧
     (readData tenBuffered 4).1.modemReadBuffer
       = tenBuffered.modemReadBuffer.drop (readData tenBuffered 4).2.2) :=
  ⟨by decide, readData_positive_is_prefix tenBuffered 4 (by decide)⟩

/-! ## Invariants of the reachable states -/

theorem hangupCall_keeps {fuel : Nat} {env : Env} {s s1 : TAPIModem} {tr : List Event}
    (h : hangupCall fuel env s = some (s1, tr)) (hi : TeardownInv s) :
    TeardownInv s1 ∧ s1.hCommFile = INVALID_HANDLE_VALUE ∧
    s1.callStateFlag = s.callStateFlag := by
  obtain ⟨hb, hn, hu⟩ := hi
  rcases hangupCall_spec h with ⟨h0, rfl, -⟩ | ⟨h0, rfl, -⟩ | ⟨h0, -, e, c, l, rfl, -⟩
  · exact ⟨⟨hb, hn, hu⟩, hu h0, rfl⟩
  · refine ⟨⟨hb, ?_, ?_⟩, rfl, rfl⟩
    · intro hn1; exact h0
    · intro _; rfl
  · refine ⟨⟨hb, ?_, ?_⟩, rfl, rfl⟩
    · intro hn1; exact absurd hn1 (by simp [deinitializeCommPort])
    · intro _; rfl

theorem thenHangup_eq {fuel : Nat} {env : Env} {s s1 : TAPIModem} {tr tr1 : List Event}
    (h : thenHangup fuel env s tr = some (s1, tr1)) :
    ∃ tr2, hangupCall fuel env s = some (s1, tr2) ∧ tr1 = tr ++ tr2 := by
  unfold thenHangup at h
  split at h
  · exact absurd h (by simp)
  · rename_i s2 tr2 hh
    simp only [Option.some.injEq, Prod.mk.injEq] at h
    obtain ⟨rfl, rfl⟩ := h
    exact ⟨tr2, hh, rfl⟩

theorem thenHangup_keeps {fuel : Nat} {env : Env} {s s1 : TAPIModem} {tr tr1 : List Event}
    (h : thenHangup fuel env s tr = some (s1, tr1)) (hi : TeardownInv s) :
    TeardownInv s1 ∧ s1.hCommFile = INVALID_HANDLE_VALUE ∧
    s1.callStateFlag = s.callStateFlag := by
  obtain ⟨tr2, hh, -⟩ := thenHangup_eq h
  exact hangupCall_keeps hh hi

theorem shutdownTAPI_keeps {fuel : Nat} {env : Env} {s s1 : TAPIModem} {tr : List Event}
    (h : shutdownTAPI fuel env s = some (s1, tr)) (hi : TeardownInv s) :
    TeardownInv s1 ∧ s1.hCommFile = INVALID_HANDLE_VALUE ∧
    s1.callStateFlag = s.callStateFlag := by
  unfold shutdownTAPI at h
  split at h
  · rename_i hu
    simp only [Option.some.injEq, Prod.mk.injEq] at h
    obtain ⟨rfl, rfl⟩ := h
    exact ⟨hi, hi.2.2 hu, rfl⟩
  · split at h
    · exact absurd h (by simp)
    · rename_i s2 tr2 hh
      simp only [Option.some.injEq, Prod.mk.injEq] at h
      obtain ⟨rfl, rfl⟩ := h
      obtain ⟨⟨hb, -, -⟩, hc, hcs⟩ := hangupCall_keeps hh hi
      refine ⟨⟨?_, ?_, ?_⟩, ?_, ?_⟩
      · simpa [deinitializeTAPI] using hb
      · intro hn; exact absurd hn (by simp [deinitializeTAPI])
      · intro _; simpa [deinitializeTAPI] using hc
      · simpa [deinitializeTAPI] using hc
      · simpa [deinitializeTAPI] using hcs

/-- A state without a communication handle satisfies `HandleImpliesCall`. -/
theorem handleImpliesCall_of_invalid {s : TAPIModem}
    (h : s.hCommFile = INVALID_HANDLE_VALUE) : HandleImpliesCall s :=
  fun hne => absurd h hne

theorem initializeCommPort_fields (env : Env) (s : TAPIModem) :
    (initializeCommPort env s).1.hCommFile = s.hCommFile ∧
    (initializeCommPort env s).1.bufferSem = s.bufferSem ∧
    (initializeCommPort env s).1.modemReadBuffer = s.modemReadBuffer ∧
    (initializeCommPort env s).1.tapiEventNotifier = s.tapiEventNotifier ∧
    (initializeCommPort env s).1.tapiStateFlag = s.tapiStateFlag := by
  unfold initializeCommPort
  split
  · simp
  · split <;> simp

theorem onConnected_keeps {fuel : Nat} {env : Env} {s s1 : TAPIModem} {tr tr1 : List Event}
    (h : onConnected fuel env s tr = some (s1, tr1)) (hi : TeardownInv s)
    (hc : HandleImpliesCall s) (hinit : s.tapiStateFlag = .Initialized) :
    TeardownInv s1 ∧ HandleImpliesCall s1 := by
  unfold onConnected at h
  split at h
  · simp only [Option.some.injEq, Prod.mk.injEq] at h
    obtain ⟨rfl, rfl⟩ := h
    exact ⟨hi, hc⟩
  · split at h
    · exact absurd h (by simp)
    · obtain ⟨h1, h2, -⟩ := thenHangup_keeps h (by simpa [TeardownInv] using hi)
      exact ⟨h1, handleImpliesCall_of_invalid h2⟩
    · rename_i hd calls _
      simp only [Option.some.injEq, Prod.mk.injEq] at h
      obtain ⟨rfl, -⟩ := h
      obtain ⟨f1, f2, f3, f4, f5⟩ := initializeCommPort_fields env { s with hCommFile := hd }
      obtain ⟨hb, hn, hu⟩ := hi
      refine ⟨⟨?_, ?_, ?_⟩, ?_⟩
      · simpa [f2, f3] using hb
      · intro _; simpa [f5] using hinit
      · intro hu1
        simp only [f5] at hu1
        rw [hinit] at hu1
        exact absurd hu1 (by simp)
      · intro _; exact Or.inl rfl

theorem onCallState_keeps {fuel : Nat} {env : Env} {s s1 : TAPIModem} {msg : LINEMESSAGE}
    {tr tr1 : List Event}
    (h : onCallState fuel env s msg tr = some (s1, tr1)) (hi : TeardownInv s)
    (hc : HandleImpliesCall s) (hinit : s.tapiStateFlag = .Initialized) :
    TeardownInv s1 ∧ HandleImpliesCall s1 := by
  unfold onCallState at h
  split at h
  · simp only [Option.some.injEq, Prod.mk.injEq] at h
    obtain ⟨rfl, -⟩ := h
    exact ⟨by simpa [TeardownInv] using hi, fun _ => Or.inr rfl⟩
  all_goals split at h
  · obtain ⟨h1, h2, -⟩ := thenHangup_keeps h (by simpa [TeardownInv] using hi)
    exact ⟨h1, handleImpliesCall_of_invalid h2⟩
  all_goals split at h
  · obtain ⟨h1, h2, -⟩ := thenHangup_keeps h (by simpa [TeardownInv] using hi)
    exact ⟨h1, handleImpliesCall_of_invalid h2⟩
  all_goals split at h
  · obtain ⟨h1, h2, -⟩ := thenHangup_keeps h (by simpa [TeardownInv] using hi)
    exact ⟨h1, handleImpliesCall_of_invalid h2⟩
  all_goals split at h
  · obtain ⟨h1, h2, -⟩ := thenHangup_keeps h (by simpa [TeardownInv] using hi)
    exact ⟨h1, handleImpliesCall_of_invalid h2⟩
  all_goals split at h
  · exact onConnected_keeps h hi hc hinit
  · simp only [Option.some.injEq, Prod.mk.injEq] at h
    obtain ⟨rfl, -⟩ := h
    exact ⟨hi, hc⟩

theorem onLineDevState_keeps {fuel : Nat} {env : Env} {s s1 : TAPIModem} {msg : LINEMESSAGE}
    {tr tr1 : List Event}
    (h : onLineDevState fuel env s msg tr = some (s1, tr1)) (hi : TeardownInv s)
    (hc : HandleImpliesCall s) :
    TeardownInv s1 ∧ HandleImpliesCall s1 := by
  unfold onLineDevState at h
  split at h
  · split at h
    · split at h
      · exact absurd h (by simp)
      · rename_i s2 tr2 hs
        simp only [Option.some.injEq, Prod.mk.injEq] at h
        obtain ⟨rfl, -⟩ := h
        obtain ⟨h1, h2, -⟩ := shutdownTAPI_keeps hs (by simpa [TeardownInv] using hi)
        exact ⟨h1, handleImpliesCall_of_invalid h2⟩
    · simp only [Option.some.injEq, Prod.mk.injEq] at h
      obtain ⟨rfl, -⟩ := h
      exact ⟨hi, hc⟩
  all_goals split at h
  · obtain ⟨h1, h2, -⟩ := thenHangup_keeps h (by simpa [TeardownInv] using hi)
    exact ⟨h1, handleImpliesCall_of_invalid h2⟩
  all_goals split at h
  · obtain ⟨h1, h2, -⟩ := thenHangup_keeps h (by simpa [TeardownInv] using hi)
    exact ⟨h1, handleImpliesCall_of_invalid h2⟩
  all_goals split at h
  · obtain ⟨h1, h2, -⟩ := thenHangup_keeps h (by simpa [TeardownInv] using hi)
    exact ⟨h1, handleImpliesCall_of_invalid h2⟩
  all_goals split at h
  · obtain ⟨h1, h2, -⟩ := thenHangup_keeps h (by simpa [TeardownInv] using hi)
    exact ⟨h1, handleImpliesCall_of_invalid h2⟩
  · simp only [Option.some.injEq, Prod.mk.injEq] at h
    obtain ⟨rfl, -⟩ := h
    exact ⟨hi, hc⟩

theorem onMessage_keeps {fuel : Nat} {env : Env} {s s1 : TAPIModem} {msg : LINEMESSAGE}
    {tr tr1 : List Event}
    (h : onMessage fuel env s msg tr = some (s1, tr1)) (hi : TeardownInv s)
    (hc : HandleImpliesCall s) (hinit : s.tapiStateFlag = .Initialized) :
    TeardownInv s1 ∧ HandleImpliesCall s1 := by
  unfold onMessage at h
  split at h
  · exact onCallState_keeps h hi hc hinit
  all_goals split at h
  · obtain ⟨h1, h2, -⟩ := thenHangup_keeps h (by simpa [TeardownInv] using hi)
    exact ⟨h1, handleImpliesCall_of_invalid h2⟩
  all_goals split at h
  · exact onLineDevState_keeps h hi hc
  all_goals split at h
  · split at h
    · obtain ⟨h1, h2, -⟩ := thenHangup_keeps h (by simpa [TeardownInv] using hi)
      exact ⟨h1, handleImpliesCall_of_invalid h2⟩
    · simp only [Option.some.injEq, Prod.mk.injEq] at h
      obtain ⟨rfl, -⟩ := h
      exact ⟨hi, hc⟩
  · simp only [Option.some.injEq, Prod.mk.injEq] at h
    obtain ⟨rfl, -⟩ := h
    exact ⟨hi, hc⟩

theorem on_TAPIevent_keeps {fuel : Nat} {env : Env} {s s1 : TAPIModem} {tr : List Event}
    (h : on_TAPIevent fuel env s = some (s1, tr)) (hi : TeardownInv s)
    (hc : HandleImpliesCall s) (hinit : s.tapiStateFlag = .Initialized) :
    TeardownInv s1 ∧ HandleImpliesCall s1 := by
  unfold on_TAPIevent at h
  simp only at h
  split at h
  · split at h
    · exact absurd h (by simp)
    · rename_i s2 tr2 hs
      simp only [Option.some.injEq, Prod.mk.injEq] at h
      obtain ⟨rfl, -⟩ := h
      obtain ⟨h1, h2, -⟩ := shutdownTAPI_keeps hs hi
      exact ⟨by simpa [TeardownInv] using h1, handleImpliesCall_of_invalid h2⟩
  all_goals split at h
  · simp only [Option.some.injEq, Prod.mk.injEq] at h
    obtain ⟨rfl, -⟩ := h
    exact ⟨hi, hc⟩
  all_goals split at h
  · simp only [Option.some.injEq, Prod.mk.injEq] at h
    obtain ⟨rfl, -⟩ := h
    exact ⟨hi, hc⟩
  · exact onMessage_keeps h hi hc hinit

theorem com_readReady_keeps {fuel : Nat} {env : Env} {s s1 : TAPIModem} {tr : List Event}
    (h : com_readReady fuel env s = some (s1, tr)) (hi : TeardownInv s)
    (hc : HandleImpliesCall s) :
    TeardownInv s1 ∧ HandleImpliesCall s1 := by
  unfold com_readReady at h
  simp only at h
  split at h
  · simp only [Option.some.injEq, Prod.mk.injEq] at h
    obtain ⟨rfl, -⟩ := h
    exact ⟨hi, hc⟩
  · split at h
    · split at h
      · simp only [Option.some.injEq, Prod.mk.injEq] at h
        obtain ⟨rfl, -⟩ := h
        obtain ⟨hb, hn, hu⟩ := hi
        exact ⟨⟨by simp [hb], hn, hu⟩, hc⟩
      · simp only [Option.some.injEq, Prod.mk.injEq] at h
        obtain ⟨rfl, -⟩ := h
        obtain ⟨hb, hn, hu⟩ := hi
        exact ⟨⟨by simp [hb], hn, hu⟩, hc⟩
      · split at h
        · exact absurd h (by simp)
        · rename_i s2 tr2 hh
          simp only [Option.some.injEq, Prod.mk.injEq] at h
          obtain ⟨rfl, -⟩ := h
          obtain ⟨⟨hb, hn, hu⟩, h2, -⟩ := hangupCall_keeps hh hi
          exact ⟨⟨by simp [hb], hn, hu⟩, handleImpliesCall_of_invalid h2⟩
    · simp only [Option.some.injEq, Prod.mk.injEq] at h
      obtain ⟨rfl, -⟩ := h
      exact ⟨hi, hc⟩

theorem on_COMevent_keeps {fuel : Nat} {env : Env} {s s1 : TAPIModem} {tr : List Event}
    (h : on_COMevent fuel env s = some (s1, tr)) (hi : TeardownInv s)
    (hc : HandleImpliesCall s) :
    TeardownInv s1 ∧ HandleImpliesCall s1 := by
  unfold on_COMevent at h
  simp only at h
  split at h
  · exact absurd h (by simp)
  · rename_i s2 tr2 hr
    have h2 : TeardownInv s2 ∧ HandleImpliesCall s2 := by
      split at hr
      · exact com_readReady_keeps hr hi hc
      · simp only [Option.some.injEq, Prod.mk.injEq] at hr
        obtain ⟨rfl, -⟩ := hr
        exact ⟨hi, hc⟩
    split at h
    · split at h
      · obtain ⟨h1, h3, -⟩ := thenHangup_keeps h (by simpa [TeardownInv] using h2.1)
        exact ⟨h1, handleImpliesCall_of_invalid h3⟩
      · simp only [Option.some.injEq, Prod.mk.injEq] at h
        obtain ⟨rfl, -⟩ := h
        exact ⟨by simpa [TeardownInv] using h2.1, by simpa [HandleImpliesCall] using h2.2⟩
    · simp only [Option.some.injEq, Prod.mk.injEq] at h
      obtain ⟨rfl, -⟩ := h
      exact h2

theorem writeData_keeps {fuel : Nat} {env : Env} {s s1 : TAPIModem} {tr : List Event}
    {len : Nat} {r : Int}
    (h : writeData fuel env s len = some (s1, tr, r)) (hi : TeardownInv s)
    (hc : HandleImpliesCall s) :
    TeardownInv s1 ∧ HandleImpliesCall s1 := by
  unfold writeData at h
  split at h
  · simp only [Option.some.injEq, Prod.mk.injEq] at h
    obtain ⟨rfl, -⟩ := h
    exact ⟨hi, hc⟩
  · simp only [Option.some.injEq, Prod.mk.injEq] at h
    obtain ⟨rfl, -⟩ := h
    exact ⟨by simpa [TeardownInv] using hi, by simpa [HandleImpliesCall] using hc⟩
  · split at h
    · exact absurd h (by simp)
    · rename_i s2 tr2 hh
      simp only [Option.some.injEq, Prod.mk.injEq] at h
      obtain ⟨rfl, -⟩ := h
      obtain ⟨h1, h2, -⟩ := hangupCall_keeps hh (by simpa [TeardownInv] using hi)
      exact ⟨h1, handleImpliesCall_of_invalid h2⟩

theorem endConnection_keeps {fuel : Nat} {env : Env} {s s1 : TAPIModem} {tr : List Event}
    (h : endConnection fuel env s = some (s1, tr)) (hi : TeardownInv s) :
    TeardownInv s1 ∧ s1.hCommFile = INVALID_HANDLE_VALUE := by
  unfold endConnection at h
  split at h
  · exact absurd h (by simp)
  · rename_i s2 tr2 hh
    simp only [Option.some.injEq, Prod.mk.injEq] at h
    obtain ⟨rfl, -⟩ := h
    obtain ⟨h1, h2, -⟩ := hangupCall_keeps hh hi
    exact ⟨by simpa [TeardownInv] using h1, by simpa using h2⟩

theorem close_keeps {fuel : Nat} {env : Env} {s s1 : TAPIModem} {tr : List Event}
    (h : close fuel env s = some (s1, tr)) (hi : TeardownInv s) :
    TeardownInv s1 ∧ s1.hCommFile = INVALID_HANDLE_VALUE := by
  unfold close at h
  split at h
  · exact absurd h (by simp)
  · rename_i s2 tr2 hh
    simp only [Option.some.injEq, Prod.mk.injEq] at h
    obtain ⟨rfl, -⟩ := h
    obtain ⟨h1, h2⟩ := endConnection_keeps hh hi
    exact ⟨by simpa [TeardownInv] using h1, by simpa using h2⟩

theorem initializeTAPI_keeps {fuel : Nat} {env : Env} {s s1 : TAPIModem} {tr : List Event}
    {r : Bool}
    (h : initializeTAPI fuel env s = some (s1, tr, r)) (hi : TeardownInv s)
    (hc : HandleImpliesCall s) :
    TeardownInv s1 ∧ HandleImpliesCall s1 := by
  unfold initializeTAPI at h
  split at h
  · simp only [Option.some.injEq, Prod.mk.injEq] at h
    obtain ⟨rfl, -⟩ := h
    exact ⟨hi, hc⟩
  · rename_i hni
    have hu : s.tapiStateFlag = .Uninitialized := by
      cases hs : s.tapiStateFlag
      · rfl
      · exact absurd hs hni
    split at h
    · exact absurd h (by simp)
    · simp only [Option.some.injEq, Prod.mk.injEq] at h
      obtain ⟨rfl, -⟩ := h
      exact ⟨by simpa [TeardownInv] using hi, by simpa [HandleImpliesCall] using hc⟩
    · simp only [Option.some.injEq, Prod.mk.injEq] at h
      obtain ⟨rfl, -⟩ := h
      obtain ⟨hb, hn, hu2⟩ := hi
      exact ⟨⟨hb, fun _ => rfl, fun hx => absurd hx (by simp)⟩,
        handleImpliesCall_of_invalid (hu2 hu)⟩

theorem makeCallSection_fields (env : Env) (s : TAPIModem) (tr : List Event) :
    (makeCallSection env s tr).1.bufferSem = s.bufferSem ∧
    (makeCallSection env s tr).1.modemReadBuffer = s.modemReadBuffer ∧
    (makeCallSection env s tr).1.tapiEventNotifier = s.tapiEventNotifier ∧
    (makeCallSection env s tr).1.tapiStateFlag = s.tapiStateFlag ∧
    (makeCallSection env s tr).1.hCommFile = s.hCommFile ∧
    (makeCallSection env s tr).1.callStateFlag = s.callStateFlag := by
  unfold makeCallSection
  split
  · split <;> simp
  · simp

theorem connectToNumber_fields (env : Env) (s : TAPIModem) :
    (connectToNumber env s).1.bufferSem = s.bufferSem ∧
    (connectToNumber env s).1.modemReadBuffer = s.modemReadBuffer ∧
    (connectToNumber env s).1.tapiEventNotifier = s.tapiEventNotifier ∧
    (connectToNumber env s).1.tapiStateFlag = s.tapiStateFlag ∧
    (connectToNumber env s).1.hCommFile = s.hCommFile ∧
    (connectToNumber env s).1.callStateFlag = s.callStateFlag := by
  unfold connectToNumber
  simp only
  split
  · simp
  · split
    · simp
    · split
      · split
        · simp
        · split
          · simp
          · exact makeCallSection_fields _ _ _
      · exact makeCallSection_fields _ _ _

/-- Every entry point keeps the invariants. -/
theorem runOp_keeps {fuel : Nat} {env : Env} {s s1 : TAPIModem} {tr : List Event} {op : Op}
    (h : runOp fuel env s op = some (s1, tr)) (hen : op.enabled s = true)
    (hi : TeardownInv s) (hc : HandleImpliesCall s) :
    TeardownInv s1 ∧ HandleImpliesCall s1 := by
  cases op with
  | initializeTAPI =>
    simp only [runOp, Option.map_eq_some'] at h
    obtain ⟨⟨s2, tr2, r⟩, hh, he⟩ := h
    simp only [Prod.mk.injEq] at he
    obtain ⟨rfl, -⟩ := he
    exact initializeTAPI_keeps hh hi hc
  | connectToNumber =>
    simp only [runOp, Option.some.injEq] at h
    obtain ⟨f1, f2, f3, f4, f5, f6⟩ := connectToNumber_fields env s
    rw [h] at f1 f2 f3 f4 f5 f6
    simp only at f1 f2 f3 f4 f5 f6
    obtain ⟨hb, hn, hu⟩ := hi
    refine ⟨⟨by rw [f1, f2]; exact hb, by rw [f3, f4]; exact hn, by rw [f4, f5]; exact hu⟩, ?_⟩
    unfold HandleImpliesCall
    rw [f5, f6]; exact hc
  | connectToNumberTo modemId destNumber =>
    simp only [runOp, Option.some.injEq, connectToNumberTo] at h
    obtain ⟨f1, f2, f3, f4, f5, f6⟩ := connectToNumber_fields env
      { s with dwDeviceId := modemId, destinationNumber := destNumber }
    rw [h] at f1 f2 f3 f4 f5 f6
    simp only at f1 f2 f3 f4 f5 f6
    obtain ⟨hb, hn, hu⟩ := hi
    refine ⟨⟨by rw [f1, f2]; exact hb, by rw [f3, f4]; exact hn, by rw [f4, f5]; exact hu⟩, ?_⟩
    unfold HandleImpliesCall
    rw [f5, f6]; exact hc
  | endConnection =>
    obtain ⟨h1, h2⟩ := endConnection_keeps h hi
    exact ⟨h1, handleImpliesCall_of_invalid h2⟩
  | close =>
    obtain ⟨h1, h2⟩ := close_keeps h hi
    exact ⟨h1, handleImpliesCall_of_invalid h2⟩
  | hangupCall =>
    obtain ⟨h1, h2, -⟩ := hangupCall_keeps h hi
    exact ⟨h1, handleImpliesCall_of_invalid h2⟩
  | readData maxlen =>
    simp only [runOp, Option.some.injEq, Prod.mk.injEq] at h
    obtain ⟨rfl, -⟩ := h
    obtain ⟨hb, hn, hu⟩ := hi
    rcases readData_cases s maxlen with h0 | ⟨-, hle, h1⟩
    · rw [h0]; exact ⟨⟨hb, hn, hu⟩, hc⟩
    · rw [h1]
      refine ⟨⟨?_, hn, hu⟩, hc⟩
      simp only [List.length_drop]
      omega
  | writeData len =>
    simp only [runOp, Option.map_eq_some'] at h
    obtain ⟨⟨s2, tr2, r⟩, hh, he⟩ := h
    simp only [Prod.mk.injEq] at he
    obtain ⟨rfl, -⟩ := he
    exact writeData_keeps hh hi hc
  | on_TAPIevent =>
    exact on_TAPIevent_keeps h hi hc (hi.2.1 hen)
  | on_COMevent =>
    exact on_COMevent_keeps h hi hc
  | com_readReady =>
    exact com_readReady_keeps h hi hc

/-- The invariants hold in every reachable state. -/
theorem reachable_keeps {s : TAPIModem} (h : Reachable s) :
    TeardownInv s ∧ HandleImpliesCall s := by
  induction h with
  | init =>
    refine ⟨⟨rfl, ?_, ?_⟩, ?_⟩
    · intro hn; exact absurd hn (by simp [initialState])
    · intro _; rfl
    · exact handleImpliesCall_of_invalid rfl
  | step fuel env op _ hen hrun ih => exact runOp_keeps hrun hen ih.1 ih.2

/-! ## Example runs -/

theorem reachable_stInitialized : Reachable stInitialized :=
  Reachable.step 1 envOk .initializeTAPI Reachable.init rfl
    (show runOp 1 envOk initialState .initializeTAPI
        = some (stInitialized, [.call .lineInitializeEx, .tapiStateChanged .Initialized])
      from rfl)

theorem reachable_stDialed : Reachable stDialed :=
  Reachable.step 0 envOk (.connectToNumberTo 3 "+1-555-0100") reachable_stInitialized rfl
    (show runOp 0 envOk stInitialized (.connectToNumberTo 3 "+1-555-0100")
        = some (stDialed,
            [.call .lineNegotiateAPIVersion, .lock .lineMutex, .call .lineOpen,
             .lineStateChanged .LineOpened, .call .lineSetStatusMessages, .unlock .lineMutex,
             .lock .callMutex, .call .lineMakeCall, .unlock .callMutex])
      from rfl)

theorem reachable_stConnected : Reachable stConnected :=
  Reachable.step 1 (envMsg (msgCallState LINECALLSTATE_CONNECTED)) .on_TAPIevent
    reachable_stDialed rfl
    (show runOp 1 (envMsg (msgCallState LINECALLSTATE_CONNECTED)) stDialed .on_TAPIevent
        = some (stConnected,
            [.lock .lineAppMutex, .call .lineGetMessage, .unlock .lineAppMutex,
             .lock .callMutex, .call .lineGetID, .unlock .callMutex,
             .lock .commMutex, .unlock .commMutex,
             .lock .commMutex, .unlock .commMutex, .lock .commMutex, .unlock .commMutex,
             .lock .commMutex, .unlock .commMutex, .lock .commMutex, .unlock .commMutex,
             .connected, .callStateChanged .CallConnected])
      from rfl)

theorem reachable_stWriteFailed : Reachable stWriteFailed :=
  Reachable.step 1 envWriteFails (.writeData 5) reachable_stConnected rfl
    (show runOp 1 envWriteFails stConnected (.writeData 5)
        = some (stWriteFailed,
            [.lock .commMutex, .unlock .commMutex, .errorOccurred CommWriteError,
             .lock .callMutex, .call .lineGetCallStatus, .call .lineDrop,
             .call .lineDeallocateCall, .unlock .callMutex,
             .lock .lineMutex, .call .lineClose, .unlock .lineMutex, .disconnected])
      from rfl)

theorem reachable_stDialingAgain : Reachable stDialingAgain :=
  Reachable.step 0 (envMsg (msgCallState LINECALLSTATE_DIALING)) .on_TAPIevent
    reachable_stConnected rfl
    (show runOp 0 (envMsg (msgCallState LINECALLSTATE_DIALING)) stConnected .on_TAPIevent
        = some (stDialingAgain,
            [.lock .lineAppMutex, .call .lineGetMessage, .unlock .lineAppMutex,
             .callStateChanged .CallDialing])
      from rfl)

theorem reachable_stReadTornDown : Reachable stReadTornDown :=
  Reachable.step 1 envOk .hangupCall
    (Reachable.step 0 envOk (.readData 2)
      (Reachable.step 0 envReceive .com_readReady reachable_stConnected rfl
        (show runOp 0 envReceive stConnected .com_readReady
            = some (stReceived, [.lock .commMutex, .unlock .commMutex, .readyRead])
          from rfl))
      rfl
      (show runOp 0 envOk stReceived (.readData 2) = some (stRead, []) from rfl))
    rfl
    (show runOp 1 envOk stRead .hangupCall
        = some (stReadTornDown,
            [.lock .callMutex, .call .lineGetCallStatus, .call .lineDrop,
             .call .lineDeallocateCall, .unlock .callMutex,
             .lock .lineMutex, .call .lineClose, .unlock .lineMutex, .disconnected])
      from rfl)

/-! ## The inbound buffer: the semaphore counts the buffered bytes -/

/-- C3: in every state reached from the constructed object (empty buffer,
semaphore count 0) by any sequence of entry points, among them the producer
`com_readReady`, the consumer `readData` and the teardown `hangupCall`, the
count of `bufferSem` equals the length of `modemReadBuffer`. -/
theorem semaphore_counts_buffered_bytes {s : TAPIModem} (h : Reachable s) :
    s.bufferSem = s.modemReadBuffer.length :=
  (reachable_keeps h).1.1

/-- C3, at the state reached by connecting, receiving three bytes, reading two
of them and tearing the call down: one byte is buffered and the count is 1. -/
theorem semaphore_counts_buffered_bytes_witness :
    Reachable stReadTornDown ∧
    stReadTornDown.bufferSem = stReadTornDown.modemReadBuffer.length :=
  ⟨reachable_stReadTornDown, semaphore_counts_buffered_bytes reachable_stReadTornDown⟩

/-! ## The communication handle and the call state -/

/-- C6 (as stated, refuted): two reachable states break the equivalence.  After a
failed write in a connected call the call state is still `CallConnected` while
the handle is `INVALID_HANDLE_VALUE`; after a `LINECALLSTATE_DIALING` message in
a connected call the handle is still valid while the call state is
`CallDialing`. -/
theorem handle_iff_connected_fails :
    (Reachable stWriteFailed ∧ stWriteFailed.callStateFlag = .CallConnected ∧
      ¬ validHandle stWriteFailed.hCommFile) ∧
    (Reachable stDialingAgain ∧ validHandle stDialingAgain.hCommFile ∧
      stDialingAgain.callStateFlag ≠ .CallConnected) :=
  ⟨⟨reachable_stWriteFailed, rfl, by decide⟩, ⟨reachable_stDialingAgain, by decide, by decide⟩⟩

/-- C6 (amended): in every reachable state, a communication handle other than
`INVALID_HANDLE_VALUE` (in particular a valid one) is held only while the call
state is `CallConnected` or `CallDialing`. -/
theorem handle_held_only_connected_or_dialing {s : TAPIModem} (h : Reachable s)
    (hv : s.hCommFile ≠ INVALID_HANDLE_VALUE) :
    s.callStateFlag = .CallConnected ∨ s.callStateFlag = .CallDialing :=
  (reachable_keeps h).2 hv

/-- C6 (amended), at the connected state `stConnected`. -/
theorem handle_held_only_connected_or_dialing_witness :
    (Reachable stConnected ∧ stConnected.hCommFile ≠ INVALID_HANDLE_VALUE) ∧
    (stConnected.callStateFlag = .CallConnected ∨ stConnected.callStateFlag = .CallDialing) :=
  ⟨⟨reachable_stConnected, by decide⟩,
    handle_held_only_connected_or_dialing reachable_stConnected (by decide)⟩

/-! ## Teardown: its trace, and when it returns -/

theorem isTeardown_deinitializeTAPI (s : TAPIModem) :
    ∀ e ∈ (deinitializeTAPI s).2, Event.isTeardown e = true := by
  intro e he
  simp only [deinitializeTAPI, List.mem_cons, List.mem_singleton, List.not_mem_nil,
    or_false] at he
  rcases he with rfl | rfl | rfl | rfl <;> rfl

theorem isTeardown_dropTrace (cs : Nat) : ∀ e ∈ dropTrace cs, Event.isTeardown e = true := by
  intro e he
  unfold dropTrace at he
  split at he
  · simp only [List.mem_singleton] at he; subst he; rfl
  · simp at he

theorem isTeardown_repeat_call (f : TapiCall) (n : Nat) :
    ∀ e ∈ repeatTrace [Event.call f] n, Event.isTeardown e = true := by
  intro e he
  have := mem_repeatTrace he
  simp only [List.mem_singleton] at this
  subst this; rfl

theorem dropAndDeallocate_trace {fuel : Nat} {env : Env} {s s1 : TAPIModem}
    {tr tr1 : List Event} {cs : Nat} {b : Bool}
    (h : dropAndDeallocate fuel env s tr cs = some (s1, tr1, b))
    (ht : ∀ e ∈ tr, Event.isTeardown e = true) :
    ∀ e ∈ tr1, Event.isTeardown e = true := by
  unfold dropAndDeallocate at h
  split at h
  · exact absurd h (by simp)
  · simp only [Option.some.injEq, Prod.mk.injEq] at h
    obtain ⟨-, rfl, -⟩ := h
    intro e he
    simp only [List.mem_append, List.mem_singleton] at he
    rcases he with ((he | he) | he) | he
    · exact ht e he
    · exact isTeardown_dropTrace _ e he
    · exact isTeardown_repeat_call _ _ e he
    · subst he; rfl
  · simp only [Option.some.injEq, Prod.mk.injEq] at h
    obtain ⟨-, rfl, -⟩ := h
    intro e he
    simp only [List.mem_append, List.mem_singleton] at he
    rcases he with (((he | he) | he) | he) | he
    · exact ht e he
    · exact isTeardown_dropTrace _ e he
    · exact isTeardown_repeat_call _ _ e he
    · subst he; rfl
    · exact isTeardown_deinitializeTAPI _ e he

theorem hangupCallSection_trace {fuel : Nat} {env : Env} {s s1 : TAPIModem}
    {tr1 : List Event} {b : Bool}
    (h : hangupCallSection fuel env s = some (s1, tr1, b)) :
    ∀ e ∈ tr1, Event.isTeardown e = true := by
  unfold hangupCallSection at h
  split at h
  · simp only [Option.some.injEq, Prod.mk.injEq] at h
    obtain ⟨-, rfl, -⟩ := h
    intro e he
    simp only [List.mem_cons, List.mem_singleton, List.not_mem_nil, or_false] at he
    rcases he with rfl | rfl <;> rfl
  · split at h
    · exact absurd h (by simp)
    · refine dropAndDeallocate_trace h ?_
      intro e he
      simp only [List.mem_append, List.mem_singleton] at he
      rcases he with ((he | he) | he) | he
      · subst he; rfl
      · exact isTeardown_repeat_call _ _ e he
      · subst he; rfl
      · exact isTeardown_deinitializeTAPI _ e he
    · refine dropAndDeallocate_trace h ?_
      intro e he
      simp only [List.mem_append, List.mem_singleton] at he
      rcases he with he | he
      · subst he; rfl
      · exact isTeardown_repeat_call _ _ e he

theorem closeLineSection_trace (env : Env) (s : TAPIModem) (tr : List Event)
    (ht : ∀ e ∈ tr, Event.isTeardown e = true) :
    ∀ e ∈ (closeLineSection env s tr).2, Event.isTeardown e = true := by
  intro e he
  unfold closeLineSection at he
  split at he
  · split at he
    · simp only [List.mem_append, List.mem_cons, List.mem_singleton, List.not_mem_nil,
        or_false] at he
      rcases he with (he | rfl | rfl | rfl) | he
      · exact ht e he
      · rfl
      · rfl
      · rfl
      · exact isTeardown_deinitializeTAPI _ e he
    · simp only [List.mem_append, List.mem_cons, List.mem_singleton, List.not_mem_nil,
        or_false] at he
      rcases he with he | rfl | rfl | rfl | rfl
      · exact ht e he
      all_goals rfl
  · simp only [List.mem_append, List.mem_cons, List.mem_singleton, List.not_mem_nil,
      or_false] at he
    rcases he with he | rfl | rfl | rfl
    · exact ht e he
    all_goals rfl

/-- The trace of `hangupCall` holds mutex operations, TAPI calls and the signals
`errorOccurred`, `tapiStateChanged` and `disconnected` only. -/
theorem hangupCall_trace {fuel : Nat} {env : Env} {s s1 : TAPIModem} {tr : List Event}
    (h : hangupCall fuel env s = some (s1, tr)) :
    ∀ e ∈ tr, Event.isTeardown e = true := by
  unfold hangupCall at h
  split at h
  · simp only [Option.some.injEq, Prod.mk.injEq] at h
    obtain ⟨-, rfl⟩ := h
    intro e he; simp at he
  · split at h
    · exact absurd h (by simp)
    · rename_i s2 tr2 hsec
      simp only [Option.some.injEq, Prod.mk.injEq] at h
      obtain ⟨-, rfl⟩ := h
      exact hangupCallSection_trace hsec
    · rename_i s2 tr2 hsec
      simp only [Option.some.injEq] at h
      have := closeLineSection_trace env s2 tr2 (hangupCallSection_trace hsec)
      rw [h] at this
      exact this

/-- With a subsystem that answers every call of the teardown with success at the
first attempt, `hangupCall` returns for every positive fuel, with a clean
teardown. -/
theorem hangupCall_of_succeeds {fuel : Nat} {env : Env} {s : TAPIModem}
    (hinit : s.tapiStateFlag = .Initialized) (hs : TeardownSucceeds env) (hf : 0 < fuel) :
    ∃ tr, hangupCall fuel env s
        = some ({ deinitializeCommPort s with hcCurrentCall := 0, hlDevice := 0 }, tr) ∧
      signals tr = [.disconnected] := by
  obtain ⟨h1, h2, h3, h4⟩ := hs
  obtain ⟨n, rfl⟩ : ∃ n, fuel = n + 1 := ⟨fuel - 1, by omega⟩
  have hloop : ∀ sz, callStatusLoop env (sizeof_LINECALLSTATUS + 1024) (n + 1) 0 sz
      = some (.acquired (env.lineGetCallStatus 0 (sizeof_LINECALLSTATUS + 1024)).dwCallState,
          1) := by
    intro sz
    simp only [callStatusLoop]
    rw [if_neg (not_lt.mpr h1), if_neg (not_lt.mpr h2)]
  have hd : deallocateLoop env (n + 1) 0 = some (true, 1) := by
    simp only [deallocateLoop]
    rw [if_neg (fun hh => absurd hh.1 (not_lt.mpr h3)), if_neg (not_lt.mpr h3)]
  have hsec : ∃ tr1, hangupCallSection (n + 1) env (deinitializeCommPort s)
      = some (deinitializeCommPort s, tr1, true) ∧ signals tr1 = [] := by
    unfold hangupCallSection
    split
    · exact ⟨_, rfl, by simp⟩
    · rw [hloop]
      simp only [dropAndDeallocate, hd]
      exact ⟨_, rfl, by simp⟩
  obtain ⟨tr1, hsec1, hsig⟩ := hsec
  unfold hangupCall
  rw [if_neg (by rw [hinit]; simp), hsec1]
  simp only
  unfold closeLineSection
  split
  · rw [if_neg (not_lt.mpr h4)]
    exact ⟨_, rfl, by simp [hsig, signals_cons_signal, Event.isSignal]⟩
  · exact ⟨_, rfl, by simp [hsig, signals_cons_signal, Event.isSignal]⟩

/-- Without a call handle and a line handle, `hangupCall` in an initialized
subsystem makes no TAPI call and returns for every fuel. -/
theorem hangupCall_no_handles (fuel : Nat) (env : Env) {s : TAPIModem}
    (hinit : s.tapiStateFlag = .Initialized) (hc : s.hcCurrentCall = 0) (hl : s.hlDevice = 0) :
    hangupCall fuel env s
      = some ({ deinitializeCommPort s with hcCurrentCall := 0, hlDevice := 0 },
          [.lock .callMutex, .unlock .callMutex, .lock .lineMutex, .unlock .lineMutex,
           .disconnected]) := by
  unfold hangupCall
  rw [if_neg (by rw [hinit]; simp)]
  have hsec : hangupCallSection fuel env (deinitializeCommPort s)
      = some (deinitializeCommPort s, [.lock .callMutex, .unlock .callMutex], true) := by
    unfold hangupCallSection
    rw [if_pos (by simpa [deinitializeCommPort] using hc)]
  rw [hsec]
  simp only
  unfold closeLineSection
  rw [if_neg (by simpa [deinitializeCommPort] using hl)]
  rfl

/-! ## Teardown twice, and `endConnection` without a call -/

/-- C4 (as stated, refuted): in the connected state `stConnected`, with a
subsystem in which every call succeeds, the first `hangupCall` tears the call
down and emits `disconnected`; the second `hangupCall` leaves that state as it
is and emits `disconnected` again, so the two calls emit it twice. -/
theorem hangupCall_twice_emits_disconnected_twice :
    hangupCall 1 envOk stConnected
      = some (stTornDown,
          [.lock .callMutex, .call .lineGetCallStatus, .call .lineDrop,
           .call .lineDeallocateCall, .unlock .callMutex,
           .lock .lineMutex, .call .lineClose, .unlock .lineMutex, .disconnected]) ∧
    hangupCall 1 envOk stTornDown
      = some (stTornDown,
          [.lock .callMutex, .unlock .callMutex, .lock .lineMutex, .unlock .lineMutex,
           .disconnected]) ∧
    signals [Event.lock .callMutex, .unlock .callMutex, .lock .lineMutex, .unlock .lineMutex,
             .disconnected] = [.disconnected] ∧
    (signals
      ([Event.lock .callMutex, .call .lineGetCallStatus, .call .lineDrop,
        .call .lineDeallocateCall, .unlock .callMutex,
        .lock .lineMutex, .call .lineClose, .unlock .lineMutex, .disconnected] ++
       [Event.lock .callMutex, .unlock .callMutex, .lock .lineMutex, .unlock .lineMutex,
        .disconnected])).count .disconnected = 2 :=
  ⟨rfl, rfl, by decide, by decide⟩

/-- C4 (amended): in an initialized subsystem, (1) whenever a first `hangupCall`
returns with the subsystem still initialized (no call of the teardown failed),
it has emitted `disconnected` once and no other signal, and a second
`hangupCall` in direct succession returns, for every fuel and whatever the
subsystem answers, with the state unchanged and without a TAPI call, and it
emits `disconnected` once more, so the two calls emit it twice; (2) when every
call of the teardown succeeds at its first attempt, the first `hangupCall`
does return so, for every positive fuel. -/
theorem hangupCall_twice_same_state {fuel : Nat} {env : Env} {s : TAPIModem}
    (hinit : s.tapiStateFlag = .Initialized) :
    (∀ s1 tr1, hangupCall fuel env s = some (s1, tr1) → s1.tapiStateFlag = .Initialized →
      signals tr1 = [.disconnected] ∧
      ∀ fuel2 env2,
        hangupCall fuel2 env2 s1
          = some (s1, [.lock .callMutex, .unlock .callMutex, .lock .lineMutex,
                       .unlock .lineMutex, .disconnected]) ∧
        signals (tr1 ++ [.lock .callMutex, .unlock .callMutex, .lock .lineMutex,
                         .unlock .lineMutex, .disconnected])
          = [.disconnected, .disconnected]) ∧
    (TeardownSucceeds env → 0 < fuel →
      ∃ s1 tr1, hangupCall fuel env s = some (s1, tr1) ∧ s1.tapiStateFlag = .Initialized) := by
  constructor
  · intro s1 tr1 h1 hok
    rcases hangupCall_spec h1 with ⟨h0, -, -⟩ | ⟨-, hs1, ht1⟩ | ⟨-, -, e, c, l, hs1, -⟩
    · rw [hinit] at h0; exact absurd h0 (by simp)
    · refine ⟨ht1, ?_⟩
      intro fuel2 env2
      have h2 := hangupCall_no_handles fuel2 env2 hok (by rw [hs1]) (by rw [hs1])
      refine ⟨?_, ?_⟩
      · rw [h2]
        subst hs1
        rfl
      · rw [signals_append, ht1]
        simp [signals_cons_signal, Event.isSignal]
    · rw [hs1] at hok; exact absurd hok (by simp)
  · intro hs hf
    obtain ⟨tr, h, -⟩ := hangupCall_of_succeeds hinit hs hf
    exact ⟨_, tr, h, by simpa [deinitializeCommPort] using hinit⟩

/-- C4 (amended), at the connected state `stConnected` with the subsystem
`envOk` and fuel 1. -/
theorem hangupCall_twice_same_state_witness :
    stConnected.tapiStateFlag = .Initialized ∧
    ((∀ s1 tr1, hangupCall 1 envOk stConnected = some (s1, tr1) →
        s1.tapiStateFlag = .Initialized →
        signals tr1 = [.disconnected] ∧
        ∀ fuel2 env2,
          hangupCall fuel2 env2 s1
            = some (s1, [.lock .callMutex, .unlock .callMutex, .lock .lineMutex,
                         .unlock .lineMutex, .disconnected]) ∧
          signals (tr1 ++ [.lock .callMutex, .unlock .callMutex, .lock .lineMutex,
                           .unlock .lineMutex, .disconnected])
            = [.disconnected, .disconnected]) ∧
     (TeardownSucceeds envOk → 0 < 1 →
        ∃ s1 tr1, hangupCall 1 envOk stConnected = some (s1, tr1) ∧
          s1.tapiStateFlag = .Initialized)) :=
  ⟨rfl, hangupCall_twice_same_state rfl⟩

/-- C5 (as stated, refuted): on the constructed object (no call, no handles,
subsystem not initialized) `endConnection` emits `callStateChanged` and
`lineStateChanged`; in the initialized state `stInitialized` (no call, no
handles) it emits `disconnected` before them. -/
theorem endConnection_without_call_emits :
    (endConnection 0 envOk initialState).map (fun r => signals r.2)
      = some [.callStateChanged .CallDefaultState, .lineStateChanged .LineClosed] ∧
    (endConnection 0 envOk stInitialized).map (fun r => signals r.2)
      = some [.disconnected, .callStateChanged .CallDefaultState,
              .lineStateChanged .LineClosed] :=
  ⟨by decide, by decide⟩

/-- C5 (amended): in every state without a call handle and a line handle,
`endConnection` returns, for every fuel and whatever the subsystem answers; it
calls no TAPI function and emits `callStateChanged(CallDefaultState)` and then
`lineStateChanged(LineClosed)`, after one `disconnected` when the subsystem is
initialized; it emits no `errorOccurred`. -/
theorem endConnection_without_call (fuel : Nat) (env : Env) {s : TAPIModem}
    (hc : s.hcCurrentCall = 0) (hl : s.hlDevice = 0) :
    ∃ s1 tr, endConnection fuel env s = some (s1, tr) ∧
      signals tr =
        (if s.tapiStateFlag = .Initialized then [Event.disconnected] else []) ++
          [.callStateChanged .CallDefaultState, .lineStateChanged .LineClosed] ∧
      (∀ f, Event.call f ∉ tr) ∧ (∀ e, Event.errorOccurred e ∉ tr) := by
  unfold endConnection
  cases hs : s.tapiStateFlag with
  | Uninitialized =>
    have h : hangupCall fuel env s = some (s, []) := by
      unfold hangupCall; rw [if_pos hs]
    rw [h]
    refine ⟨_, _, rfl, ?_, ?_, ?_⟩
    · simp [signals_cons_signal, Event.isSignal]
    · intro f; simp
    · intro e; simp
  | Initialized =>
    rw [hangupCall_no_handles fuel env hs hc hl]
    refine ⟨_, _, rfl, ?_, ?_, ?_⟩
    · simp [signals_cons_signal, Event.isSignal]
    · intro f; simp
    · intro e; simp

/-- C5 (amended), at the initialized state `stInitialized`. -/
theorem endConnection_without_call_witness :
    (stInitialized.hcCurrentCall = 0 ∧ stInitialized.hlDevice = 0) ∧
    ∃ s1 tr, endConnection 0 envOk stInitialized = some (s1, tr) ∧
      signals tr =
        (if stInitialized.tapiStateFlag = .Initialized then [Event.disconnected] else []) ++
          [.callStateChanged .CallDefaultState, .lineStateChanged .LineClosed] ∧
      (∀ f, Event.call f ∉ tr) ∧ (∀ e, Event.errorOccurred e ∉ tr) :=
  ⟨⟨rfl, rfl⟩, endConnection_without_call 0 envOk rfl rfl⟩

/-! ## The growing-buffer loops -/

/-- C7 (the defect, evaluated): with a subsystem that always succeeds and always
reports the same required size, larger than the initial capacity
`sizeof(record) + 1024`, neither loop is ever left, whatever number of calls
it is allowed: the record's `dwTotalSize` stays at the initial capacity, so
every call reports the record as too small again.  The teardown of a connected
call does not return either.  When the required size fits the initial
capacity, each loop is left after one call. -/
theorem negotiation_loops_never_end (k fuel attempt size : Nat) :
    callStatusLoop (envNeeds (sizeof_LINECALLSTATUS + 1024 + 1 + k))
        (sizeof_LINECALLSTATUS + 1024) fuel attempt size = none ∧
    lineGetIDLoop (envNeeds (sizeof_VARSTRING + 1024 + 1 + k))
        (sizeof_VARSTRING + 1024) fuel attempt size = none ∧
    hangupCall fuel (envNeeds (sizeof_LINECALLSTATUS + 1024 + 1 + k)) stConnected = none ∧
    callStatusLoop (envNeeds (sizeof_LINECALLSTATUS + 1024))
        (sizeof_LINECALLSTATUS + 1024) (fuel + 1) 0 size
      = some (.acquired LINECALLSTATE_CONNECTED, 1) ∧
    lineGetIDLoop (envNeeds (sizeof_VARSTRING + 1024))
        (sizeof_VARSTRING + 1024) (fuel + 1) 0 size
      = some (.acquired 4, 1) := by
  have h1 : ∀ fuel attempt size,
      callStatusLoop (envNeeds (sizeof_LINECALLSTATUS + 1024 + 1 + k))
        (sizeof_LINECALLSTATUS + 1024) fuel attempt size = none := by
    intro fuel
    induction fuel with
    | zero => intro attempt size; rfl
    | succ n ih =>
      intro attempt size
      simp only [callStatusLoop, envNeeds]
      rw [if_neg (by decide), if_pos (by omega)]
      exact ih _ _
  have h2 : ∀ fuel attempt size,
      lineGetIDLoop (envNeeds (sizeof_VARSTRING + 1024 + 1 + k))
        (sizeof_VARSTRING + 1024) fuel attempt size = none := by
    intro fuel
    induction fuel with
    | zero => intro attempt size; rfl
    | succ n ih =>
      intro attempt size
      simp only [lineGetIDLoop, envNeeds]
      rw [if_neg (by decide), if_pos (by omega)]
      exact ih _ _
  refine ⟨h1 _ _ _, h2 _ _ _, ?_, ?_, ?_⟩
  · unfold hangupCall
    rw [if_neg (by decide)]
    have : hangupCallSection fuel (envNeeds (sizeof_LINECALLSTATUS + 1024 + 1 + k))
        (deinitializeCommPort stConnected) = none := by
      unfold hangupCallSection
      rw [if_neg (by decide), h1]
    rw [this]
  · simp only [callStatusLoop, envNeeds]
    rw [if_neg (by decide), if_neg (by omega)]
  · simp only [lineGetIDLoop, envNeeds]
    rw [if_neg (by decide), if_neg (by omega)]

/-! ## Signaling messages -/

/-- A non-negative result of `lineGetMessage` is none of the four error codes
`on_TAPIevent` switches over. -/
theorem polled_not_fatal {ret : Int} (h : 0 ≤ ret) :
    ¬ (ret = toLONG LINEERR_INVALPOINTER ∨ ret = toLONG LINEERR_NOMEM) ∧
    ¬ (ret = toLONG LINEERR_INVALAPPHANDLE ∨ ret = toLONG LINEERR_OPERATIONFAILED) := by
  have h1 : toLONG LINEERR_INVALPOINTER < 0 := by decide
  have h2 : toLONG LINEERR_NOMEM < 0 := by decide
  have h3 : toLONG LINEERR_INVALAPPHANDLE < 0 := by decide
  have h4 : toLONG LINEERR_OPERATIONFAILED < 0 := by decide
  constructor
  · rintro (h | h) <;> omega
  · rintro (h | h) <;> omega

/-- A successfully polled message for the current call reaches the switch over
the message identifier. -/
theorem on_TAPIevent_owned (fuel : Nat) (env : Env) (s : TAPIModem)
    (hret : 0 ≤ env.lineGetMessage.1) (hown : env.lineGetMessage.2.hDevice = s.hcCurrentCall) :
    on_TAPIevent fuel env s
      = onMessage fuel env s env.lineGetMessage.2
          [.lock .lineAppMutex, .call .lineGetMessage, .unlock .lineAppMutex] := by
  unfold on_TAPIevent
  simp only
  rw [if_neg (polled_not_fatal hret).1, if_neg (polled_not_fatal hret).2,
    if_neg (not_not.mpr hown)]

/-- C8: in an initialized subsystem, (1) every `hangupCall` that returns leaves
the pending-write list empty and has no `bytesWritten` in its trace; (2) so
does the handling of a `LINE_CLOSE` message addressed to the current call; and
(3) when every call of the teardown succeeds at its first attempt, that
handling does return, for every positive fuel. -/
theorem teardown_abandons_pending_writes {fuel : Nat} {env : Env} {s : TAPIModem}
    (hinit : s.tapiStateFlag = .Initialized) :
    (∀ s1 tr, hangupCall fuel env s = some (s1, tr) →
      s1.pendingOverlappedWrites = [] ∧ ∀ n, Event.bytesWritten n ∉ tr) ∧
    (0 ≤ env.lineGetMessage.1 → env.lineGetMessage.2.dwMessageID = LINE_CLOSE →
      env.lineGetMessage.2.hDevice = s.hcCurrentCall →
      (∀ s1 tr, on_TAPIevent fuel env s = some (s1, tr) →
        s1.pendingOverlappedWrites = [] ∧ ∀ n, Event.bytesWritten n ∉ tr) ∧
      (TeardownSucceeds env → 0 < fuel → ∃ s1 tr, on_TAPIevent fuel env s = some (s1, tr))) := by
  have key : ∀ (s0 : TAPIModem), s0.tapiStateFlag = .Initialized →
      ∀ s1 tr, hangupCall fuel env s0 = some (s1, tr) →
        s1.pendingOverlappedWrites = [] ∧ ∀ n, Event.bytesWritten n ∉ tr := by
    intro s0 h0 s1 tr h
    constructor
    · rcases hangupCall_spec h with ⟨hu, -, -⟩ | ⟨-, rfl, -⟩ | ⟨-, -, e, c, l, rfl, -⟩
      · rw [h0] at hu; exact absurd hu (by simp)
      · rfl
      · rfl
    · intro n hn
      have := hangupCall_trace h _ hn
      exact absurd this (by simp [Event.isTeardown])
  refine ⟨key s hinit, ?_⟩
  intro hret hid hown
  have hev : on_TAPIevent fuel env s
      = thenHangup fuel env { s with lineStateFlag := .LineClosed }
          ([.lock .lineAppMutex, .call .lineGetMessage, .unlock .lineAppMutex]
            ++ [.lineStateChanged .LineClosed]) := by
    rw [on_TAPIevent_owned fuel env s hret hown]
    unfold onMessage
    rw [if_neg (by rw [hid]; decide), if_pos hid]
  constructor
  · intro s1 tr h
    rw [hev] at h
    obtain ⟨tr2, hh, rfl⟩ := thenHangup_eq h
    obtain ⟨hp, hb⟩ := key { s with lineStateFlag := .LineClosed } hinit s1 tr2 hh
    refine ⟨hp, ?_⟩
    intro n hn
    simp only [List.mem_append, List.mem_cons, List.mem_singleton, List.not_mem_nil,
      or_false] at hn
    rcases hn with (hn | hn) | hn
    · rcases hn with hn | hn | hn <;> exact absurd hn (by simp)
    · exact absurd hn (by simp)
    · exact hb n hn
  · intro hs hf
    obtain ⟨tr2, hh, -⟩ := hangupCall_of_succeeds
      (s := { s with lineStateFlag := .LineClosed }) hinit hs hf
    rw [hev]
    unfold thenHangup
    rw [hh]
    exact ⟨_, _, rfl⟩

/-- C8, at the connected state `stWriting` with two writes in flight, a
subsystem in which every call succeeds, and a `LINE_CLOSE` message for the
current call. -/
theorem teardown_abandons_pending_writes_witness :
    stWriting.tapiStateFlag = .Initialized ∧
    ((∀ s1 tr, hangupCall 1 (envMsg { hDevice := 3, dwMessageID := LINE_CLOSE }) stWriting
        = some (s1, tr) →
        s1.pendingOverlappedWrites = [] ∧ ∀ n, Event.bytesWritten n ∉ tr) ∧
     (0 ≤ (envMsg { hDevice := 3, dwMessageID := LINE_CLOSE }).lineGetMessage.1 →
      (envMsg { hDevice := 3, dwMessageID := LINE_CLOSE }).lineGetMessage.2.dwMessageID
        = LINE_CLOSE →
      (envMsg { hDevice := 3, dwMessageID := LINE_CLOSE }).lineGetMessage.2.hDevice
        = stWriting.hcCurrentCall →
      (∀ s1 tr, on_TAPIevent 1 (envMsg { hDevice := 3, dwMessageID := LINE_CLOSE }) stWriting
          = some (s1, tr) →
        s1.pendingOverlappedWrites = [] ∧ ∀ n, Event.bytesWritten n ∉ tr) ∧
      (TeardownSucceeds (envMsg { hDevice := 3, dwMessageID := LINE_CLOSE }) → 0 < 1 →
        ∃ s1 tr, on_TAPIevent 1 (envMsg { hDevice := 3, dwMessageID := LINE_CLOSE }) stWriting
          = some (s1, tr)))) :=
  ⟨rfl, teardown_abandons_pending_writes rfl⟩

/-- C10: for every successfully polled message whose device handle differs from
the tracked call handle, `on_TAPIevent` returns with the state unchanged, after
the poll under `lineAppMutex` and nothing else: it emits no signal. -/
theorem foreign_message_discarded (fuel : Nat) (env : Env) (s : TAPIModem)
    (hret : 0 ≤ env.lineGetMessage.1)
    (hother : env.lineGetMessage.2.hDevice ≠ s.hcCurrentCall) :
    on_TAPIevent fuel env s
      = some (s, [.lock .lineAppMutex, .call .lineGetMessage, .unlock .lineAppMutex]) ∧
    signals [Event.lock .lineAppMutex, .call .lineGetMessage, .unlock .lineAppMutex] = [] := by
  constructor
  · unfold on_TAPIevent
    simp only
    rw [if_neg (polled_not_fatal hret).1, if_neg (polled_not_fatal hret).2, if_pos hother]
  · simp

/-- C10, at the connected state `stWriting` (call handle 3) and a
`LINECALLSTATE_DISCONNECTED` message for the call handle 9. -/
theorem foreign_message_discarded_witness :
    (0 ≤ (envMsg { hDevice := 9, dwMessageID := LINE_CALLSTATE,
                   dwParam1 := LINECALLSTATE_DISCONNECTED }).lineGetMessage.1 ∧
     (envMsg { hDevice := 9, dwMessageID := LINE_CALLSTATE,
               dwParam1 := LINECALLSTATE_DISCONNECTED }).lineGetMessage.2.hDevice
       ≠ stWriting.hcCurrentCall) ∧
    (on_TAPIevent 1 (envMsg { hDevice := 9, dwMessageID := LINE_CALLSTATE,
                              dwParam1 := LINECALLSTATE_DISCONNECTED }) stWriting
      = some (stWriting, [.lock .lineAppMutex, .call .lineGetMessage, .unlock .lineAppMutex]) ∧
     signals [Event.lock .lineAppMutex, .call .lineGetMessage, .unlock .lineAppMutex] = []) :=
  ⟨⟨by decide, by decide⟩,
    foreign_message_discarded 1 _ stWriting (by decide) (by decide)⟩

/-! ## The message `LINECALLSTATE_CONNECTED` -/

/-- C9 (as stated, refuted): in the dialed state `stDialed`, a
`LINECALLSTATE_CONNECTED` message for the current call whose `lineGetID`
succeeds (result 0, record large enough) and stores the non-null handle 4
that is not a character device sets the call state to `CallConnected`, but no
notifier of the data path exists and `connected` is not emitted.  The same
happens when `lineGetID` succeeds and stores a null handle, and then the handle
held is not valid either. -/
theorem connected_without_data_path :
    ((envNotCharDevice (msgCallState LINECALLSTATE_CONNECTED)).lineGetID 0
        (sizeof_VARSTRING + 1024) = ⟨0, 28, 4⟩ ∧
     on_TAPIevent 1 (envNotCharDevice (msgCallState LINECALLSTATE_CONNECTED)) stDialed
       = some (stConnectedNoPort,
           [.lock .lineAppMutex, .call .lineGetMessage, .unlock .lineAppMutex,
            .lock .callMutex, .call .lineGetID, .unlock .callMutex,
            .lock .commMutex, .unlock .commMutex, .callStateChanged .CallConnected]) ∧
     stConnectedNoPort.callStateFlag = .CallConnected ∧
     stConnectedNoPort.commIOEventNotifier = false) ∧
    ((envNullHandle (msgCallState LINECALLSTATE_CONNECTED)).lineGetID 0
        (sizeof_VARSTRING + 1024) = ⟨0, 28, NULL⟩ ∧
     on_TAPIevent 1 (envNullHandle (msgCallState LINECALLSTATE_CONNECTED)) stDialed
       = some (stNullConnected,
           [.lock .lineAppMutex, .call .lineGetMessage, .unlock .lineAppMutex,
            .lock .callMutex, .call .lineGetID, .unlock .callMutex,
            .lock .commMutex, .unlock .commMutex, .callStateChanged .CallConnected]) ∧
     stNullConnected.callStateFlag = .CallConnected ∧
     ¬ validHandle stNullConnected.hCommFile ∧
     stNullConnected.commIOEventNotifier = false) ∧
    Event.connected ∉
      [Event.lock .lineAppMutex, .call .lineGetMessage, .unlock .lineAppMutex,
       .lock .callMutex, .call .lineGetID, .unlock .callMutex,
       .lock .commMutex, .unlock .commMutex, .callStateChanged .CallConnected] :=
  ⟨⟨rfl, rfl, rfl, rfl⟩, ⟨rfl, rfl, rfl, by decide, rfl⟩, by decide⟩

/-- C9 (amended): in a state whose call state is not `CallConnected`, for a
successfully polled `LINECALLSTATE_CONNECTED` message addressed to the current
call whose `lineGetID` loop delivers the handle `h`: (1) when `h` is valid and
of type `FILE_TYPE_CHAR`, `on_TAPIevent` returns with the call state
`CallConnected`, the handle `h` held, the data path started (notifier
created, device opened) and nothing else changed, and its signals are
`connected`, once, and then `callStateChanged(CallConnected)`; (2) when `h`
is null or not of that type, it returns with the call state `CallConnected`
and the handle `h` held, the data path not started, and
`callStateChanged(CallConnected)` as its only signal. -/
theorem connected_message_connects {fuel : Nat} {env : Env} {s : TAPIModem} {h calls : Nat}
    (hnc : s.callStateFlag ≠ .CallConnected)
    (hret : 0 ≤ env.lineGetMessage.1)
    (hown : env.lineGetMessage.2.hDevice = s.hcCurrentCall)
    (hid : env.lineGetMessage.2.dwMessageID = LINE_CALLSTATE)
    (hp1 : env.lineGetMessage.2.dwParam1 = LINECALLSTATE_CONNECTED)
    (hacq : lineGetIDLoop env (sizeof_VARSTRING + 1024) fuel 0 (sizeof_VARSTRING + 1024)
      = some (.acquired h, calls)) :
    (validHandle h → env.GetFileType h = FILE_TYPE_CHAR →
      ∃ tr, on_TAPIevent fuel env s
          = some ({ s with hCommFile := h, commIOEventNotifier := true, openMode := true,
                           callStateFlag := .CallConnected }, tr) ∧
        signals tr = [.connected, .callStateChanged .CallConnected] ∧
        (signals tr).count .connected = 1) ∧
    ((h = NULL ∨ env.GetFileType h ≠ FILE_TYPE_CHAR) →
      ∃ tr, on_TAPIevent fuel env s
          = some ({ s with hCommFile := h, callStateFlag := .CallConnected }, tr) ∧
        signals tr = [.callStateChanged .CallConnected]) := by
  have hev : on_TAPIevent fuel env s
      = onConnected fuel env s
          [.lock .lineAppMutex, .call .lineGetMessage, .unlock .lineAppMutex] := by
    rw [on_TAPIevent_owned fuel env s hret hown]
    unfold onMessage
    rw [if_pos hid]
    unfold onCallState
    rw [if_neg (by rw [hp1]; decide), if_neg (by rw [hp1]; decide),
      if_neg (by rw [hp1]; decide), if_neg (by rw [hp1]; decide),
      if_neg (by rw [hp1]; decide), if_pos hp1]
  have hcon : onConnected fuel env s
      [.lock .lineAppMutex, .call .lineGetMessage, .unlock .lineAppMutex]
      = some ({ (initializeCommPort env { s with hCommFile := h }).1 with
                  callStateFlag := .CallConnected },
          [Event.lock .lineAppMutex, .call .lineGetMessage, .unlock .lineAppMutex]
            ++ repeatTrace [.lock .callMutex, .call .lineGetID, .unlock .callMutex] calls
            ++ [.lock .commMutex, .unlock .commMutex]
            ++ (initializeCommPort env { s with hCommFile := h }).2
            ++ [.callStateChanged .CallConnected]) := by
    unfold onConnected
    rw [if_neg hnc, hacq]
  rw [hev, hcon]
  constructor
  · intro hv hft
    have hi : initializeCommPort env { s with hCommFile := h }
        = ({ s with hCommFile := h, commIOEventNotifier := true, openMode := true },
           [.lock .commMutex, .unlock .commMutex, .lock .commMutex, .unlock .commMutex,
            .lock .commMutex, .unlock .commMutex, .lock .commMutex, .unlock .commMutex,
            .connected]) := by
      unfold initializeCommPort
      rw [if_neg hv.2, if_neg (not_not.mpr hft)]
    rw [hi]
    refine ⟨_, rfl, ?_⟩
    have hsig : signals
        ([Event.lock .lineAppMutex, .call .lineGetMessage, .unlock .lineAppMutex]
          ++ repeatTrace [.lock .callMutex, .call .lineGetID, .unlock .callMutex] calls
          ++ [.lock .commMutex, .unlock .commMutex]
          ++ [.lock .commMutex, .unlock .commMutex, .lock .commMutex, .unlock .commMutex,
              .lock .commMutex, .unlock .commMutex, .lock .commMutex, .unlock .commMutex,
              .connected]
          ++ [.callStateChanged .CallConnected])
        = [.connected, .callStateChanged .CallConnected] := by
      simp [signals_cons_signal, Event.isSignal]
    exact ⟨hsig, by rw [hsig]; decide⟩
  · intro hbad
    have hi : initializeCommPort env { s with hCommFile := h }
        = ({ s with hCommFile := h }, []) := by
      unfold initializeCommPort
      rcases hbad with h0 | hft
      · rw [if_pos h0]
      · by_cases h0 : ({ s with hCommFile := h } : TAPIModem).hCommFile = NULL
        · rw [if_pos h0]
        · rw [if_neg h0, if_pos hft]
    rw [hi]
    refine ⟨_, rfl, ?_⟩
    simp [signals_cons_signal, Event.isSignal]

/-- C9 (amended), at the dialed state `stDialed` with the subsystem `envOk`
delivering the message: the handle 4 is acquired with one call of `lineGetID`. -/
theorem connected_message_connects_witness :
    (stDialed.callStateFlag ≠ .CallConnected ∧
     0 ≤ (envMsg (msgCallState LINECALLSTATE_CONNECTED)).lineGetMessage.1 ∧
     (envMsg (msgCallState LINECALLSTATE_CONNECTED)).lineGetMessage.2.hDevice
       = stDialed.hcCurrentCall ∧
     (envMsg (msgCallState LINECALLSTATE_CONNECTED)).lineGetMessage.2.dwMessageID
       = LINE_CALLSTATE ∧
     (envMsg (msgCallState LINECALLSTATE_CONNECTED)).lineGetMessage.2.dwParam1
       = LINECALLSTATE_CONNECTED ∧
     lineGetIDLoop (envMsg (msgCallState LINECALLSTATE_CONNECTED)) (sizeof_VARSTRING + 1024) 1 0
         (sizeof_VARSTRING + 1024)
       = some (.acquired 4, 1)) ∧
    ((validHandle 4 →
      (envMsg (msgCallState LINECALLSTATE_CONNECTED)).GetFileType 4 = FILE_TYPE_CHAR →
      ∃ tr, on_TAPIevent 1 (envMsg (msgCallState LINECALLSTATE_CONNECTED)) stDialed
          = some ({ stDialed with hCommFile := 4, commIOEventNotifier := true,
                                  openMode := true, callStateFlag := .CallConnected }, tr) ∧
        signals tr = [.connected, .callStateChanged .CallConnected] ∧
        (signals tr).count .connected = 1) ∧
     ((4 = NULL ∨
        (envMsg (msgCallState LINECALLSTATE_CONNECTED)).GetFileType 4 ≠ FILE_TYPE_CHAR) →
      ∃ tr, on_TAPIevent 1 (envMsg (msgCallState LINECALLSTATE_CONNECTED)) stDialed
          = some ({ stDialed with hCommFile := 4, callStateFlag := .CallConnected }, tr) ∧
        signals tr = [.callStateChanged .CallConnected])) :=
  ⟨⟨by decide, by decide, rfl, rfl, rfl, rfl⟩,
    connected_message_connects (by decide) (by decide) rfl rfl rfl rfl⟩

/-! ## When a teardown returns -/

theorem dropAndDeallocate_returns {fuel : Nat} {env : Env} (s : TAPIModem) (tr : List Event)
    (cs : Nat) (h : deallocateLoop env fuel 0 ≠ none) :
    ∃ r, dropAndDeallocate fuel env s tr cs = some r := by
  unfold dropAndDeallocate
  cases hd : deallocateLoop env fuel 0 with
  | none => exact absurd hd h
  | some r =>
    obtain ⟨b, calls⟩ := r
    cases b <;> exact ⟨_, rfl⟩

/-- A teardown returns whenever its two retry loops are left within the fuel. -/
theorem hangupCall_returns {fuel : Nat} {env : Env} (s : TAPIModem)
    (h : TeardownLoopsEnd fuel env) : ∃ s1 tr, hangupCall fuel env s = some (s1, tr) := by
  obtain ⟨h1, h2⟩ := h
  unfold hangupCall
  split
  · exact ⟨_, _, rfl⟩
  · have hsec : ∃ r, hangupCallSection fuel env (deinitializeCommPort s) = some r := by
      unfold hangupCallSection
      split
      · exact ⟨_, rfl⟩
      · cases hl : callStatusLoop env (sizeof_LINECALLSTATUS + 1024) fuel 0
            (sizeof_LINECALLSTATUS + 1024) with
        | none => exact absurd hl h1
        | some r =>
          obtain ⟨o, calls⟩ := r
          cases o with
          | failed => exact dropAndDeallocate_returns _ _ _ h2
          | acquired cs => exact dropAndDeallocate_returns _ _ _ h2
    obtain ⟨⟨s1, tr1, b⟩, hr⟩ := hsec
    rw [hr]
    cases b
    · exact ⟨_, _, rfl⟩
    · exact ⟨_, _, rfl⟩

theorem thenHangup_returns {fuel : Nat} {env : Env} (s : TAPIModem) (tr : List Event)
    (h : TeardownLoopsEnd fuel env) : ∃ s1 tr1, thenHangup fuel env s tr = some (s1, tr1) := by
  obtain ⟨s1, tr1, hh⟩ := hangupCall_returns s h
  unfold thenHangup
  rw [hh]
  exact ⟨_, _, rfl⟩

theorem teardownLoopsEnd_of_succeeds {fuel : Nat} {env : Env} (hs : TeardownSucceeds env)
    (hf : 0 < fuel) : TeardownLoopsEnd fuel env := by
  obtain ⟨h1, h2, h3, h4⟩ := hs
  obtain ⟨n, rfl⟩ : ∃ n, fuel = n + 1 := ⟨fuel - 1, by omega⟩
  constructor
  · simp only [callStatusLoop]
    rw [if_neg (not_lt.mpr h1), if_neg (not_lt.mpr h2)]
    simp
  · simp only [deallocateLoop]
    rw [if_neg (fun hh => absurd hh.1 (not_lt.mpr h3)), if_neg (not_lt.mpr h3)]
    simp

/-- What a teardown leaves of the fields it does not own. -/
theorem hangupCall_flags {fuel : Nat} {env : Env} {s s1 : TAPIModem} {tr : List Event}
    (h : hangupCall fuel env s = some (s1, tr)) :
    s1.callStateFlag = s.callStateFlag ∧ s1.lineStateFlag = s.lineStateFlag ∧
    s1.disconnectFlag = s.disconnectFlag := by
  rcases hangupCall_spec h with ⟨-, rfl, -⟩ | ⟨-, rfl, -⟩ | ⟨-, -, e, c, l, rfl, -⟩
  · exact ⟨rfl, rfl, rfl⟩
  · exact ⟨rfl, rfl, rfl⟩
  · exact ⟨rfl, rfl, rfl⟩

/-! ## Call-state messages: connected again, disconnected -/

/-- C11: in a state whose call state is `CallConnected`, handling a successfully
polled `LINECALLSTATE_CONNECTED` message returns the state unchanged; its trace
is the poll alone, so `lineGetID` is not called (the handle is not acquired
again) and no signal is emitted. -/
theorem connected_again_is_noop (fuel : Nat) (env : Env) (s : TAPIModem)
    (hc : s.callStateFlag = .CallConnected)
    (hret : 0 ≤ env.lineGetMessage.1)
    (hid : env.lineGetMessage.2.dwMessageID = LINE_CALLSTATE)
    (hp1 : env.lineGetMessage.2.dwParam1 = LINECALLSTATE_CONNECTED) :
    on_TAPIevent fuel env s = some (s, pollTrace) ∧
    signals pollTrace = [] ∧ Event.call .lineGetID ∉ pollTrace := by
  refine ⟨?_, by decide, by decide⟩
  by_cases hown : env.lineGetMessage.2.hDevice = s.hcCurrentCall
  · rw [on_TAPIevent_owned fuel env s hret hown]
    unfold onMessage
    rw [if_pos hid]
    unfold onCallState
    rw [if_neg (by rw [hp1]; decide), if_neg (by rw [hp1]; decide),
      if_neg (by rw [hp1]; decide), if_neg (by rw [hp1]; decide),
      if_neg (by rw [hp1]; decide), if_pos hp1]
    unfold onConnected
    rw [if_pos hc]
    rfl
  · unfold on_TAPIevent
    simp only
    rw [if_neg (polled_not_fatal hret).1, if_neg (polled_not_fatal hret).2, if_pos hown]
    rfl

/-- C11, at the connected state `stConnected` and a `LINECALLSTATE_CONNECTED`
message for its call. -/
theorem connected_again_is_noop_witness :
    (stConnected.callStateFlag = .CallConnected ∧
     0 ≤ (envMsg (msgCallState LINECALLSTATE_CONNECTED)).lineGetMessage.1 ∧
     (envMsg (msgCallState LINECALLSTATE_CONNECTED)).lineGetMessage.2.dwMessageID
       = LINE_CALLSTATE ∧
     (envMsg (msgCallState LINECALLSTATE_CONNECTED)).lineGetMessage.2.dwParam1
       = LINECALLSTATE_CONNECTED) ∧
    (on_TAPIevent 1 (envMsg (msgCallState LINECALLSTATE_CONNECTED)) stConnected
       = some (stConnected, pollTrace) ∧
     signals pollTrace = [] ∧ Event.call .lineGetID ∉ pollTrace) :=
  ⟨⟨rfl, by decide, rfl, rfl⟩,
    connected_again_is_noop 1 _ stConnected rfl (by decide) rfl rfl⟩

theorem disconnectReasonOf_unknown {code : Nat} (h : code ∉ recognisedDisconnectModes) :
    disconnectReasonOf code = .DisconnectUnknown := by
  simp only [recognisedDisconnectModes, List.mem_cons, List.mem_singleton, List.not_mem_nil,
    or_false, not_or] at h
  obtain ⟨h1, h2, h3, h4, h5, h6, h7, h8, h9, h10, h11, h12, h13, h14, h15, h16, h17, h18,
    h19⟩ := h
  unfold disconnectReasonOf
  rw [if_neg h1, if_neg h2, if_neg h3, if_neg h4, if_neg h5, if_neg h6, if_neg h7, if_neg h8,
    if_neg h9, if_neg h10, if_neg h11, if_neg h12, if_neg h13, if_neg h14, if_neg h15,
    if_neg h16, if_neg h17, if_neg h18, if_neg h19]

/-- C12: for a successfully polled `LINECALLSTATE_DISCONNECTED` message with
code `dwParam2` addressed to the current call, `on_TAPIevent` sets the
disconnect reason from the code and the call state to `CallDisconnected`,
emits `callStateChanged(CallDisconnected)` and runs `hangupCall` on that
state; every returning run ends with the call state `CallDisconnected` and the
reason mapped from the code; a code without a case of its own maps to
`DisconnectUnknown`; and the handling returns whenever the loops of the
teardown are left. -/
theorem disconnected_message_tears_down (fuel : Nat) (env : Env) (s : TAPIModem)
    (hret : 0 ≤ env.lineGetMessage.1)
    (hown : env.lineGetMessage.2.hDevice = s.hcCurrentCall)
    (hid : env.lineGetMessage.2.dwMessageID = LINE_CALLSTATE)
    (hp1 : env.lineGetMessage.2.dwParam1 = LINECALLSTATE_DISCONNECTED) :
    (∀ s1 tr, on_TAPIevent fuel env s = some (s1, tr) →
      s1.callStateFlag = .CallDisconnected ∧
      s1.disconnectFlag = disconnectReasonOf env.lineGetMessage.2.dwParam2 ∧
      ∃ tr2, hangupCall fuel env
            { s with disconnectFlag := disconnectReasonOf env.lineGetMessage.2.dwParam2,
                     callStateFlag := .CallDisconnected } = some (s1, tr2) ∧
        tr = pollTrace ++ [.callStateChanged .CallDisconnected] ++ tr2) ∧
    (env.lineGetMessage.2.dwParam2 ∉ recognisedDisconnectModes →
      disconnectReasonOf env.lineGetMessage.2.dwParam2 = .DisconnectUnknown) ∧
    (TeardownLoopsEnd fuel env → ∃ s1 tr, on_TAPIevent fuel env s = some (s1, tr)) := by
  have hev : on_TAPIevent fuel env s
      = thenHangup fuel env
          { s with disconnectFlag := disconnectReasonOf env.lineGetMessage.2.dwParam2,
                   callStateFlag := .CallDisconnected }
          (pollTrace ++ [.callStateChanged .CallDisconnected]) := by
    rw [on_TAPIevent_owned fuel env s hret hown]
    unfold onMessage
    rw [if_pos hid]
    unfold onCallState
    rw [if_neg (by rw [hp1]; decide), if_neg (by rw [hp1]; decide),
      if_neg (by rw [hp1]; decide), if_neg (by rw [hp1]; decide), if_pos hp1]
    rfl
  refine ⟨?_, disconnectReasonOf_unknown, ?_⟩
  · intro s1 tr h
    rw [hev] at h
    obtain ⟨tr2, hh, rfl⟩ := thenHangup_eq h
    obtain ⟨f1, -, f3⟩ := hangupCall_flags hh
    exact ⟨f1, f3, tr2, hh, rfl⟩
  · intro hl
    rw [hev]
    exact thenHangup_returns _ _ hl

/-- C12, at the connected state `stConnected` and a disconnect with the code
`LINEDISCONNECTMODE_UNKNOWN` (2), which has no case of its own. -/
theorem disconnected_message_tears_down_witness :
    (0 ≤ envDisconnected.lineGetMessage.1 ∧
     envDisconnected.lineGetMessage.2.hDevice = stConnected.hcCurrentCall ∧
     envDisconnected.lineGetMessage.2.dwMessageID = LINE_CALLSTATE ∧
     envDisconnected.lineGetMessage.2.dwParam1 = LINECALLSTATE_DISCONNECTED) ∧
    ((∀ s1 tr, on_TAPIevent 1 envDisconnected stConnected = some (s1, tr) →
      s1.callStateFlag = .CallDisconnected ∧
      s1.disconnectFlag = disconnectReasonOf envDisconnected.lineGetMessage.2.dwParam2 ∧
      ∃ tr2, hangupCall 1 envDisconnected
            { stConnected with
              disconnectFlag := disconnectReasonOf envDisconnected.lineGetMessage.2.dwParam2,
              callStateFlag := .CallDisconnected } = some (s1, tr2) ∧
        tr = pollTrace ++ [.callStateChanged .CallDisconnected] ++ tr2) ∧
    (envDisconnected.lineGetMessage.2.dwParam2 ∉ recognisedDisconnectModes →
      disconnectReasonOf envDisconnected.lineGetMessage.2.dwParam2 = .DisconnectUnknown) ∧
    (TeardownLoopsEnd 1 envDisconnected →
      ∃ s1 tr, on_TAPIevent 1 envDisconnected stConnected = some (s1, tr))) :=
  ⟨⟨by decide, rfl, rfl, rfl⟩,
    disconnected_message_tears_down 1 envDisconnected stConnected (by decide) rfl rfl rfl⟩

/-! ## `endConnection`, and the message `LINEDEVSTATE_REINIT` -/

/-- C17: whatever the state before and however the teardown goes, every
`endConnection` that returns leaves the call state `CallDefaultState`, the line
state `LineClosed` and the disconnect reason `DisconnectedByFunction`, and has
emitted `callStateChanged(CallDefaultState)` and `lineStateChanged(LineClosed)`
last; and `endConnection` returns whenever the loops of the teardown are left. -/
theorem endConnection_resets_flags (fuel : Nat) (env : Env) (s : TAPIModem) :
    (∀ s1 tr, endConnection fuel env s = some (s1, tr) →
      s1.callStateFlag = .CallDefaultState ∧ s1.lineStateFlag = .LineClosed ∧
      s1.disconnectFlag = .DisconnectedByFunction ∧
      ∃ tr1, tr = tr1 ++ [.callStateChanged .CallDefaultState, .lineStateChanged .LineClosed]) ∧
    (TeardownLoopsEnd fuel env → ∃ s1 tr, endConnection fuel env s = some (s1, tr)) := by
  constructor
  · intro s1 tr h
    unfold endConnection at h
    split at h
    · exact absurd h (by simp)
    · simp only [Option.some.injEq, Prod.mk.injEq] at h
      obtain ⟨rfl, rfl⟩ := h
      exact ⟨rfl, rfl, rfl, _, rfl⟩
  · intro hl
    obtain ⟨s1, tr1, hh⟩ := hangupCall_returns s hl
    unfold endConnection
    rw [hh]
    exact ⟨_, _, rfl⟩

/-- C20: in the enumeration `TAPIError`, `LineDeallocationError` and
`CommReadError` have the same code 0x0B, and the twelve other enumerators
together with that code are pairwise different. -/
theorem error_codes_distinct_but_one :
    LineDeallocationError = CommReadError ∧ LineDeallocationError = 0x0B ∧
    [NoError, InitError, CommAquireError, LineReplyError, CallStatusAquireError,
     CallDeallocationError, NoDeviceFoundError, NegotiationError, LineOpenError,
     CallMakeError, CommWriteError, OperationError, LineDeallocationError].Nodup ∧
    [NoError, InitError, CommAquireError, LineReplyError, CallStatusAquireError,
     CallDeallocationError, NoDeviceFoundError, NegotiationError, LineOpenError,
     CallMakeError, CommWriteError, OperationError, CommReadError].Nodup := by
  decide

/-! ## `writeData` -/

/-- The errors a teardown raises are its own three kinds. -/
theorem hangupCall_errors {fuel : Nat} {env : Env} {s s1 : TAPIModem} {tr : List Event}
    (h : hangupCall fuel env s = some (s1, tr)) {e : TAPIError}
    (he : Event.errorOccurred e ∈ tr) :
    e = CallStatusAquireError ∨ e = CallDeallocationError ∨ e = LineDeallocationError := by
  have := hangupCall_trace h _ he
  simpa [Event.isTeardown] using this

/-- A teardown that leaves the subsystem state as it was has raised no error. -/
theorem hangupCall_no_error_of_same_state {fuel : Nat} {env : Env} {s s1 : TAPIModem}
    {tr : List Event} (h : hangupCall fuel env s = some (s1, tr))
    (hsame : s1.tapiStateFlag = s.tapiStateFlag) :
    s1.errFlag = s.errFlag ∧ ∀ e, Event.errorOccurred e ∉ tr := by
  rcases hangupCall_spec h with ⟨-, rfl, rfl⟩ | ⟨-, rfl, ht⟩ | ⟨hi, -, e, c, l, rfl, -⟩
  · exact ⟨rfl, fun e he => by simp at he⟩
  · refine ⟨rfl, ?_⟩
    intro e he
    have : Event.errorOccurred e ∈ signals tr :=
      List.mem_filter.mpr ⟨he, rfl⟩
    rw [ht] at this
    simp at this
  · rw [hi] at hsame
    exact absurd hsame (by simp)

theorem dropAndDeallocate_extends {fuel : Nat} {env : Env} {s s1 : TAPIModem}
    {tr tr1 : List Event} {cs : Nat} {b : Bool}
    (h : dropAndDeallocate fuel env s tr cs = some (s1, tr1, b)) :
    ∃ t, tr1 = tr ++ t := by
  unfold dropAndDeallocate at h
  split at h
  · exact absurd h (by simp)
  · simp only [Option.some.injEq, Prod.mk.injEq] at h
    obtain ⟨-, rfl, -⟩ := h
    simp only [List.append_assoc]
    exact ⟨_, rfl⟩
  · simp only [Option.some.injEq, Prod.mk.injEq] at h
    obtain ⟨-, rfl, -⟩ := h
    simp only [List.append_assoc]
    exact ⟨_, rfl⟩

theorem dropAndDeallocate_failed {fuel : Nat} {env : Env} {s s1 : TAPIModem}
    {tr tr1 : List Event} {cs n : Nat} {b : Bool}
    (h : dropAndDeallocate fuel env s tr cs = some (s1, tr1, b))
    (hd : deallocateLoop env fuel 0 = some (false, n)) :
    b = false ∧ Event.errorOccurred CallDeallocationError ∈ tr1 ∧
    s1.tapiStateFlag = .Uninitialized := by
  unfold dropAndDeallocate at h
  rw [hd] at h
  simp only [Option.some.injEq, Prod.mk.injEq] at h
  obtain ⟨rfl, rfl, rfl⟩ := h
  exact ⟨rfl, by simp, rfl⟩

theorem dropAndDeallocate_done {fuel : Nat} {env : Env} {s s1 : TAPIModem}
    {tr tr1 : List Event} {cs n : Nat} {b : Bool}
    (h : dropAndDeallocate fuel env s tr cs = some (s1, tr1, b))
    (hd : deallocateLoop env fuel 0 = some (true, n)) :
    b = true ∧ s1 = s := by
  unfold dropAndDeallocate at h
  rw [hd] at h
  simp only [Option.some.injEq, Prod.mk.injEq] at h
  obtain ⟨rfl, rfl, rfl⟩ := h
  exact ⟨rfl, rfl⟩

theorem closeLineSection_extends (env : Env) (s : TAPIModem) (tr : List Event) :
    ∃ t, (closeLineSection env s tr).2 = tr ++ t := by
  unfold closeLineSection
  split
  · split
    · simp only [List.append_assoc]
      exact ⟨_, rfl⟩
    · exact ⟨_, rfl⟩
  · exact ⟨_, rfl⟩

theorem closeLineSection_keeps_uninitialized (env : Env) (s : TAPIModem) (tr : List Event)
    (h : s.tapiStateFlag = .Uninitialized) :
    (closeLineSection env s tr).1.tapiStateFlag = .Uninitialized := by
  rcases closeLineSection_spec env s tr with ⟨h1, -⟩ | ⟨h1, -, -⟩
  · rw [h1]; exact h
  · rw [h1]

theorem closeLineSection_failed (env : Env) (s : TAPIModem) (tr : List Event)
    (hl : s.hlDevice ≠ 0) (hc : env.lineClose < 0) :
    Event.errorOccurred LineDeallocationError ∈ (closeLineSection env s tr).2 ∧
    (closeLineSection env s tr).1.tapiStateFlag = .Uninitialized := by
  unfold closeLineSection
  rw [if_pos hl, if_pos hc]
  exact ⟨by simp, rfl⟩

/-- The section under `callMutex` leaves the line handle as it is. -/
theorem hangupCallSection_hlDevice {fuel : Nat} {env : Env} {s s1 : TAPIModem}
    {tr1 : List Event} {b : Bool}
    (h : hangupCallSection fuel env s = some (s1, tr1, b)) : s1.hlDevice = s.hlDevice := by
  rcases hangupCallSection_spec h with ⟨-, rfl, -⟩ | ⟨e, rfl, -, -⟩
  · rfl
  · rfl

/-- The results of `hangupCall`, by the way its section under `callMutex` ended. -/
theorem hangupCall_eq_of_section {fuel : Nat} {env : Env} {s s1 : TAPIModem}
    {tr : List Event} (hinit : s.tapiStateFlag = .Initialized)
    (h : hangupCall fuel env s = some (s1, tr)) :
    ∃ s2 tr2 b, hangupCallSection fuel env (deinitializeCommPort s) = some (s2, tr2, b) ∧
      ((b = false ∧ s1 = s2 ∧ tr = tr2) ∨
       (b = true ∧ s1 = (closeLineSection env s2 tr2).1 ∧ tr = (closeLineSection env s2 tr2).2)) := by
  unfold hangupCall at h
  rw [if_neg (by rw [hinit]; simp)] at h
  split at h
  · exact absurd h (by simp)
  · rename_i s2 tr2 hsec
    simp only [Option.some.injEq, Prod.mk.injEq] at h
    obtain ⟨rfl, rfl⟩ := h
    exact ⟨_, _, _, hsec, Or.inl ⟨rfl, rfl, rfl⟩⟩
  · rename_i s2 tr2 hsec
    simp only [Option.some.injEq] at h
    exact ⟨_, _, _, hsec, Or.inr ⟨rfl, by rw [h], by rw [h]⟩⟩

theorem hangupCall_status_failed {fuel : Nat} {env : Env} {s s1 : TAPIModem}
    {tr : List Event} {n : Nat} (hinit : s.tapiStateFlag = .Initialized)
    (hc : s.hcCurrentCall ≠ 0)
    (hs : callStatusLoop env (sizeof_LINECALLSTATUS + 1024) fuel 0 (sizeof_LINECALLSTATUS + 1024)
      = some (.failed, n))
    (h : hangupCall fuel env s = some (s1, tr)) :
    Event.errorOccurred CallStatusAquireError ∈ tr ∧ s1.tapiStateFlag = .Uninitialized := by
  obtain ⟨s2, tr2, b, hsec, hres⟩ := hangupCall_eq_of_section hinit h
  unfold hangupCallSection at hsec
  rw [if_neg (by simpa [deinitializeCommPort] using hc), hs] at hsec
  simp only at hsec
  obtain ⟨t, ht⟩ := dropAndDeallocate_extends hsec
  have hmem : Event.errorOccurred CallStatusAquireError ∈ tr2 := by
    rw [ht]; simp
  have hun : s2.tapiStateFlag = .Uninitialized := by
    rcases dropAndDeallocate_spec hsec with ⟨-, rfl, -⟩ | ⟨-, rfl, -⟩
    · rfl
    · rfl
  rcases hres with ⟨-, rfl, rfl⟩ | ⟨-, rfl, rfl⟩
  · exact ⟨hmem, hun⟩
  · obtain ⟨t2, ht2⟩ := closeLineSection_extends env s2 tr2
    refine ⟨?_, closeLineSection_keeps_uninitialized env s2 tr2 hun⟩
    rw [ht2]
    exact List.mem_append_left _ hmem

theorem hangupCallSection_deallocate {fuel : Nat} {env : Env} {s s1 : TAPIModem}
    {tr1 : List Event} {b d : Bool} {n : Nat} (hc : s.hcCurrentCall ≠ 0)
    (hd : deallocateLoop env fuel 0 = some (d, n))
    (h : hangupCallSection fuel env s = some (s1, tr1, b)) :
    b = d ∧ (d = false →
      Event.errorOccurred CallDeallocationError ∈ tr1 ∧ s1.tapiStateFlag = .Uninitialized) := by
  unfold hangupCallSection at h
  rw [if_neg hc] at h
  split at h
  · exact absurd h (by simp)
  · cases d with
    | false =>
      obtain ⟨h1, h2, h3⟩ := dropAndDeallocate_failed h hd
      exact ⟨h1, fun _ => ⟨h2, h3⟩⟩
    | true =>
      obtain ⟨h1, -⟩ := dropAndDeallocate_done h hd
      exact ⟨h1, fun hf => absurd hf (by simp)⟩
  · cases d with
    | false =>
      obtain ⟨h1, h2, h3⟩ := dropAndDeallocate_failed h hd
      exact ⟨h1, fun _ => ⟨h2, h3⟩⟩
    | true =>
      obtain ⟨h1, -⟩ := dropAndDeallocate_done h hd
      exact ⟨h1, fun hf => absurd hf (by simp)⟩

theorem hangupCall_deallocate_failed {fuel : Nat} {env : Env} {s s1 : TAPIModem}
    {tr : List Event} {n : Nat} (hinit : s.tapiStateFlag = .Initialized)
    (hc : s.hcCurrentCall ≠ 0) (hd : deallocateLoop env fuel 0 = some (false, n))
    (h : hangupCall fuel env s = some (s1, tr)) :
    Event.errorOccurred CallDeallocationError ∈ tr ∧ s1.tapiStateFlag = .Uninitialized := by
  obtain ⟨s2, tr2, b, hsec, hres⟩ := hangupCall_eq_of_section hinit h
  obtain ⟨hb, hf⟩ := hangupCallSection_deallocate
    (by simpa [deinitializeCommPort] using hc) hd hsec
  rcases hres with ⟨-, rfl, rfl⟩ | ⟨hb2, -, -⟩
  · exact hf rfl
  · rw [hb] at hb2
    exact absurd hb2 (by simp)

theorem hangupCall_close_failed {fuel : Nat} {env : Env} {s s1 : TAPIModem}
    {tr : List Event} (hinit : s.tapiStateFlag = .Initialized)
    (hl : s.hlDevice ≠ 0)
    (hd : s.hcCurrentCall = 0 ∨ ∃ n, deallocateLoop env fuel 0 = some (true, n))
    (hclose : env.lineClose < 0)
    (h : hangupCall fuel env s = some (s1, tr)) :
    Event.errorOccurred LineDeallocationError ∈ tr ∧ s1.tapiStateFlag = .Uninitialized := by
  obtain ⟨s2, tr2, b, hsec, hres⟩ := hangupCall_eq_of_section hinit h
  have hl2 : s2.hlDevice ≠ 0 := by
    rw [hangupCallSection_hlDevice hsec]
    simpa [deinitializeCommPort] using hl
  have hb : b = true := by
    by_cases hc : s.hcCurrentCall = 0
    · unfold hangupCallSection at hsec
      rw [if_pos (by simpa [deinitializeCommPort] using hc)] at hsec
      simp only [Option.some.injEq, Prod.mk.injEq] at hsec
      exact hsec.2.2.symm
    · rcases hd with h0 | ⟨n, hn⟩
      · exact absurd h0 hc
      · exact (hangupCallSection_deallocate
          (by simpa [deinitializeCommPort] using hc) hn hsec).1
  rcases hres with ⟨hb2, -, -⟩ | ⟨-, rfl, rfl⟩
  · rw [hb] at hb2
    exact absurd hb2 (by simp)
  · exact closeLineSection_failed env s2 tr2 hl2 hclose

theorem callStatusLoop_lineDrop (env : Env) (r : Int) (total fuel attempt size : Nat) :
    callStatusLoop { env with lineDrop := r } total fuel attempt size
      = callStatusLoop env total fuel attempt size := by
  induction fuel generalizing attempt size with
  | zero => rfl
  | succ n ih =>
    simp only [callStatusLoop]
    rw [ih]

theorem deallocateLoop_lineDrop (env : Env) (r : Int) (fuel attempt : Nat) :
    deallocateLoop { env with lineDrop := r } fuel attempt = deallocateLoop env fuel attempt := by
  induction fuel generalizing attempt with
  | zero => rfl
  | succ n ih =>
    simp only [deallocateLoop]
    rw [ih]

/-- The result of `lineDrop` has no influence on `hangupCall`. -/
theorem hangupCall_lineDrop (fuel : Nat) (env : Env) (r : Int) (s : TAPIModem) :
    hangupCall fuel { env with lineDrop := r } s = hangupCall fuel env s := by
  unfold hangupCall hangupCallSection dropAndDeallocate closeLineSection
  simp only [callStatusLoop_lineDrop, deallocateLoop_lineDrop]

/-- C15 (as stated, refuted): in the connected state `stConnected`, with a
subsystem whose `lineDrop` fails and whose other calls succeed, `hangupCall`
calls `lineDrop`, raises no error and leaves the subsystem `Initialized`. -/
theorem drop_failure_is_ignored :
    envDropFails.lineDrop < 0 ∧
    hangupCall 1 envDropFails stConnected
      = some (stTornDown,
          [.lock .callMutex, .call .lineGetCallStatus, .call .lineDrop,
           .call .lineDeallocateCall, .unlock .callMutex,
           .lock .lineMutex, .call .lineClose, .unlock .lineMutex, .disconnected]) ∧
    stTornDown.tapiStateFlag = .Initialized ∧
    signals [Event.lock .callMutex, .call .lineGetCallStatus, .call .lineDrop,
             .call .lineDeallocateCall, .unlock .callMutex,
             .lock .lineMutex, .call .lineClose, .unlock .lineMutex, .disconnected]
      = [.disconnected] :=
  ⟨by decide, rfl, rfl, by decide⟩

/-- C15 (amended): in an initialized subsystem, for every `hangupCall` that
returns: when the status query of an existing call fails, `errorOccurred
(CallStatusAquireError)` is emitted; when its deallocation fails with a result
other than `LINEERR_INVALCALLSTATE`, `errorOccurred(CallDeallocationError)` is
emitted; when the close of an existing line is reached and fails,
`errorOccurred(LineDeallocationError)` is emitted; and in each of these cases
the subsystem state ends as `Uninitialized`.  The result of `lineDrop` has no
influence on `hangupCall`.  `hangupCall` returns whenever its two loops are
left. -/
theorem teardown_failures_shut_down (fuel : Nat) (env : Env) (s : TAPIModem)
    (hinit : s.tapiStateFlag = .Initialized) :
    (∀ s1 tr, hangupCall fuel env s = some (s1, tr) →
      (s.hcCurrentCall ≠ 0 →
        (∃ n, callStatusLoop env (sizeof_LINECALLSTATUS + 1024) fuel 0
            (sizeof_LINECALLSTATUS + 1024) = some (.failed, n)) →
        Event.errorOccurred CallStatusAquireError ∈ tr ∧ s1.tapiStateFlag = .Uninitialized) ∧
      (s.hcCurrentCall ≠ 0 → (∃ n, deallocateLoop env fuel 0 = some (false, n)) →
        Event.errorOccurred CallDeallocationError ∈ tr ∧ s1.tapiStateFlag = .Uninitialized) ∧
      (s.hlDevice ≠ 0 →
        (s.hcCurrentCall = 0 ∨ ∃ n, deallocateLoop env fuel 0 = some (true, n)) →
        env.lineClose < 0 →
        Event.errorOccurred LineDeallocationError ∈ tr ∧ s1.tapiStateFlag = .Uninitialized)) ∧
    (∀ r, hangupCall fuel { env with lineDrop := r } s = hangupCall fuel env s) ∧
    (TeardownLoopsEnd fuel env → ∃ s1 tr, hangupCall fuel env s = some (s1, tr)) := by
  refine ⟨?_, ?_, hangupCall_returns s⟩
  · intro s1 tr h
    refine ⟨?_, ?_, ?_⟩
    · rintro hc ⟨n, hn⟩
      exact hangupCall_status_failed hinit hc hn h
    · rintro hc ⟨n, hn⟩
      exact hangupCall_deallocate_failed hinit hc hn h
    · intro hl hd hclose
      exact hangupCall_close_failed hinit hl hd hclose h
  · intro r
    exact hangupCall_lineDrop fuel env r s

end TAPIModem

namespace TAPIModem

/-- C15 (amended), at the connected state `stConnected` with a subsystem whose
`lineClose` fails: `hangupCall` returns, has emitted
`errorOccurred(LineDeallocationError)` and leaves the subsystem `Uninitialized`. -/
theorem teardown_failures_shut_down_witness :
    stConnected.tapiStateFlag = .Initialized ∧
    ∃ s1 tr, hangupCall 1 envCloseFails stConnected = some (s1, tr) ∧
      Event.errorOccurred LineDeallocationError ∈ tr ∧ s1.tapiStateFlag = .Uninitialized :=
  ⟨rfl, by
    obtain ⟨h1, -, h3⟩ := teardown_failures_shut_down 1 envCloseFails stConnected rfl
    obtain ⟨s1, tr, h⟩ := h3 ⟨by decide, by decide⟩
    exact ⟨s1, tr, h, (h1 s1 tr h).2.2 (by decide) (Or.inr ⟨1, rfl⟩) (by decide)⟩⟩

/-! ## Failures inside `connectToNumber` -/

theorem makeCallSection_no_teardown (env : Env) (s : TAPIModem) (tr : List Event)
    (h1 : Event.disconnected ∉ tr) (h2 : ∀ f ∈ teardownCalls, Event.call f ∉ tr) :
    (makeCallSection env s tr).1.tapiStateFlag = s.tapiStateFlag ∧
    (makeCallSection env s tr).1.hLineApp = s.hLineApp ∧
    (makeCallSection env s tr).1.hlDevice = s.hlDevice ∧
    Event.disconnected ∉ (makeCallSection env s tr).2 ∧
    ∀ f ∈ teardownCalls, Event.call f ∉ (makeCallSection env s tr).2 := by
  unfold makeCallSection
  split
  · split
    · refine ⟨rfl, rfl, rfl, by simpa using h1, ?_⟩
      intro f hf
      have := h2 f hf
      simp only [teardownCalls, List.mem_cons, List.mem_singleton, List.not_mem_nil,
        or_false] at hf
      rcases hf with rfl | rfl | rfl | rfl | rfl <;> simpa using this
    · refine ⟨rfl, rfl, rfl, by simpa using h1, ?_⟩
      intro f hf
      have := h2 f hf
      simp only [teardownCalls, List.mem_cons, List.mem_singleton, List.not_mem_nil,
        or_false] at hf
      rcases hf with rfl | rfl | rfl | rfl | rfl <;> simpa using this
  · refine ⟨rfl, rfl, rfl, by simpa using h1, ?_⟩
    intro f hf
    have := h2 f hf
    simpa using this

/-- No run of `connectToNumber` tears down or shuts down: the subsystem state
and the session handle stay, a line handle that was there stays, and the
trace holds no `disconnected` and no call of a teardown or shutdown
function. -/
theorem connectToNumber_no_teardown (env : Env) (s : TAPIModem) :
    (connectToNumber env s).1.tapiStateFlag = s.tapiStateFlag ∧
    (connectToNumber env s).1.hLineApp = s.hLineApp ∧
    (s.hlDevice ≠ 0 → (connectToNumber env s).1.hlDevice = s.hlDevice) ∧
    Event.disconnected ∉ (connectToNumber env s).2 ∧
    ∀ f ∈ teardownCalls, Event.call f ∉ (connectToNumber env s).2 := by
  unfold connectToNumber
  simp only
  split
  · exact ⟨rfl, rfl, fun _ => rfl, by simp, fun f _ => by simp⟩
  · split
    · refine ⟨rfl, rfl, fun _ => rfl, by simp, ?_⟩
      intro f hf
      simp only [teardownCalls, List.mem_cons, List.mem_singleton, List.not_mem_nil,
        or_false] at hf
      rcases hf with rfl | rfl | rfl | rfl | rfl <;> simp
    · split
      · rename_i hl
        split
        · refine ⟨rfl, rfl, fun h => absurd hl h, by simp, ?_⟩
          intro f hf
          simp only [teardownCalls, List.mem_cons, List.mem_singleton, List.not_mem_nil,
            or_false] at hf
          rcases hf with rfl | rfl | rfl | rfl | rfl <;> simp
        · split
          · refine ⟨rfl, rfl, fun h => absurd hl h, by simp, ?_⟩
            intro f hf
            simp only [teardownCalls, List.mem_cons, List.mem_singleton, List.not_mem_nil,
              or_false] at hf
            rcases hf with rfl | rfl | rfl | rfl | rfl <;> simp
          · obtain ⟨f1, f2, -, f4, f5⟩ := makeCallSection_no_teardown env
              { s with hlDevice := env.lineOpen.2, lineStateFlag := .LineOpened }
              ([.call .lineNegotiateAPIVersion, .lock .lineMutex]
                ++ [.call .lineOpen, .lineStateChanged .LineOpened, .call .lineSetStatusMessages]
                ++ [.unlock .lineMutex])
              (by simp)
              (by
                intro f hf
                simp only [teardownCalls, List.mem_cons, List.mem_singleton, List.not_mem_nil,
                  or_false] at hf
                rcases hf with rfl | rfl | rfl | rfl | rfl <;> simp)
            exact ⟨f1, f2, fun h => absurd hl h, f4, f5⟩
      · obtain ⟨f1, f2, f3, f4, f5⟩ := makeCallSection_no_teardown env s
          [.call .lineNegotiateAPIVersion, .lock .lineMutex] (by simp)
          (by
            intro f hf
            simp only [teardownCalls, List.mem_cons, List.mem_singleton, List.not_mem_nil,
              or_false] at hf
            rcases hf with rfl | rfl | rfl | rfl | rfl <;> simp)
        exact ⟨f1, f2, fun _ => f3, f4, f5⟩

/-- C16 (as stated, refuted): in the initialized state `stInitialized`, with a
subsystem whose `lineMakeCall` fails, `connectToNumber` opens the line, emits
`errorOccurred(CallMakeError)` and returns: the subsystem stays `Initialized`,
the line stays open, and the trace holds no `disconnected` and no call of
`lineClose` or `lineShutdown` (no teardown, no shutdown). -/
theorem connectToNumber_failure_without_teardown :
    envMakeCallFails.lineMakeCall.1 < 0 ∧
    connectToNumber envMakeCallFails stInitialized
      = (stLineOpen,
          [.call .lineNegotiateAPIVersion, .lock .lineMutex, .call .lineOpen,
           .lineStateChanged .LineOpened, .call .lineSetStatusMessages, .unlock .lineMutex,
           .lock .callMutex, .call .lineMakeCall, .unlock .callMutex,
           .errorOccurred CallMakeError]) ∧
    stLineOpen.tapiStateFlag = .Initialized ∧ stLineOpen.hlDevice = 2 ∧
    stLineOpen.lineStateFlag = .LineOpened ∧
    Event.disconnected ∉ (connectToNumber envMakeCallFails stInitialized).2 ∧
    Event.call .lineClose ∉ (connectToNumber envMakeCallFails stInitialized).2 ∧
    Event.call .lineShutdown ∉ (connectToNumber envMakeCallFails stInitialized).2 :=
  ⟨by decide, rfl, rfl, rfl, rfl, by decide, by decide, by decide⟩

/-- C16 (amended): in an initialized subsystem, a failure of a call inside
`connectToNumber` is surfaced by exactly one `errorOccurred` with the error
flag set to the same kind, and `connectToNumber` returns without a teardown
and without a shutdown.  (1) No run of `connectToNumber` changes the subsystem
state or the session handle, closes an open line, emits `disconnected` or
calls a teardown or shutdown function.  (2) A failed version negotiation
leaves the rest of the state as it is.  (3) So does a failed `lineOpen`.
(4) A failed `lineSetStatusMessages` leaves the line just opened open.  (5), (6)
So does a failed `lineMakeCall`, on a line just opened and on a line that was
open.  In each case the signals of the run hold one `errorOccurred`. -/
theorem connectToNumber_failures (env : Env) (s : TAPIModem)
    (hinit : s.tapiStateFlag = .Initialized) :
    ((connectToNumber env s).1.tapiStateFlag = .Initialized ∧
      (connectToNumber env s).1.hLineApp = s.hLineApp ∧
      (s.hlDevice ≠ 0 → (connectToNumber env s).1.hlDevice = s.hlDevice) ∧
      Event.disconnected ∉ (connectToNumber env s).2 ∧
      ∀ f ∈ teardownCalls, Event.call f ∉ (connectToNumber env s).2) ∧
    (env.lineNegotiateAPIVersion < 0 →
      (connectToNumber env s).1
        = { s with errFlag := deviceErrorOr env.lineNegotiateAPIVersion NegotiationError } ∧
      signals (connectToNumber env s).2
        = [.errorOccurred (deviceErrorOr env.lineNegotiateAPIVersion NegotiationError)]) ∧
    (0 ≤ env.lineNegotiateAPIVersion → s.hlDevice = 0 → env.lineOpen.1 < 0 →
      (connectToNumber env s).1 = { s with errFlag := deviceErrorOr env.lineOpen.1 LineOpenError } ∧
      signals (connectToNumber env s).2
        = [.errorOccurred (deviceErrorOr env.lineOpen.1 LineOpenError)]) ∧
    (0 ≤ env.lineNegotiateAPIVersion → s.hlDevice = 0 → 0 ≤ env.lineOpen.1 →
      env.lineSetStatusMessages < 0 →
      (connectToNumber env s).1
        = { s with hlDevice := env.lineOpen.2, lineStateFlag := .LineOpened,
                   errFlag := deviceErrorOr env.lineSetStatusMessages OperationError } ∧
      signals (connectToNumber env s).2
        = [.lineStateChanged .LineOpened,
           .errorOccurred (deviceErrorOr env.lineSetStatusMessages OperationError)]) ∧
    (0 ≤ env.lineNegotiateAPIVersion → s.hlDevice = 0 → 0 ≤ env.lineOpen.1 →
      0 ≤ env.lineSetStatusMessages → s.hcCurrentCall = 0 → env.lineMakeCall.1 < 0 →
      (connectToNumber env s).1
        = { s with hlDevice := env.lineOpen.2, lineStateFlag := .LineOpened,
                   errFlag := CallMakeError } ∧
      signals (connectToNumber env s).2
        = [.lineStateChanged .LineOpened, .errorOccurred CallMakeError]) ∧
    (0 ≤ env.lineNegotiateAPIVersion → s.hlDevice ≠ 0 → s.hcCurrentCall = 0 →
      env.lineMakeCall.1 < 0 →
      (connectToNumber env s).1 = { s with errFlag := CallMakeError } ∧
      signals (connectToNumber env s).2 = [.errorOccurred CallMakeError]) := by
  have hni : ¬ s.tapiStateFlag = .Uninitialized := by rw [hinit]; simp
  refine ⟨?_, ?_, ?_, ?_, ?_, ?_⟩
  · obtain ⟨h1, h2, h3, h4, h5⟩ := connectToNumber_no_teardown env s
    exact ⟨by rw [h1, hinit], h2, h3, h4, h5⟩
  · intro hn
    unfold connectToNumber
    simp only
    rw [if_neg hni, if_pos hn]
    exact ⟨rfl, by simp [deviceErrorOr, signals_cons_signal, Event.isSignal]⟩
  · intro hn hl ho
    unfold connectToNumber
    simp only
    rw [if_neg hni, if_neg (not_lt.mpr hn), if_pos hl, if_pos ho]
    exact ⟨rfl, by simp [deviceErrorOr, signals_cons_signal, Event.isSignal]⟩
  · intro hn hl ho hm
    unfold connectToNumber
    simp only
    rw [if_neg hni, if_neg (not_lt.mpr hn), if_pos hl, if_neg (not_lt.mpr ho), if_pos hm]
    exact ⟨rfl, by simp [deviceErrorOr, signals_cons_signal, Event.isSignal]⟩
  · intro hn hl ho hm hc hmk
    unfold connectToNumber
    simp only
    rw [if_neg hni, if_neg (not_lt.mpr hn), if_pos hl, if_neg (not_lt.mpr ho),
      if_neg (not_lt.mpr hm)]
    unfold makeCallSection
    rw [if_pos (by simpa using hc), if_pos hmk]
    exact ⟨rfl, by simp [signals_cons_signal, Event.isSignal]⟩
  · intro hn hl hc hmk
    unfold connectToNumber
    simp only
    rw [if_neg hni, if_neg (not_lt.mpr hn), if_neg hl]
    unfold makeCallSection
    rw [if_pos hc, if_pos hmk]
    exact ⟨rfl, by simp [signals_cons_signal, Event.isSignal]⟩

/-- C16 (amended), at the initialized state `stInitialized` with a subsystem
whose `lineMakeCall` fails. -/
theorem connectToNumber_failures_witness :
    stInitialized.tapiStateFlag = .Initialized ∧
    (connectToNumber envMakeCallFails stInitialized).1
        = { stInitialized with hlDevice := envMakeCallFails.lineOpen.2,
                               lineStateFlag := .LineOpened, errFlag := CallMakeError } ∧
    signals (connectToNumber envMakeCallFails stInitialized).2
        = [.lineStateChanged .LineOpened, .errorOccurred CallMakeError] :=
  ⟨rfl, (connectToNumber_failures envMakeCallFails stInitialized rfl).2.2.2.2.1
    (by decide) rfl (by decide) (by decide) rfl (by decide)⟩

/-! ## Mutexes: one at a time -/

theorem lockRun_append (held : List Mutex) (a b : List Event) :
    lockRun held (a ++ b) = (lockRun held a).bind (fun h => lockRun h b) := by
  induction a generalizing held with
  | nil => rfl
  | cons e t ih =>
    simp only [List.cons_append, lockRun]
    cases lockStep held e with
    | none => rfl
    | some h => exact ih h

theorem lockRun_of_free (held : List Mutex) {t : List Event}
    (h : ∀ e ∈ t, e.isLockOp = false) : lockRun held t = some held := by
  induction t with
  | nil => rfl
  | cons e t ih =>
    have he := h e (List.mem_cons_self _ _)
    have hstep : lockStep held e = some held := by
      cases e <;> first | rfl | exact absurd he (by simp [Event.isLockOp])
    simp only [lockRun, hstep, Option.bind_some]
    exact ih (fun x hx => h x (List.mem_cons_of_mem _ hx))

/-- Balanced traces (no mutex held before and after, never two at once) can be
put one after the other. -/
theorem balanced_append {a b : List Event} (ha : lockRun [] a = some [])
    (hb : lockRun [] b = some []) : lockRun [] (a ++ b) = some [] := by
  rw [lockRun_append, ha]; exact hb

theorem balanced_of_free {t : List Event} (h : ∀ e ∈ t, e.isLockOp = false) :
    lockRun [] t = some [] :=
  lockRun_of_free [] h

/-- A section under one mutex without a mutex operation inside is balanced. -/
theorem balanced_section (m : Mutex) {mid : List Event}
    (h : ∀ e ∈ mid, e.isLockOp = false) :
    lockRun [] ([Event.lock m] ++ mid ++ [Event.unlock m]) = some [] := by
  rw [List.append_assoc, lockRun_append]
  show lockRun [m] (mid ++ [Event.unlock m]) = some []
  rw [lockRun_append, lockRun_of_free [m] h]
  simp [lockRun, lockStep]

theorem balanced_repeat {t : List Event} (h : lockRun [] t = some []) (n : Nat) :
    lockRun [] (repeatTrace t n) = some [] := by
  induction n with
  | zero => rfl
  | succ n ih => exact balanced_append h ih

theorem free_repeat_call (f : TapiCall) (n : Nat) :
    ∀ e ∈ repeatTrace [Event.call f] n, e.isLockOp = false := by
  intro e he
  have := mem_repeatTrace he
  simp only [List.mem_singleton] at this
  subst this; rfl

theorem free_dropTrace (cs : Nat) : ∀ e ∈ dropTrace cs, e.isLockOp = false := by
  intro e he
  unfold dropTrace at he
  split at he
  · simp only [List.mem_singleton] at he; subst he; rfl
  · simp at he

theorem balanced_deinitializeTAPI (s : TAPIModem) :
    lockRun [] (deinitializeTAPI s).2 = some [] := rfl

theorem balanced_initializeCommPort (env : Env) (s : TAPIModem) :
    lockRun [] (initializeCommPort env s).2 = some [] := by
  unfold initializeCommPort
  split
  · rfl
  · split <;> rfl

theorem callStatusLoop_never_fails {env : Env} (h : ∀ a t, 0 ≤ (env.lineGetCallStatus a t).ret)
    (total fuel attempt size n : Nat) :
    callStatusLoop env total fuel attempt size ≠ some (.failed, n) := by
  induction fuel generalizing attempt size with
  | zero => simp [callStatusLoop]
  | succ k ih =>
    simp only [callStatusLoop]
    rw [if_neg (not_lt.mpr (h attempt total))]
    split
    · exact ih _ _
    · simp

theorem deallocateLoop_never_fails {env : Env}
    (h : ∀ a, env.lineDeallocateCall a < 0 →
      env.lineDeallocateCall a = toLONG LINEERR_INVALCALLSTATE)
    (fuel attempt n : Nat) :
    deallocateLoop env fuel attempt ≠ some (false, n) := by
  induction fuel generalizing attempt with
  | zero => simp [deallocateLoop]
  | succ k ih =>
    simp only [deallocateLoop]
    split
    · rename_i hc
      exact absurd (h attempt hc.1) hc.2
    · split
      · exact ih _
      · simp

theorem dropAndDeallocate_balanced {fuel : Nat} {env : Env} {s s1 : TAPIModem}
    {tr1 : List Event} {cs : Nat} {b : Bool} {mid : List Event}
    (hnf : TeardownNeverFails env) (hmid : ∀ e ∈ mid, e.isLockOp = false)
    (h : dropAndDeallocate fuel env s ([Event.lock .callMutex] ++ mid) cs = some (s1, tr1, b)) :
    b = true ∧ lockRun [] tr1 = some [] := by
  unfold dropAndDeallocate at h
  split at h
  · exact absurd h (by simp)
  · rename_i calls hd
    simp only [Option.some.injEq, Prod.mk.injEq] at h
    obtain ⟨-, rfl, rfl⟩ := h
    refine ⟨rfl, ?_⟩
    have hform : [Event.lock .callMutex] ++ mid ++ dropTrace cs
        ++ repeatTrace [Event.call .lineDeallocateCall] calls ++ [Event.unlock .callMutex]
        = [Event.lock .callMutex]
          ++ (mid ++ dropTrace cs ++ repeatTrace [Event.call .lineDeallocateCall] calls)
          ++ [Event.unlock .callMutex] := by
      simp only [List.append_assoc]
    rw [hform]
    apply balanced_section
    intro e he
    simp only [List.mem_append] at he
    rcases he with (he | he) | he
    · exact hmid e he
    · exact free_dropTrace _ e he
    · exact free_repeat_call _ _ e he
  · rename_i calls hd
    exact absurd hd (deallocateLoop_never_fails hnf.2.1 _ _ _)

theorem hangupCallSection_balanced {fuel : Nat} {env : Env} {s s1 : TAPIModem}
    {tr1 : List Event} {b : Bool} (hnf : TeardownNeverFails env)
    (h : hangupCallSection fuel env s = some (s1, tr1, b)) :
    b = true ∧ lockRun [] tr1 = some [] := by
  unfold hangupCallSection at h
  split at h
  · simp only [Option.some.injEq, Prod.mk.injEq] at h
    obtain ⟨-, rfl, rfl⟩ := h
    exact ⟨rfl, rfl⟩
  · split at h
    · exact absurd h (by simp)
    · rename_i calls hs
      exact absurd hs (callStatusLoop_never_fails hnf.1 _ _ _ _ _)
    · exact dropAndDeallocate_balanced hnf (free_repeat_call _ _) h

theorem closeLineSection_balanced (env : Env) (s : TAPIModem) {tr : List Event}
    (hc : 0 ≤ env.lineClose) (ht : lockRun [] tr = some []) :
    lockRun [] (closeLineSection env s tr).2 = some [] := by
  unfold closeLineSection
  split
  · rw [if_neg (not_lt.mpr hc)]
    exact balanced_append ht rfl
  · exact balanced_append ht rfl

/-- A teardown none of whose calls fails holds one mutex at a time and none at
its end. -/
theorem hangupCall_balanced {fuel : Nat} {env : Env} {s s1 : TAPIModem} {tr : List Event}
    (hnf : TeardownNeverFails env) (h : hangupCall fuel env s = some (s1, tr)) :
    lockRun [] tr = some [] := by
  unfold hangupCall at h
  split at h
  · simp only [Option.some.injEq, Prod.mk.injEq] at h
    obtain ⟨-, rfl⟩ := h
    rfl
  · split at h
    · exact absurd h (by simp)
    · rename_i s2 tr2 hsec
      exact absurd (hangupCallSection_balanced hnf hsec).1 (by simp)
    · rename_i s2 tr2 hsec
      simp only [Option.some.injEq] at h
      have := closeLineSection_balanced env s2 hnf.2.2 (hangupCallSection_balanced hnf hsec).2
      rw [h] at this
      exact this

theorem shutdownTAPI_balanced {fuel : Nat} {env : Env} {s s1 : TAPIModem} {tr : List Event}
    (hnf : TeardownNeverFails env) (h : shutdownTAPI fuel env s = some (s1, tr)) :
    lockRun [] tr = some [] := by
  unfold shutdownTAPI at h
  split at h
  · simp only [Option.some.injEq, Prod.mk.injEq] at h
    obtain ⟨-, rfl⟩ := h
    rfl
  · split at h
    · exact absurd h (by simp)
    · rename_i s2 tr2 hh
      simp only [Option.some.injEq, Prod.mk.injEq] at h
      obtain ⟨-, rfl⟩ := h
      exact balanced_append (hangupCall_balanced hnf hh) rfl

theorem thenHangup_balanced {fuel : Nat} {env : Env} {s s1 : TAPIModem} {tr0 tr : List Event}
    (hnf : TeardownNeverFails env) (h0 : lockRun [] tr0 = some [])
    (h : thenHangup fuel env s tr0 = some (s1, tr)) : lockRun [] tr = some [] := by
  unfold thenHangup at h
  split at h
  · exact absurd h (by simp)
  · rename_i s2 tr2 hh
    simp only [Option.some.injEq, Prod.mk.injEq] at h
    obtain ⟨-, rfl⟩ := h
    exact balanced_append h0 (hangupCall_balanced hnf hh)

theorem endConnection_balanced {fuel : Nat} {env : Env} {s s1 : TAPIModem} {tr : List Event}
    (hnf : TeardownNeverFails env) (h : endConnection fuel env s = some (s1, tr)) :
    lockRun [] tr = some [] := by
  unfold endConnection at h
  split at h
  · exact absurd h (by simp)
  · rename_i s2 tr2 hh
    simp only [Option.some.injEq, Prod.mk.injEq] at h
    obtain ⟨-, rfl⟩ := h
    exact balanced_append (hangupCall_balanced hnf hh) rfl

theorem close_balanced {fuel : Nat} {env : Env} {s s1 : TAPIModem} {tr : List Event}
    (hnf : TeardownNeverFails env) (h : close fuel env s = some (s1, tr)) :
    lockRun [] tr = some [] := by
  unfold close at h
  split at h
  · exact absurd h (by simp)
  · rename_i s2 tr2 hh
    simp only [Option.some.injEq, Prod.mk.injEq] at h
    obtain ⟨-, rfl⟩ := h
    exact endConnection_balanced hnf hh

theorem initializeTAPI_balanced {fuel : Nat} {env : Env} {s s1 : TAPIModem} {tr : List Event}
    {b : Bool} (h : initializeTAPI fuel env s = some (s1, tr, b)) :
    lockRun [] tr = some [] := by
  unfold initializeTAPI at h
  split at h
  · simp only [Option.some.injEq, Prod.mk.injEq] at h
    obtain ⟨-, rfl, -⟩ := h
    rfl
  · split at h
    · exact absurd h (by simp)
    · simp only [Option.some.injEq, Prod.mk.injEq] at h
      obtain ⟨-, rfl, -⟩ := h
      exact balanced_append (balanced_of_free (free_repeat_call _ _)) rfl
    · simp only [Option.some.injEq, Prod.mk.injEq] at h
      obtain ⟨-, rfl, -⟩ := h
      exact balanced_append (balanced_of_free (free_repeat_call _ _)) rfl

theorem makeCallSection_balanced (env : Env) (s : TAPIModem) {tr : List Event}
    (ht : lockRun [] tr = some []) : lockRun [] (makeCallSection env s tr).2 = some [] := by
  unfold makeCallSection
  split
  · split <;> exact balanced_append ht rfl
  · exact balanced_append ht rfl

/-- On a line that is not open yet, `connectToNumber` holds one mutex at a time
and none at its end. -/
theorem connectToNumber_balanced (env : Env) (s : TAPIModem) (hl : s.hlDevice = 0) :
    lockRun [] (connectToNumber env s).2 = some [] := by
  unfold connectToNumber
  simp only [hl, if_true]
  split
  · rfl
  · split
    · rfl
    · split
      · rfl
      · split
        · rfl
        · exact makeCallSection_balanced _ _ rfl

theorem writeData_balanced {fuel : Nat} {env : Env} {s s1 : TAPIModem} {tr : List Event}
    {len : Nat} {n : Int} (hnf : TeardownNeverFails env)
    (h : writeData fuel env s len = some (s1, tr, n)) : lockRun [] tr = some [] := by
  unfold writeData at h
  split at h
  · simp only [Option.some.injEq, Prod.mk.injEq] at h
    obtain ⟨-, rfl, -⟩ := h
    rfl
  · simp only [Option.some.injEq, Prod.mk.injEq] at h
    obtain ⟨-, rfl, -⟩ := h
    rfl
  · split at h
    · exact absurd h (by simp)
    · rename_i s2 tr2 hh
      simp only [Option.some.injEq, Prod.mk.injEq] at h
      obtain ⟨-, rfl, -⟩ := h
      exact balanced_append (a := [Event.lock .commMutex, .unlock .commMutex,
        .errorOccurred CommWriteError]) rfl (hangupCall_balanced hnf hh)

theorem onConnected_balanced {fuel : Nat} {env : Env} {s s1 : TAPIModem} {tr0 tr : List Event}
    (hnf : TeardownNeverFails env) (h0 : lockRun [] tr0 = some [])
    (h : onConnected fuel env s tr0 = some (s1, tr)) : lockRun [] tr = some [] := by
  unfold onConnected at h
  split at h
  · simp only [Option.some.injEq, Prod.mk.injEq] at h
    obtain ⟨-, rfl⟩ := h
    exact h0
  · split at h
    · exact absurd h (by simp)
    · exact thenHangup_balanced hnf
        (balanced_append (balanced_append h0 (balanced_repeat (by rfl) _)) (by rfl)) h
    · simp only [Option.some.injEq, Prod.mk.injEq] at h
      obtain ⟨-, rfl⟩ := h
      exact balanced_append (balanced_append (balanced_append
        (balanced_append h0 (balanced_repeat (by rfl) _)) (by rfl))
        (balanced_initializeCommPort _ _)) rfl

theorem onCallState_balanced {fuel : Nat} {env : Env} {s s1 : TAPIModem} {msg : LINEMESSAGE}
    {tr0 tr : List Event} (hnf : TeardownNeverFails env) (h0 : lockRun [] tr0 = some [])
    (h : onCallState fuel env s msg tr0 = some (s1, tr)) : lockRun [] tr = some [] := by
  unfold onCallState at h
  split at h
  · simp only [Option.some.injEq, Prod.mk.injEq] at h
    obtain ⟨-, rfl⟩ := h
    exact balanced_append h0 (by rfl)
  · split at h
    · exact thenHangup_balanced hnf (balanced_append h0 (by rfl)) h
    · split at h
      · exact thenHangup_balanced hnf (balanced_append h0 (by rfl)) h
      · split at h
        · exact thenHangup_balanced hnf (balanced_append h0 (by rfl)) h
        · split at h
          · exact thenHangup_balanced hnf (balanced_append h0 (by rfl)) h
          · split at h
            · exact onConnected_balanced hnf h0 h
            · simp only [Option.some.injEq, Prod.mk.injEq] at h
              obtain ⟨-, rfl⟩ := h
              exact h0

theorem onLineDevState_balanced {fuel : Nat} {env : Env} {s s1 : TAPIModem}
    {msg : LINEMESSAGE} {tr0 tr : List Event} (hnf : TeardownNeverFails env)
    (h0 : lockRun [] tr0 = some [])
    (h : onLineDevState fuel env s msg tr0 = some (s1, tr)) : lockRun [] tr = some [] := by
  unfold onLineDevState at h
  split at h
  · split at h
    · split at h
      · exact absurd h (by simp)
      · rename_i s2 tr2 hh
        simp only [Option.some.injEq, Prod.mk.injEq] at h
        obtain ⟨-, rfl⟩ := h
        exact balanced_append (balanced_append h0 (by rfl)) (shutdownTAPI_balanced hnf hh)
    · simp only [Option.some.injEq, Prod.mk.injEq] at h
      obtain ⟨-, rfl⟩ := h
      exact h0
  · split at h
    · exact thenHangup_balanced hnf (balanced_append h0 (by rfl)) h
    · split at h
      · exact thenHangup_balanced hnf (balanced_append h0 (by rfl)) h
      · split at h
        · exact thenHangup_balanced hnf (balanced_append h0 (by rfl)) h
        · split at h
          · exact thenHangup_balanced hnf (balanced_append h0 (by rfl)) h
          · simp only [Option.some.injEq, Prod.mk.injEq] at h
            obtain ⟨-, rfl⟩ := h
            exact h0

theorem onMessage_balanced {fuel : Nat} {env : Env} {s s1 : TAPIModem} {msg : LINEMESSAGE}
    {tr0 tr : List Event} (hnf : TeardownNeverFails env) (h0 : lockRun [] tr0 = some [])
    (h : onMessage fuel env s msg tr0 = some (s1, tr)) : lockRun [] tr = some [] := by
  unfold onMessage at h
  split at h
  · exact onCallState_balanced hnf h0 h
  · split at h
    · exact thenHangup_balanced hnf (balanced_append h0 (by rfl)) h
    · split at h
      · exact onLineDevState_balanced hnf h0 h
      · split at h
        · split at h
          · exact thenHangup_balanced hnf (balanced_append h0 (by rfl)) h
          · simp only [Option.some.injEq, Prod.mk.injEq] at h
            obtain ⟨-, rfl⟩ := h
            exact balanced_append h0 (by rfl)
        · simp only [Option.some.injEq, Prod.mk.injEq] at h
          obtain ⟨-, rfl⟩ := h
          exact h0

theorem on_TAPIevent_balanced {fuel : Nat} {env : Env} {s s1 : TAPIModem} {tr : List Event}
    (hnf : TeardownNeverFails env) (h : on_TAPIevent fuel env s = some (s1, tr)) :
    lockRun [] tr = some [] := by
  unfold on_TAPIevent at h
  simp only at h
  split at h
  · split at h
    · exact absurd h (by simp)
    · rename_i s2 tr2 hh
      simp only [Option.some.injEq, Prod.mk.injEq] at h
      obtain ⟨-, rfl⟩ := h
      exact balanced_append (balanced_append (a := [Event.lock .lineAppMutex,
        .call .lineGetMessage, .unlock .lineAppMutex]) rfl (shutdownTAPI_balanced hnf hh)) rfl
  · split at h
    · simp only [Option.some.injEq, Prod.mk.injEq] at h
      obtain ⟨-, rfl⟩ := h
      rfl
    · split at h
      · simp only [Option.some.injEq, Prod.mk.injEq] at h
        obtain ⟨-, rfl⟩ := h
        rfl
      · exact onMessage_balanced hnf (by rfl) h

theorem com_readReady_balanced {fuel : Nat} {env : Env} {s s1 : TAPIModem} {tr : List Event}
    (hnf : TeardownNeverFails env) (h : com_readReady fuel env s = some (s1, tr)) :
    lockRun [] tr = some [] := by
  unfold com_readReady at h
  simp only at h
  split at h
  · simp only [Option.some.injEq, Prod.mk.injEq] at h
    obtain ⟨-, rfl⟩ := h
    rfl
  · split at h
    · split at h
      · simp only [Option.some.injEq, Prod.mk.injEq] at h
        obtain ⟨-, rfl⟩ := h
        rfl
      · simp only [Option.some.injEq, Prod.mk.injEq] at h
        obtain ⟨-, rfl⟩ := h
        rfl
      · split at h
        · exact absurd h (by simp)
        · rename_i s2 tr2 hh
          simp only [Option.some.injEq, Prod.mk.injEq] at h
          obtain ⟨-, rfl⟩ := h
          exact balanced_append (balanced_append (a := [Event.lock .commMutex,
            .unlock .commMutex]) rfl (hangupCall_balanced hnf hh)) rfl
    · simp only [Option.some.injEq, Prod.mk.injEq] at h
      obtain ⟨-, rfl⟩ := h
      rfl

theorem on_COMevent_balanced {fuel : Nat} {env : Env} {s s1 : TAPIModem} {tr : List Event}
    (hnf : TeardownNeverFails env) (h : on_COMevent fuel env s = some (s1, tr)) :
    lockRun [] tr = some [] := by
  unfold on_COMevent at h
  simp only at h
  split at h
  · exact absurd h (by simp)
  · rename_i s2 tr2 hr
    have h2 : lockRun [] tr2 = some [] := by
      split at hr
      · exact com_readReady_balanced hnf hr
      · simp only [Option.some.injEq, Prod.mk.injEq] at hr
        obtain ⟨-, rfl⟩ := hr
        rfl
    split at h
    · split at h
      · exact thenHangup_balanced hnf (balanced_append h2 (by rfl)) h
      · simp only [Option.some.injEq, Prod.mk.injEq] at h
        obtain ⟨-, rfl⟩ := h
        exact balanced_append h2 rfl
    · simp only [Option.some.injEq, Prod.mk.injEq] at h
      obtain ⟨-, rfl⟩ := h
      exact h2

/-- When no call of a teardown fails, every entry point holds one mutex at a time
and none when it returns; `connectToNumber` is taken on a line that is not open. -/
theorem runOp_balanced {fuel : Nat} {env : Env} {s s1 : TAPIModem} {tr : List Event} {op : Op}
    (hnf : TeardownNeverFails env)
    (hline : op = .connectToNumber ∨ (∃ m d, op = .connectToNumberTo m d) → s.hlDevice = 0)
    (h : runOp fuel env s op = some (s1, tr)) : lockRun [] tr = some [] := by
  cases op with
  | initializeTAPI =>
    simp only [runOp, Option.map_eq_some', Prod.mk.injEq] at h
    obtain ⟨⟨a, t, b⟩, hr, -, rfl⟩ := h
    exact initializeTAPI_balanced hr
  | connectToNumber =>
    simp only [runOp, Option.some.injEq] at h
    have := connectToNumber_balanced env s (hline (Or.inl rfl))
    rw [h] at this
    exact this
  | connectToNumberTo m d =>
    simp only [runOp, Option.some.injEq] at h
    have := connectToNumber_balanced env { s with dwDeviceId := m, destinationNumber := d }
      (hline (Or.inr ⟨m, d, rfl⟩))
    unfold connectToNumberTo at h
    rw [h] at this
    exact this
  | endConnection => exact endConnection_balanced hnf h
  | close => exact close_balanced hnf h
  | hangupCall => exact hangupCall_balanced hnf h
  | readData maxlen =>
    simp only [runOp, Option.some.injEq, Prod.mk.injEq] at h
    obtain ⟨-, rfl⟩ := h
    rfl
  | writeData len =>
    simp only [runOp, Option.map_eq_some', Prod.mk.injEq] at h
    obtain ⟨⟨a, t, b⟩, hr, -, rfl⟩ := h
    exact writeData_balanced hnf hr
  | on_TAPIevent => exact on_TAPIevent_balanced hnf h
  | on_COMevent => exact on_COMevent_balanced hnf h
  | com_readReady => exact com_readReady_balanced hnf h

theorem lockRun_append_none {held : List Mutex} {a : List Event} (b : List Event)
    (h : lockRun held a = none) : lockRun held (a ++ b) = none := by
  rw [lockRun_append, h]; rfl

/-- A mutex locked inside a section under another mutex: two are held. -/
theorem lockRun_nested (m m2 : Mutex) {mid : List Event}
    (h : ∀ e ∈ mid, e.isLockOp = false) (rest : List Event) :
    lockRun [] ([Event.lock m] ++ mid ++ (Event.lock m2 :: rest)) = none := by
  rw [List.append_assoc, lockRun_append]
  show lockRun [m] (mid ++ (Event.lock m2 :: rest)) = none
  rw [lockRun_append, lockRun_of_free [m] h]
  simp [lockRun, lockStep]

theorem dropAndDeallocate_locks {fuel : Nat} {env : Env} {s s1 : TAPIModem}
    {tr1 : List Event} {cs : Nat} {b : Bool} {mid : List Event}
    (hmid : ∀ e ∈ mid, e.isLockOp = false)
    (h : dropAndDeallocate fuel env s ([Event.lock .callMutex] ++ mid) cs = some (s1, tr1, b)) :
    (b = true ∧ s1 = s ∧ lockRun [] tr1 = some []) ∨
    (s1.tapiStateFlag = .Uninitialized ∧ lockRun [] tr1 = none) := by
  unfold dropAndDeallocate at h
  split at h
  · exact absurd h (by simp)
  · rename_i calls hd
    simp only [Option.some.injEq, Prod.mk.injEq] at h
    obtain ⟨rfl, rfl, rfl⟩ := h
    refine Or.inl ⟨rfl, rfl, ?_⟩
    have hform : [Event.lock .callMutex] ++ mid ++ dropTrace cs
        ++ repeatTrace [Event.call .lineDeallocateCall] calls ++ [Event.unlock .callMutex]
        = [Event.lock .callMutex]
          ++ (mid ++ dropTrace cs ++ repeatTrace [Event.call .lineDeallocateCall] calls)
          ++ [Event.unlock .callMutex] := by
      simp only [List.append_assoc]
    rw [hform]
    apply balanced_section
    intro e he
    simp only [List.mem_append] at he
    rcases he with (he | he) | he
    · exact hmid e he
    · exact free_dropTrace _ e he
    · exact free_repeat_call _ _ e he
  · rename_i calls hd
    simp only [Option.some.injEq, Prod.mk.injEq] at h
    obtain ⟨rfl, rfl, rfl⟩ := h
    refine Or.inr ⟨rfl, ?_⟩
    have hform : [Event.lock .callMutex] ++ mid ++ dropTrace cs
        ++ repeatTrace [Event.call .lineDeallocateCall] calls
        ++ [Event.errorOccurred CallDeallocationError]
        ++ (deinitializeTAPI { s with errFlag := CallDeallocationError }).2
        = [Event.lock .callMutex]
          ++ (mid ++ dropTrace cs ++ repeatTrace [Event.call .lineDeallocateCall] calls
              ++ [Event.errorOccurred CallDeallocationError])
          ++ (Event.lock .lineAppMutex :: [Event.call .lineShutdown, .unlock .lineAppMutex,
                .tapiStateChanged .Uninitialized]) := by
      simp only [deinitializeTAPI, List.append_assoc]
    rw [hform]
    apply lockRun_nested
    intro e he
    simp only [List.mem_append, List.mem_singleton] at he
    rcases he with ((he | he) | he) | he
    · exact hmid e he
    · exact free_dropTrace _ e he
    · exact free_repeat_call _ _ e he
    · subst he; rfl

theorem dropAndDeallocate_keeps_uninitialized {fuel : Nat} {env : Env} {s s1 : TAPIModem}
    {tr tr1 : List Event} {cs : Nat} {b : Bool}
    (hs : s.tapiStateFlag = .Uninitialized)
    (h : dropAndDeallocate fuel env s tr cs = some (s1, tr1, b)) :
    s1.tapiStateFlag = .Uninitialized := by
  rcases dropAndDeallocate_spec h with ⟨-, rfl, -⟩ | ⟨-, rfl, -⟩
  · exact hs
  · rfl

theorem hangupCallSection_locks {fuel : Nat} {env : Env} {s s1 : TAPIModem}
    {tr1 : List Event} {b : Bool}
    (h : hangupCallSection fuel env s = some (s1, tr1, b)) :
    (b = true ∧ s1 = s ∧ lockRun [] tr1 = some []) ∨
    (s1.tapiStateFlag = .Uninitialized ∧ lockRun [] tr1 = none) := by
  unfold hangupCallSection at h
  split at h
  · simp only [Option.some.injEq, Prod.mk.injEq] at h
    obtain ⟨rfl, rfl, rfl⟩ := h
    exact Or.inl ⟨rfl, rfl, rfl⟩
  · split at h
    · exact absurd h (by simp)
    · rename_i calls hs
      refine Or.inr ⟨dropAndDeallocate_keeps_uninitialized rfl h, ?_⟩
      obtain ⟨t, rfl⟩ := dropAndDeallocate_extends h
      apply lockRun_append_none
      have hform : [Event.lock .callMutex] ++ repeatTrace [Event.call .lineGetCallStatus] calls
          ++ [Event.errorOccurred CallStatusAquireError]
          ++ (deinitializeTAPI { s with errFlag := CallStatusAquireError }).2
          = [Event.lock .callMutex]
            ++ (repeatTrace [Event.call .lineGetCallStatus] calls
                ++ [Event.errorOccurred CallStatusAquireError])
            ++ (Event.lock .lineAppMutex :: [Event.call .lineShutdown, .unlock .lineAppMutex,
                  .tapiStateChanged .Uninitialized]) := by
        simp only [deinitializeTAPI, List.append_assoc]
      rw [hform]
      apply lockRun_nested
      intro e he
      simp only [List.mem_append, List.mem_singleton] at he
      rcases he with he | he
      · exact free_repeat_call _ _ e he
      · subst he; rfl
    · exact dropAndDeallocate_locks (free_repeat_call _ _) h

theorem closeLineSection_locks (env : Env) (s : TAPIModem) {tr : List Event}
    (hs : s.tapiStateFlag = .Initialized) (ht : lockRun [] tr = some []) :
    ((closeLineSection env s tr).1.tapiStateFlag = .Initialized ∧
      lockRun [] (closeLineSection env s tr).2 = some []) ∨
    ((closeLineSection env s tr).1.tapiStateFlag = .Uninitialized ∧
      lockRun [] (closeLineSection env s tr).2 = none) := by
  unfold closeLineSection
  split
  · split
    · refine Or.inr ⟨rfl, ?_⟩
      rw [List.append_assoc, lockRun_append, ht]
      rfl
    · exact Or.inl ⟨hs, balanced_append ht rfl⟩
  · exact Or.inl ⟨hs, balanced_append ht rfl⟩

/-- A teardown from an initialized subsystem either leaves it initialized, having
held one mutex at a time and none at its end, or shuts it down, and then two
mutexes were held at the same time. -/
theorem hangupCall_locks {fuel : Nat} {env : Env} {s s1 : TAPIModem} {tr : List Event}
    (hinit : s.tapiStateFlag = .Initialized) (h : hangupCall fuel env s = some (s1, tr)) :
    (s1.tapiStateFlag = .Initialized ∧ lockRun [] tr = some []) ∨
    (s1.tapiStateFlag = .Uninitialized ∧ lockRun [] tr = none) := by
  obtain ⟨s2, tr2, b, hsec, hcase⟩ := hangupCall_eq_of_section hinit h
  rcases hcase with ⟨rfl, rfl, rfl⟩ | ⟨rfl, rfl, rfl⟩
  · rcases hangupCallSection_locks hsec with ⟨hb, -, -⟩ | hr
    · exact absurd hb (by simp)
    · exact Or.inr hr
  · rcases hangupCallSection_locks hsec with ⟨-, rfl, ht⟩ | ⟨hu, hn⟩
    · exact closeLineSection_locks env _ hinit ht
    · refine Or.inr ⟨closeLineSection_keeps_uninitialized env s2 tr2 hu, ?_⟩
      obtain ⟨t, ht⟩ := closeLineSection_extends env s2 tr2
      rw [ht]
      exact lockRun_append_none t hn

/-! ## Instances of the statements above at the connected modem -/

theorem teardownNeverFails_envOk : TeardownNeverFails envOk :=
  ⟨fun _ _ => le_refl (0 : Int), fun _ h => absurd h (by simp [envOk]), le_refl (0 : Int)⟩

theorem endConnection_resets_flags_witness :
    endConnection 1 envOk stConnected
      = some (stEnded, cleanTeardownTrace
          ++ [.callStateChanged .CallDefaultState, .lineStateChanged .LineClosed]) ∧
    stEnded.callStateFlag = .CallDefaultState ∧ stEnded.lineStateFlag = .LineClosed ∧
    stEnded.disconnectFlag = .DisconnectedByFunction :=
  ⟨rfl,
   ((endConnection_resets_flags 1 envOk stConnected).1 _ _ rfl).1,
   ((endConnection_resets_flags 1 envOk stConnected).1 _ _ rfl).2.1,
   ((endConnection_resets_flags 1 envOk stConnected).1 _ _ rfl).2.2.1⟩

/-! ## The message `LINE_REPLY` -/

/-- C21: for a successfully polled `LINE_REPLY` message addressed to the current
call.  With a result other than 0, `on_TAPIevent` sets the error flag to
`LineReplyError`, emits `errorOccurred(LineReplyError)` (once) and then runs
`hangupCall` on that state; no `lineReplyOccured` is emitted; when the teardown
raises no error of its own (it leaves the subsystem state as it was) the error
flag ends as `LineReplyError` and no other `errorOccurred` was emitted; and the
handling returns whenever the loops of the teardown are left.  With the result
0, the state is unchanged and the trace is the poll followed by the one signal
`lineReplyOccured(id, 0)`. -/
theorem reply_message_outcomes (fuel : Nat) (env : Env) (s : TAPIModem)
    (hret : 0 ≤ env.lineGetMessage.1)
    (hown : env.lineGetMessage.2.hDevice = s.hcCurrentCall)
    (hid : env.lineGetMessage.2.dwMessageID = LINE_REPLY) :
    (env.lineGetMessage.2.dwParam2 ≠ 0 →
      (∀ s1 tr, on_TAPIevent fuel env s = some (s1, tr) →
        (∃ tr2, hangupCall fuel env { s with errFlag := LineReplyError } = some (s1, tr2) ∧
          tr = pollTrace ++ [.errorOccurred LineReplyError] ++ tr2) ∧
        tr.count (.errorOccurred LineReplyError) = 1 ∧
        (∀ a b, Event.lineReplyOccured a b ∉ tr) ∧
        (s1.tapiStateFlag = s.tapiStateFlag →
          s1.errFlag = LineReplyError ∧
          ∀ e, Event.errorOccurred e ∈ tr → e = LineReplyError)) ∧
      (TeardownLoopsEnd fuel env → ∃ s1 tr, on_TAPIevent fuel env s = some (s1, tr))) ∧
    (env.lineGetMessage.2.dwParam2 = 0 →
      on_TAPIevent fuel env s
        = some (s, pollTrace
            ++ [.lineReplyOccured (toLONG env.lineGetMessage.2.dwParam1) 0]) ∧
      signals (pollTrace ++ [.lineReplyOccured (toLONG env.lineGetMessage.2.dwParam1) 0])
        = [.lineReplyOccured (toLONG env.lineGetMessage.2.dwParam1) 0]) := by
  have hmsg : on_TAPIevent fuel env s
      = (if env.lineGetMessage.2.dwParam2 ≠ 0 then
          thenHangup fuel env { s with errFlag := LineReplyError }
            (pollTrace ++ [.errorOccurred LineReplyError])
        else
          some (s, pollTrace ++ [.lineReplyOccured (toLONG env.lineGetMessage.2.dwParam1)
                                  (toLONG env.lineGetMessage.2.dwParam2)])) := by
    rw [on_TAPIevent_owned fuel env s hret hown]
    unfold onMessage
    rw [if_neg (by rw [hid]; decide), if_neg (by rw [hid]; decide),
      if_neg (by rw [hid]; decide), if_pos hid]
    rfl
  constructor
  · intro hne
    rw [hmsg, if_pos hne]
    constructor
    · intro s1 tr h
      obtain ⟨tr2, hh, rfl⟩ := thenHangup_eq h
      refine ⟨⟨tr2, hh, rfl⟩, ?_, ?_, ?_⟩
      · have hnot : Event.errorOccurred LineReplyError ∉ tr2 := by
          intro hmem
          rcases hangupCall_errors hh hmem with h1 | h1 | h1 <;> exact absurd h1 (by decide)
        rw [List.count_append, List.count_eq_zero_of_not_mem hnot]
        decide
      · intro a b hmem
        rcases List.mem_append.mp hmem with hmem | hmem
        · rcases List.mem_append.mp hmem with hmem | hmem
          · simp [pollTrace] at hmem
          · simp at hmem
        · have := hangupCall_trace hh _ hmem
          simp [Event.isTeardown] at this
      · intro hsame
        obtain ⟨h1, h2⟩ := hangupCall_no_error_of_same_state hh hsame
        refine ⟨h1, ?_⟩
        intro e he
        rcases List.mem_append.mp he with he | he
        · rcases List.mem_append.mp he with he | he
          · simp [pollTrace] at he
          · simpa using he
        · exact absurd he (h2 e)
    · intro hl
      exact thenHangup_returns _ _ hl
  · intro h0
    rw [hmsg, if_neg (by simp [h0]), h0]
    exact ⟨rfl, rfl⟩

/-- C21, at the connected state `stConnected`: the reply to request 7 with result
0 is passed on and nothing else happens. -/
theorem reply_message_outcomes_witness :
    (0 ≤ (envMsg (msgReply 7 0)).lineGetMessage.1 ∧
     (envMsg (msgReply 7 0)).lineGetMessage.2.hDevice = stConnected.hcCurrentCall ∧
     (envMsg (msgReply 7 0)).lineGetMessage.2.dwMessageID = LINE_REPLY ∧
     (envMsg (msgReply 7 0)).lineGetMessage.2.dwParam2 = 0) ∧
    on_TAPIevent 1 (envMsg (msgReply 7 0)) stConnected
      = some (stConnected, pollTrace
          ++ [.lineReplyOccured (toLONG (envMsg (msgReply 7 0)).lineGetMessage.2.dwParam1) 0]) :=
  ⟨⟨by decide, rfl, rfl, rfl⟩,
   ((reply_message_outcomes 1 (envMsg (msgReply 7 0)) stConnected (by decide) rfl rfl).2 rfl).1⟩

/-! ## `readData` under the invariant of the inbound buffer -/

/-- C23: in a state whose semaphore count equals the length of the inbound
buffer, the reservation of `readData` cannot fail (the count is never below
`min maxlen size`): `readData` returns exactly `min maxlen size`, stores the
first that many bytes of the buffer, returns 0 only when `maxlen` is 0 or the
buffer is empty, and leaves the count equal to the length of the buffer. -/
theorem readData_reservation_succeeds (s : TAPIModem) (maxlen : Nat)
    (hinv : s.bufferSem = s.modemReadBuffer.length) :
    ¬ s.bufferSem < min maxlen s.modemReadBuffer.length ∧
    (readData s maxlen).2.2 = min maxlen s.modemReadBuffer.length ∧
    (readData s maxlen).2.1 = s.modemReadBuffer.take (min maxlen s.modemReadBuffer.length) ∧
    ((readData s maxlen).2.2 = 0 ↔ maxlen = 0 ∨ s.modemReadBuffer = []) ∧
    (readData s maxlen).1.bufferSem = (readData s maxlen).1.modemReadBuffer.length := by
  have hle : ¬ s.bufferSem < min maxlen s.modemReadBuffer.length := by
    rw [hinv]; exact not_lt.mpr (Nat.min_le_right _ _)
  have hret : (readData s maxlen).2.2 = min maxlen s.modemReadBuffer.length ∧
      (readData s maxlen).2.1 = s.modemReadBuffer.take (min maxlen s.modemReadBuffer.length) ∧
      (readData s maxlen).1.bufferSem = (readData s maxlen).1.modemReadBuffer.length := by
    by_cases h0 : min maxlen s.modemReadBuffer.length = 0
    · have hr : readData s maxlen = (s, [], 0) := by
        unfold readData; simp [h0]
      rw [hr, h0]
      exact ⟨rfl, by simp, hinv⟩
    · rcases readData_cases s maxlen with h | ⟨_, _, h⟩
      · exfalso
        unfold readData at h
        simp only [h0, hle, if_false] at h
        have := congrArg (fun r => r.2.2) h
        simp only at this
        exact h0 this
      · rw [h]
        refine ⟨rfl, rfl, ?_⟩
        simp only [List.length_drop, hinv]
  refine ⟨hle, hret.1, hret.2.1, ?_, hret.2.2⟩
  rw [hret.1]
  constructor
  · intro h
    rcases Nat.le_total maxlen s.modemReadBuffer.length with hm | hm
    · left; rw [Nat.min_eq_left hm] at h; exact h
    · right; rw [Nat.min_eq_right hm] at h; exact List.length_eq_zero.mp h
  · rintro (h | h)
    · rw [h]; simp
    · rw [h]; simp

/-- C23, at the connected modem with ten buffered bytes and `maxlen = 4`. -/
theorem readData_reservation_succeeds_witness :
    tenBuffered.bufferSem = tenBuffered.modemReadBuffer.length ∧
    (readData tenBuffered 4).2.2 = min 4 tenBuffered.modemReadBuffer.length ∧
    (readData tenBuffered 4).2.1 = [10, 11, 12, 13] :=
  ⟨rfl, (readData_reservation_succeeds tenBuffered 4 rfl).2.1,
   (readData_reservation_succeeds tenBuffered 4 rfl).2.2.1⟩

/-! ## The mapping of the disconnect modes -/

/-- C25 (the defect, evaluated): the case `LINEDISCONNECTMODE_NODIALTONE` assigns
`DisconnectUnavailable`, the value of the case `LINEDISCONNECTMODE_UNAVAIL`, so
two different recognised modes give the same reason and no mode at all gives
`DisconnectNoDialTone`; the connected modem receiving a disconnect with the
mode `LINEDISCONNECTMODE_NODIALTONE` ends with the reason
`DisconnectUnavailable`.  The eighteen other recognised modes give the
like-named reasons, which are pairwise different. -/
theorem nodialtone_reported_as_unavailable :
    disconnectReasonOf LINEDISCONNECTMODE_NODIALTONE = .DisconnectUnavailable ∧
    disconnectReasonOf LINEDISCONNECTMODE_UNAVAIL = .DisconnectUnavailable ∧
    LINEDISCONNECTMODE_NODIALTONE ≠ LINEDISCONNECTMODE_UNAVAIL ∧
    (∀ dwParam2, disconnectReasonOf dwParam2 ≠ .DisconnectNoDialTone) ∧
    (on_TAPIevent 1 (envMsg (msgDisconnected LINEDISCONNECTMODE_NODIALTONE)) stConnected).map
        (fun r => r.1.disconnectFlag) = some .DisconnectUnavailable ∧
    (recognisedDisconnectModes.erase LINEDISCONNECTMODE_NODIALTONE).map disconnectReasonOf
      = likeNamedReasons.erase .DisconnectNoDialTone ∧
    (likeNamedReasons.erase .DisconnectNoDialTone).Nodup ∧
    recognisedDisconnectModes.Nodup ∧ recognisedDisconnectModes.length = 19 := by
  refine ⟨by decide, by decide, by decide, ?_, rfl, by decide, by decide, by decide, rfl⟩
  intro dwParam2
  by_cases hm : dwParam2 ∈ recognisedDisconnectModes
  · simp only [recognisedDisconnectModes, List.mem_cons, List.mem_singleton, List.not_mem_nil,
      or_false] at hm
    rcases hm with h | h | h | h | h | h | h | h | h | h | h | h | h | h | h | h | h | h | h <;>
      (subst h; decide)
  · rw [disconnectReasonOf_unknown hm]; decide

/-! ## Mutexes left locked when a function returns -/

theorem heldAfter_append (held : List Mutex) (a b : List Event) :
    heldAfter held (a ++ b) = heldAfter (heldAfter held a) b := by
  unfold heldAfter
  exact List.foldl_append _ _ _ _

theorem heldAfter_of_free (held : List Mutex) {t : List Event}
    (h : ∀ e ∈ t, e.isLockOp = false) : heldAfter held t = held := by
  induction t generalizing held with
  | nil => rfl
  | cons e t ih =>
    have he := h e (List.mem_cons_self _ _)
    have hstep : heldStep held e = held := by
      cases e <;> first | rfl | exact absurd he (by simp [Event.isLockOp])
    show heldAfter (heldStep held e) t = held
    rw [hstep]
    exact ih held (fun x hx => h x (List.mem_cons_of_mem _ hx))

/-- A trace along which one mutex is held at a time leaves held what `lockRun`
computes. -/
theorem heldAfter_of_lockRun {held held1 : List Mutex} {tr : List Event}
    (h : lockRun held tr = some held1) : heldAfter held tr = held1 := by
  induction tr generalizing held with
  | nil =>
    simp only [lockRun, Option.some.injEq] at h
    exact h
  | cons e t ih =>
    simp only [lockRun] at h
    cases hs : lockStep held e with
    | none => rw [hs] at h; exact absurd h (by simp)
    | some h1 =>
      rw [hs] at h
      have hstep : heldStep held e = h1 := by
        cases e with
        | lock m =>
          simp only [lockStep] at hs
          split at hs
          · rename_i h0
            simp only [Option.some.injEq] at hs
            rw [← hs, h0]; rfl
          · exact absurd hs (by simp)
        | unlock m => simp only [lockStep, Option.some.injEq] at hs; exact hs
        | _ => simp only [lockStep, Option.some.injEq] at hs; exact hs
      show heldAfter (heldStep held e) t = held1
      rw [hstep]
      exact ih h

theorem heldAfter_deinitializeTAPI (held : List Mutex) (s : TAPIModem) :
    heldAfter held (deinitializeTAPI s).2 = held := by
  simp [heldAfter, heldStep, deinitializeTAPI]

theorem dropAndDeallocate_held {fuel : Nat} {env : Env} {s s1 : TAPIModem}
    {tr tr1 : List Event} {cs : Nat} {b : Bool}
    (ht : heldAfter [] tr = [.callMutex])
    (h : dropAndDeallocate fuel env s tr cs = some (s1, tr1, b)) :
    heldAfter [] tr1 = if b = true then [] else [.callMutex] := by
  unfold dropAndDeallocate at h
  split at h
  · exact absurd h (by simp)
  · simp only [Option.some.injEq, Prod.mk.injEq] at h
    obtain ⟨-, rfl, rfl⟩ := h
    rw [heldAfter_append, heldAfter_append, heldAfter_append, ht,
      heldAfter_of_free _ (free_dropTrace _), heldAfter_of_free _ (free_repeat_call _ _)]
    rfl
  · simp only [Option.some.injEq, Prod.mk.injEq] at h
    obtain ⟨-, rfl, rfl⟩ := h
    rw [heldAfter_append, heldAfter_append, heldAfter_append, heldAfter_append, ht,
      heldAfter_of_free _ (free_dropTrace _), heldAfter_of_free _ (free_repeat_call _ _),
      heldAfter_deinitializeTAPI]
    rfl

theorem hangupCallSection_held {fuel : Nat} {env : Env} {s s1 : TAPIModem}
    {tr1 : List Event} {b : Bool}
    (h : hangupCallSection fuel env s = some (s1, tr1, b)) :
    heldAfter [] tr1 = if b = true then [] else [.callMutex] := by
  unfold hangupCallSection at h
  split at h
  · simp only [Option.some.injEq, Prod.mk.injEq] at h
    obtain ⟨-, rfl, rfl⟩ := h
    rfl
  · split at h
    · exact absurd h (by simp)
    · refine dropAndDeallocate_held ?_ h
      rw [heldAfter_append, heldAfter_append, heldAfter_append,
        heldAfter_of_free _ (free_repeat_call _ _), heldAfter_deinitializeTAPI]
      rfl
    · refine dropAndDeallocate_held ?_ h
      rw [heldAfter_append, heldAfter_of_free _ (free_repeat_call _ _)]
      rfl

theorem closeLineSection_held (env : Env) (s : TAPIModem) {tr : List Event}
    (ht : heldAfter [] tr = []) :
    heldAfter [] (closeLineSection env s tr).2
      = if s.hlDevice ≠ 0 ∧ env.lineClose < 0 then [.lineMutex] else [] := by
  unfold closeLineSection
  by_cases hl : s.hlDevice ≠ 0
  · by_cases hc : env.lineClose < 0
    · rw [if_pos hl, if_pos hc, if_pos ⟨hl, hc⟩]
      show heldAfter [] (tr ++ _ ++ _) = _
      rw [heldAfter_append, heldAfter_append, ht, heldAfter_deinitializeTAPI]
      rfl
    · rw [if_pos hl, if_neg hc, if_neg (fun h => hc h.2)]
      show heldAfter [] (tr ++ _) = _
      rw [heldAfter_append, ht]
      rfl
  · rw [if_neg hl, if_neg (fun h => hl h.1)]
    show heldAfter [] (tr ++ _) = _
    rw [heldAfter_append, ht]
    rfl

/-- The mutexes a teardown from an initialized subsystem leaves locked: `callMutex`
when the section under `callMutex` was left by `return`, `lineMutex` when
`lineClose` failed, none otherwise. -/
theorem hangupCall_held {fuel : Nat} {env : Env} {s s1 : TAPIModem} {tr : List Event}
    (hinit : s.tapiStateFlag = .Initialized) (h : hangupCall fuel env s = some (s1, tr)) :
    ∃ s2 tr2 b, hangupCallSection fuel env (deinitializeCommPort s) = some (s2, tr2, b) ∧
      heldAfter [] tr
        = if b = true then (if s.hlDevice ≠ 0 ∧ env.lineClose < 0 then [.lineMutex] else [])
          else [.callMutex] := by
  obtain ⟨s2, tr2, b, hsec, hcase⟩ := hangupCall_eq_of_section hinit h
  refine ⟨s2, tr2, b, hsec, ?_⟩
  have hheld := hangupCallSection_held hsec
  rcases hcase with ⟨rfl, -, rfl⟩ | ⟨rfl, -, rfl⟩
  · rw [hheld]; rfl
  · rw [closeLineSection_held env s2 (by rw [hheld]; rfl), hangupCallSection_hlDevice hsec]
    rfl

/-- On a line that is already open, `connectToNumber` returns with `lineMutex`
locked. -/
theorem connectToNumber_held (env : Env) (s : TAPIModem)
    (hinit : s.tapiStateFlag = .Initialized) (hn : 0 ≤ env.lineNegotiateAPIVersion)
    (hl : s.hlDevice ≠ 0) :
    heldAfter [] (connectToNumber env s).2 = [.lineMutex] := by
  unfold connectToNumber
  simp only
  rw [if_neg (by rw [hinit]; simp), if_neg (not_lt.mpr hn), if_neg hl]
  unfold makeCallSection
  split
  · split <;> rfl
  · rfl

theorem reachable_stLineOpen : Reachable stLineOpen :=
  Reachable.step 1 envMakeCallFails .connectToNumber reachable_stInitialized rfl
    (show runOp 1 envMakeCallFails stInitialized .connectToNumber
      = some (stLineOpen,
          [.call .lineNegotiateAPIVersion, .lock .lineMutex, .call .lineOpen,
           .lineStateChanged .LineOpened, .call .lineSetStatusMessages, .unlock .lineMutex,
           .lock .callMutex, .call .lineMakeCall, .unlock .callMutex,
           .errorOccurred CallMakeError])
      from rfl)

/-- C24 (the defect, evaluated and in general).  Three runs return with a mutex
locked: `connectToNumber` on the open line of the reachable state `stLineOpen`
returns holding `lineMutex`; the teardown of the connected modem returns holding
`lineMutex` when `lineClose` fails and holding `callMutex` when the
deallocation fails.  In general, in an initialized subsystem: `connectToNumber`
on an open line, once the version is negotiated, returns holding `lineMutex`;
a `hangupCall` whose deallocation fails returns holding `callMutex`, one whose
`lineClose` is reached and fails returns holding `lineMutex`, and every other
`hangupCall` returns holding none.  While no call of a teardown fails, every
entry point (with `connectToNumber` taken on a line that is not open yet)
returns holding none. -/
theorem mutexes_left_locked (fuel : Nat) (env : Env) (s : TAPIModem) :
    (Reachable stLineOpen ∧
      connectToNumber envOk stLineOpen
        = ({ stLineOpen with hcCurrentCall := 3 },
           [.call .lineNegotiateAPIVersion, .lock .lineMutex,
            .lock .callMutex, .call .lineMakeCall, .unlock .callMutex]) ∧
      heldAfter [] [.call .lineNegotiateAPIVersion, .lock .lineMutex,
                    .lock .callMutex, .call .lineMakeCall, .unlock .callMutex]
        = [.lineMutex]) ∧
    (Reachable stConnected ∧
      (hangupCall 1 envCloseFails stConnected).map (fun r => heldAfter [] r.2)
        = some [.lineMutex] ∧
      (hangupCall 1 envDeallocateFails stConnected).map (fun r => heldAfter [] r.2)
        = some [.callMutex]) ∧
    (s.tapiStateFlag = .Initialized → 0 ≤ env.lineNegotiateAPIVersion → s.hlDevice ≠ 0 →
      heldAfter [] (connectToNumber env s).2 = [.lineMutex]) ∧
    (s.tapiStateFlag = .Initialized → ∀ s1 tr, hangupCall fuel env s = some (s1, tr) →
      (s.hcCurrentCall ≠ 0 → (∃ n, deallocateLoop env fuel 0 = some (false, n)) →
        heldAfter [] tr = [.callMutex]) ∧
      (s.hlDevice ≠ 0 →
        (s.hcCurrentCall = 0 ∨ ∃ n, deallocateLoop env fuel 0 = some (true, n)) →
        env.lineClose < 0 → heldAfter [] tr = [.lineMutex]) ∧
      ((s.hcCurrentCall = 0 ∨ ∃ n, deallocateLoop env fuel 0 = some (true, n)) →
        (s.hlDevice = 0 ∨ 0 ≤ env.lineClose) → heldAfter [] tr = [])) ∧
    (TeardownNeverFails env → ∀ op s1 tr,
      (op = .connectToNumber ∨ (∃ m d, op = .connectToNumberTo m d) → s.hlDevice = 0) →
      runOp fuel env s op = some (s1, tr) → heldAfter [] tr = []) := by
  refine ⟨⟨reachable_stLineOpen, rfl, rfl⟩, ⟨reachable_stConnected, rfl, rfl⟩,
    connectToNumber_held env s, ?_, ?_⟩
  · intro hinit s1 tr h
    obtain ⟨s2, tr2, b, hsec, hheld⟩ := hangupCall_held hinit h
    have hb : (s.hcCurrentCall = 0 ∨ ∃ n, deallocateLoop env fuel 0 = some (true, n)) →
        b = true := by
      rintro (hc | ⟨n, hd⟩)
      · rcases hangupCallSection_spec hsec with ⟨hb, -, -⟩ | ⟨e, -, -, hne⟩
        · exact hb
        · exact absurd hc hne
      · by_cases hc : s.hcCurrentCall = 0
        · rcases hangupCallSection_spec hsec with ⟨hb, -, -⟩ | ⟨e, -, -, hne⟩
          · exact hb
          · exact absurd hc hne
        · exact (hangupCallSection_deallocate (s := deinitializeCommPort s) hc hd hsec).1
    refine ⟨?_, ?_, ?_⟩
    · rintro hc ⟨n, hd⟩
      have := (hangupCallSection_deallocate (s := deinitializeCommPort s) hc hd hsec).1
      rw [hheld, this]
      rfl
    · intro hl hd hclose
      rw [hheld, hb hd, if_pos rfl, if_pos ⟨hl, hclose⟩]
    · intro hd hok
      rw [hheld, hb hd, if_pos rfl, if_neg]
      rintro ⟨hl, hclose⟩
      rcases hok with h0 | h0
      · exact hl h0
      · exact absurd hclose (not_lt.mpr h0)
  · intro hnf op s1 tr hline h
    exact heldAfter_of_lockRun (runOp_balanced hnf hline h)

end TAPIModem

namespace TAPIModemInfo

/-! ## The capability query of `availableModems` -/

/-- Whatever the subsystem answers, the loop around `lineGetDevCaps` is left
after its first call. -/
theorem devCapsLoop_one_call (env : Subsystem) (devId fuel attempt : Nat) (caps : LINEDEVCAPS)
    (tr : List Call) :
    devCapsLoop env devId (fuel + 1) attempt caps tr
      = if (env.lineGetDevCaps devId attempt caps.dwTotalSize).ret ≠ 0 then
          some (true, caps, tr ++ [.lineGetDevCaps devId caps.dwTotalSize])
        else if caps.dwTotalSize
            < (env.lineGetDevCaps devId attempt caps.dwTotalSize).dwNeededSize then
          some (false, grown (stored caps (env.lineGetDevCaps devId attempt caps.dwTotalSize)),
            tr ++ [.lineGetDevCaps devId caps.dwTotalSize,
                   .LocalReAlloc (env.lineGetDevCaps devId attempt caps.dwTotalSize).dwNeededSize])
        else
          some (false, stored caps (env.lineGetDevCaps devId attempt caps.dwTotalSize),
            tr ++ [.lineGetDevCaps devId caps.dwTotalSize]) := by
  simp only [devCapsLoop]
  split
  · rfl
  · have hg : ¬ (grown (stored caps (env.lineGetDevCaps devId attempt caps.dwTotalSize))).dwTotalSize
        < (grown (stored caps
            (env.lineGetDevCaps devId attempt caps.dwTotalSize))).dwNeededSize :=
      Nat.lt_irrefl _
    rw [if_neg hg]
    rfl

/-- C22 (the defect, evaluated and in general).  When the first call of
`lineGetDevCaps` for a device succeeds and reports a required size larger than
the record's total size, the loop grows the record and is left at once: the
record read afterwards holds what that first call stored, and the trace of the
loop is the one call with the old size followed by `LocalReAlloc`.  In every
case the loop makes one call of `lineGetDevCaps`.  For the subsystem
`oneLargeDevice`, `availableModems` makes no call with the grown record of
5000 bytes and lists the modem without its name, which a call with the grown
record would have stored. -/
theorem devCaps_not_queried_again (fuel : Nat) (env : Subsystem) (devId : Nat)
    (caps : LINEDEVCAPS) (tr : List Call) :
    ((env.lineGetDevCaps devId 0 caps.dwTotalSize).ret = 0 →
      caps.dwTotalSize < (env.lineGetDevCaps devId 0 caps.dwTotalSize).dwNeededSize →
      devCapsLoop env devId (fuel + 1) 0 caps tr
        = some (false, grown (stored caps (env.lineGetDevCaps devId 0 caps.dwTotalSize)),
            tr ++ [.lineGetDevCaps devId caps.dwTotalSize,
                   .LocalReAlloc (env.lineGetDevCaps devId 0 caps.dwTotalSize).dwNeededSize])) ∧
    (∃ e c rest, devCapsLoop env devId (fuel + 1) 0 caps tr
        = some (e, c, tr ++ Call.lineGetDevCaps devId caps.dwTotalSize :: rest) ∧
      ∀ d t, Call.lineGetDevCaps d t ∉ rest) ∧
    (oneLargeDevice.lineGetDevCaps 0 0 4096).ret = 0 ∧
    4096 < (oneLargeDevice.lineGetDevCaps 0 0 4096).dwNeededSize ∧
    availableModems (fuel + 1) oneLargeDevice
      = some ([{ devId := 0, name := "NONAME MODEM 0" }],
          [.lineInitializeEx, .lineNegotiateAPIVersion 0, .lineGetDevCaps 0 4096,
           .LocalReAlloc 5000, .lineOpen 0, .lineClose, .lineShutdown]) ∧
    Call.lineGetDevCaps 0 5000 ∉
      [Call.lineInitializeEx, .lineNegotiateAPIVersion 0, .lineGetDevCaps 0 4096,
       .LocalReAlloc 5000, .lineOpen 0, .lineClose, .lineShutdown] ∧
    modemName oneLargeDevice 0
      (stored { dwTotalSize := 5000 } (oneLargeDevice.lineGetDevCaps 0 1 5000)) = "Modem A" := by
  refine ⟨?_, ?_, by decide, by decide, ?_, by decide, by decide⟩
  · intro hret hsmall
    rw [devCapsLoop_one_call, if_neg (by simp [hret]), if_pos hsmall]
  · rw [devCapsLoop_one_call]
    split
    · exact ⟨_, _, [], rfl, by simp⟩
    · split
      · exact ⟨false, _, [.LocalReAlloc _], rfl, by simp⟩
      · exact ⟨_, _, [], rfl, by simp⟩
  · have hinit : initializeLoop oneLargeDevice (fuel + 1) 0 = some (some 1, 1) := by
      simp only [initializeLoop, oneLargeDevice]
      rw [if_neg (by decide), if_neg (by decide)]
    have hloop : ∀ tr, devCapsLoop oneLargeDevice 0 (fuel + 1) 0 { dwTotalSize := 4096 } tr
        = some (false, { dwTotalSize := 5000, dwNeededSize := 5000,
                         dwMediaModes := LINEMEDIAMODE_DATAMODEM },
            tr ++ [.lineGetDevCaps 0 4096, .LocalReAlloc 5000]) := by
      intro tr
      rw [devCapsLoop_one_call]
      rfl
    unfold availableModems
    rw [hinit]
    simp only
    rw [show List.range 1 = [0] from rfl]
    simp only [listDevices, hloop]
    rfl

end TAPIModemInfo

namespace TAPIModem

/-! ## Write reconciliation after a failed read in the same event -/

end TAPIModem

namespace TAPIModem

/-! ## Two mutexes held at the same time -/

/-- On a line that is already open, `connectToNumber` entered with no mutex
held locks `callMutex` while it still holds `lineMutex`. -/
theorem connectToNumber_nested (env : Env) (s : TAPIModem)
    (hinit : s.tapiStateFlag = .Initialized) (hn : 0 ≤ env.lineNegotiateAPIVersion)
    (hl : s.hlDevice ≠ 0) :
    lockRun [] (connectToNumber env s).2 = none := by
  unfold connectToNumber
  simp only
  rw [if_neg (by rw [hinit]; simp), if_neg (not_lt.mpr hn), if_neg hl]
  unfold makeCallSection
  split
  · split <;> rfl
  · rfl

theorem reachable_stRedialed : Reachable stRedialed :=
  Reachable.step 1 envOk .connectToNumber reachable_stLineOpen rfl
    (show runOp 1 envOk stLineOpen .connectToNumber
      = some (stRedialed,
          [.call .lineNegotiateAPIVersion, .lock .lineMutex,
           .lock .callMutex, .call .lineMakeCall, .unlock .callMutex])
      from rfl)

/-- C19 (the defect, evaluated and in general).  Every call is judged from the
mutexes held when it is entered; `lockRun held tr` is `none` as soon as a mutex
is locked while another is held.
(1) `connectToNumber` on the open line of the reachable state `stLineOpen`,
entered with no mutex held, locks `callMutex` while it holds `lineMutex`, and
returns holding `lineMutex`.  (2) The `writeData` that follows is entered with
`lineMutex` held and locks `commMutex`: two mutexes are held although no call
of a teardown fails.  (3) The teardown of the connected modem, entered with no
mutex held, with a failing `lineClose`: `deinitializeTAPI` locks `lineAppMutex`
(entry 8 of the trace) while `lineMutex`, locked at entry 5, is held.
In general, for calls entered with no mutex held: (4) `connectToNumber` on an
open line of an initialized subsystem, once the version is negotiated, holds
two mutexes at once; (5) a `hangupCall` from an initialized subsystem holds one
mutex at a time and none at its end when it leaves the subsystem initialized,
and holds two at once when it shuts the subsystem down (a teardown call
failed); (6) while no call of a teardown fails, every entry point (with
`connectToNumber` taken on a line that is not open yet) holds one mutex at a
time and returns with none held, so that the next call is again entered with
no mutex held; (7) so do `deinitializeTAPI` and `initializeCommPort` on their
own. -/
theorem two_mutexes_held_at_once (fuel : Nat) (env : Env) (s : TAPIModem) :
    (Reachable stLineOpen ∧
      connectToNumber envOk stLineOpen
        = (stRedialed,
           [.call .lineNegotiateAPIVersion, .lock .lineMutex,
            .lock .callMutex, .call .lineMakeCall, .unlock .callMutex]) ∧
      lockRun [] [.call .lineNegotiateAPIVersion, .lock .lineMutex] = some [.lineMutex] ∧
      lockStep [.lineMutex] (.lock .callMutex) = none ∧
      lockRun [] [.call .lineNegotiateAPIVersion, .lock .lineMutex,
                  .lock .callMutex, .call .lineMakeCall, .unlock .callMutex] = none ∧
      heldAfter [] [.call .lineNegotiateAPIVersion, .lock .lineMutex,
                    .lock .callMutex, .call .lineMakeCall, .unlock .callMutex]
        = [.lineMutex]) ∧
    (Reachable stRedialed ∧ TeardownNeverFails envOk ∧
      writeData 1 envOk stRedialed 5
        = some (stRedialed, [.lock .commMutex, .unlock .commMutex], 5) ∧
      lockStep [.lineMutex] (.lock .commMutex) = none ∧
      lockRun [.lineMutex] [.lock .commMutex, .unlock .commMutex] = none) ∧
    (Reachable stConnected ∧
      hangupCall 1 envCloseFails stConnected
        = some (stCloseFailed,
            [.lock .callMutex, .call .lineGetCallStatus, .call .lineDrop,
             .call .lineDeallocateCall, .unlock .callMutex,
             .lock .lineMutex, .call .lineClose, .errorOccurred LineDeallocationError,
             .lock .lineAppMutex, .call .lineShutdown, .unlock .lineAppMutex,
             .tapiStateChanged .Uninitialized]) ∧
      lockRun []
        [.lock .callMutex, .call .lineGetCallStatus, .call .lineDrop,
         .call .lineDeallocateCall, .unlock .callMutex,
         .lock .lineMutex, .call .lineClose, .errorOccurred LineDeallocationError]
        = some [.lineMutex] ∧
      lockStep [.lineMutex] (.lock .lineAppMutex) = none ∧
      lockRun []
        [.lock .callMutex, .call .lineGetCallStatus, .call .lineDrop,
         .call .lineDeallocateCall, .unlock .callMutex,
         .lock .lineMutex, .call .lineClose, .errorOccurred LineDeallocationError,
         .lock .lineAppMutex, .call .lineShutdown, .unlock .lineAppMutex,
         .tapiStateChanged .Uninitialized] = none) ∧
    (s.tapiStateFlag = .Initialized → 0 ≤ env.lineNegotiateAPIVersion → s.hlDevice ≠ 0 →
      lockRun [] (connectToNumber env s).2 = none) ∧
    (s.tapiStateFlag = .Initialized → ∀ s1 tr, hangupCall fuel env s = some (s1, tr) →
      (s1.tapiStateFlag = .Initialized → lockRun [] tr = some []) ∧
      (s1.tapiStateFlag = .Uninitialized → lockRun [] tr = none)) ∧
    (TeardownNeverFails env → ∀ op s1 tr,
      (op = .connectToNumber ∨ (∃ m d, op = .connectToNumberTo m d) → s.hlDevice = 0) →
      runOp fuel env s op = some (s1, tr) → lockRun [] tr = some []) ∧
    lockRun [] (deinitializeTAPI s).2 = some [] ∧
    lockRun [] (initializeCommPort env s).2 = some [] := by
  refine ⟨⟨reachable_stLineOpen, rfl, rfl, rfl, rfl, rfl⟩,
    ⟨reachable_stRedialed, teardownNeverFails_envOk, rfl, rfl, rfl⟩,
    ⟨reachable_stConnected, rfl, rfl, rfl, rfl⟩,
    connectToNumber_nested env s, ?_, ?_,
    balanced_deinitializeTAPI s, balanced_initializeCommPort env s⟩
  · intro hinit s1 tr h
    rcases hangupCall_locks hinit h with ⟨hi, hb⟩ | ⟨hu, hn⟩
    · refine ⟨fun _ => hb, fun hu => ?_⟩
      rw [hi] at hu; exact absurd hu (by decide)
    · refine ⟨fun hi => ?_, fun _ => hn⟩
      rw [hu] at hi; exact absurd hi (by decide)
  · intro hnf op s1 tr hline h
    exact runOp_balanced hnf hline h

end TAPIModem
